import Mathlib

/-!
# DeckLink binding layer: the reference-counted input callback adapter

A shallow embedding of `decklink/cpp/callback.h`, `decklink/cpp/callback.cpp`,
of `decklink/cpp/enums.cpp` (the bitmask encoder/decoder pairs, the identifier
tables and `into_video_io_support`) and of these functions of
`decklink/cpp/api.cpp`: `input_set_callback`, `input_supports_video_mode`,
`profile_manager_profiles`, `video_input_frame_bytes`, `audio_input_packet_bytes`.

Conventions.

* `int32_t` is a mathematical integer together with its range; arithmetic on it
  wraps (`wrap_int32`), as the `__sync_*_and_fetch` builtins do.
* Unsigned vendor integers (`ULONG`, the `BMD...` bitmask typedefs, `HRESULT`
  codes) are natural numbers; a conversion into a `w`-bit type is `% 2 ^ w`.
* The heap is explicit: the slot of the adapter is `none` once `delete this` has
  run, and the handlers whose destructor has run are recorded in order.
* The vendor header `DeckLinkAPI.h` and the generated headers `api.rs.h`,
  `enums.rs.h` are not part of the sources; what the code uses from them is a
  parameter (`DeckLinkAPI`, `DeckLinkFlagConstants`, `EnumConstants`) or a
  record written after the code that fills it.
* A function that throws returns `Except String`, the error being the message
  of the exception; values of enum types are raw integers.
-/

namespace DeckLink

/-! ## Machine integers -/

/-- A signed 32-bit integer (`int32_t` of `<cstdint>`): its value and its range. -/
structure int32_t where
  val : Int
  lo : -2147483648 ≤ val
  hi : val ≤ 2147483647
deriving DecidableEq

/-- Two's-complement wrap-around of a mathematical integer into `int32_t`. -/
def wrap_int32 (v : Int) : int32_t :=
  ⟨(v + 2147483648) % 4294967296 - 2147483648, by omega, by omega⟩

/-- Implicit conversion of an `int32_t` to the unsigned vendor type `ULONG`,
which is `bits` wide: reduction modulo `2 ^ bits`. -/
def to_ULONG (bits : Nat) (v : int32_t) : Nat :=
  (v.val % (2 : Int) ^ bits).toNat

/-- Vendor status code `HRESULT`, kept as its 32-bit code. -/
abbrev HRESULT := Nat

/-- Modelled from the spec: the handler status `HResult`, a shared enum declared
in the generated header `api.rs.h` (missing from the sources). The spec calls it
a small closed success/failure status that is mapped one-to-one onto the vendor
status-code type; it is kept as the 32-bit code of its enumerator. -/
structure HResult where
  code : Nat
  code_lt : code < 4294967296
deriving DecidableEq

/-- The conversion `static_cast<HRESULT>(result)` of a handler status. -/
def static_cast_HRESULT (result : HResult) : HRESULT :=
  result.code % 4294967296

/-- The conversion `static_cast<HResult>(result)` of a vendor status. -/
def static_cast_HResult (result : HRESULT) : HResult :=
  ⟨result % 4294967296, Nat.mod_lt _ (by decide)⟩

/-- A raw pointer handed over by the vendor SDK: `none` is the null pointer,
`some a` points to the object at address `a`. -/
abbrev Ptr := Option Nat

/-! ## Vendor declarations taken as parameters -/

/-- What the sources use from the vendor header `DeckLinkAPI.h`: the width of
`ULONG`, the status `E_NOINTERFACE`, and the bit constants of the two bitmask
types the adapter decodes. -/
structure DeckLinkAPI where
  ULONG_bits : Nat
  E_NOINTERFACE : HRESULT
  bmdVideoInputDisplayModeChanged : Nat
  bmdVideoInputFieldDominanceChanged : Nat
  bmdVideoInputColorspaceChanged : Nat
  bmdDetectedVideoInputYCbCr422 : Nat
  bmdDetectedVideoInputRGB444 : Nat
  bmdDetectedVideoInputDualStream3D : Nat
  bmdDetectedVideoInput12BitDepth : Nat
  bmdDetectedVideoInput10BitDepth : Nat
  bmdDetectedVideoInput8BitDepth : Nat

/-- The three format-changed event constants are three different single bits. -/
def DeckLinkAPI.FormatChangedBits (sdk : DeckLinkAPI) : Prop :=
  ∃ a b c : Nat, a ≠ b ∧ a ≠ c ∧ b ≠ c ∧
    sdk.bmdVideoInputDisplayModeChanged = 2 ^ a ∧
    sdk.bmdVideoInputFieldDominanceChanged = 2 ^ b ∧
    sdk.bmdVideoInputColorspaceChanged = 2 ^ c

/-- A concrete set of vendor values (32-bit `ULONG`, the bits in header order),
used to instantiate the theorems. -/
def sdk0 : DeckLinkAPI where
  ULONG_bits := 32
  E_NOINTERFACE := 0x80000004
  bmdVideoInputDisplayModeChanged := 1
  bmdVideoInputFieldDominanceChanged := 2
  bmdVideoInputColorspaceChanged := 4
  bmdDetectedVideoInputYCbCr422 := 1
  bmdDetectedVideoInputRGB444 := 2
  bmdDetectedVideoInputDualStream3D := 4
  bmdDetectedVideoInput12BitDepth := 8
  bmdDetectedVideoInput10BitDepth := 16
  bmdDetectedVideoInput8BitDepth := 32

/-! ## Bitmask records (`enums.cpp`) -/

/-- The shared record `VideoInputFormatChangedEvents`, with the fields that
`into_video_input_format_changed_events` fills. -/
structure VideoInputFormatChangedEvents where
  display_mode_changed : Bool
  field_dominance_changed : Bool
  colorspace_changed : Bool
deriving DecidableEq

/-- The shared record `DetectedVideoInputFormatFlags`, with the fields that
`into_detected_video_input_format_flags` fills. -/
structure DetectedVideoInputFormatFlags where
  format_y_cb_cr_422 : Bool
  format_rgb_444 : Bool
  dual_stream_3d : Bool
  bit_depth_12 : Bool
  bit_depth_10 : Bool
  bit_depth_8 : Bool
deriving DecidableEq

/-- `into_video_input_format_changed_events` (enums.cpp, 926-935). -/
def into_video_input_format_changed_events (sdk : DeckLinkAPI) (bmd_flags : Nat) :
    VideoInputFormatChangedEvents where
  display_mode_changed :=
    decide ((bmd_flags &&& sdk.bmdVideoInputDisplayModeChanged) ≠ 0)
  field_dominance_changed :=
    decide ((bmd_flags &&& sdk.bmdVideoInputFieldDominanceChanged) ≠ 0)
  colorspace_changed :=
    decide ((bmd_flags &&& sdk.bmdVideoInputColorspaceChanged) ≠ 0)

/-- `into_detected_video_input_format_flags` (enums.cpp, 899-909). -/
def into_detected_video_input_format_flags (sdk : DeckLinkAPI) (bmd_flags : Nat) :
    DetectedVideoInputFormatFlags where
  format_y_cb_cr_422 := decide ((bmd_flags &&& sdk.bmdDetectedVideoInputYCbCr422) ≠ 0)
  format_rgb_444 := decide ((bmd_flags &&& sdk.bmdDetectedVideoInputRGB444) ≠ 0)
  dual_stream_3d := decide ((bmd_flags &&& sdk.bmdDetectedVideoInputDualStream3D) ≠ 0)
  bit_depth_12 := decide ((bmd_flags &&& sdk.bmdDetectedVideoInput12BitDepth) ≠ 0)
  bit_depth_10 := decide ((bmd_flags &&& sdk.bmdDetectedVideoInput10BitDepth) ≠ 0)
  bit_depth_8 := decide ((bmd_flags &&& sdk.bmdDetectedVideoInput8BitDepth) ≠ 0)

/-! ## The adapter and the heap it lives in (`callback.h`) -/

/-- One invocation of a method of the bound handler (`DynInputCallback`), with
the arguments it received. -/
inductive HandlerCall where
  | video_input_frame_arrived (video_frame : Ptr) (audio_packet : Ptr)
  | video_input_format_changed (events : VideoInputFormatChangedEvents)
      (display_mode : Ptr) (flags : DetectedVideoInputFormatFlags)
deriving DecidableEq

/-- The object `InputCallbackWrapper`: the boxed handler `cb` and `refcount`. -/
structure InputCallbackWrapper (H : Type) where
  cb : H
  refcount : int32_t
deriving DecidableEq

/-- The constructor `InputCallbackWrapper(cb)`: the handler is moved in and
`refcount` takes its default member initialiser `1`. -/
def InputCallbackWrapper.ctor {H : Type} (cb : H) : InputCallbackWrapper H :=
  ⟨cb, ⟨1, by decide, by decide⟩⟩

/-- The part of the program state the adapter acts on. `wrapper` is the heap
slot of the adapter (`none` after `delete this`); `dropped` lists the handlers
whose destructor has run, oldest first; `calls` lists the handler invocations
made so far, oldest first, each with the handler that received it. -/
structure World (H : Type) where
  wrapper : Option (InputCallbackWrapper H)
  dropped : List H
  calls : List (H × HandlerCall)
deriving DecidableEq

/-- The behaviour of the handlers: the status a handler returns for a call,
given the calls it has seen before. -/
abbrev Respond (H : Type) := H → List (H × HandlerCall) → HandlerCall → HResult

/-- The state right after `new InputCallbackWrapper(cb)` in an empty world. -/
def World.fresh {H : Type} (cb : H) : World H :=
  ⟨some (InputCallbackWrapper.ctor cb), [], []⟩

/-! ## The methods (`callback.h`, `callback.cpp`) -/

/-- `InputCallbackWrapper::QueryInterface` (callback.h, 12-14). The second
argument is the content of the location `LPVOID *` points to; the result carries
the content after the call. A call on a deleted object has no result. -/
def InputCallbackWrapper.QueryInterface {H : Type} (sdk : DeckLinkAPI) (s : World H)
    (_iid : Nat) (out : Ptr) : Option (World H × Ptr × HRESULT) :=
  match s.wrapper with
  | none => none
  | some _ => some (s, out, sdk.E_NOINTERFACE)

/-- `InputCallbackWrapper::AddRef` (callback.cpp, 5-7). -/
def InputCallbackWrapper.AddRef {H : Type} (sdk : DeckLinkAPI) (s : World H) :
    Option (World H × Nat) :=
  match s.wrapper with
  | none => none
  | some this =>
    let new_refcount := wrap_int32 (this.refcount.val + 1)
    some ({ s with wrapper := some { this with refcount := new_refcount } },
      to_ULONG sdk.ULONG_bits new_refcount)

/-- `InputCallbackWrapper::Release` (callback.cpp, 9-16). `delete this` empties
the slot and runs the destructor of the boxed handler. -/
def InputCallbackWrapper.Release {H : Type} (sdk : DeckLinkAPI) (s : World H) :
    Option (World H × Nat) :=
  match s.wrapper with
  | none => none
  | some this =>
    let new_refcount := wrap_int32 (this.refcount.val - 1)
    if new_refcount.val = 0 then
      some ({ s with wrapper := none, dropped := s.dropped ++ [this.cb] }, 0)
    else
      some ({ s with wrapper := some { this with refcount := new_refcount } },
        to_ULONG sdk.ULONG_bits new_refcount)

/-- `InputCallbackWrapper::VideoInputFrameArrived` (callback.cpp, 18-23). -/
def InputCallbackWrapper.VideoInputFrameArrived {H : Type} (respond : Respond H)
    (s : World H) (video_frame audio_packet : Ptr) : Option (World H × HRESULT) :=
  match s.wrapper with
  | none => none
  | some this =>
    let call := HandlerCall.video_input_frame_arrived video_frame audio_packet
    let result := respond this.cb s.calls call
    some ({ s with calls := s.calls ++ [(this.cb, call)] }, static_cast_HRESULT result)

/-- `InputCallbackWrapper::VideoInputFormatChanged` (callback.cpp, 25-32). -/
def InputCallbackWrapper.VideoInputFormatChanged {H : Type} (sdk : DeckLinkAPI)
    (respond : Respond H) (s : World H) (events : Nat) (display_mode : Ptr)
    (flags : Nat) : Option (World H × HRESULT) :=
  match s.wrapper with
  | none => none
  | some this =>
    let call := HandlerCall.video_input_format_changed
      (into_video_input_format_changed_events sdk events) display_mode
      (into_detected_video_input_format_flags sdk flags)
    let result := respond this.cb s.calls call
    some ({ s with calls := s.calls ++ [(this.cb, call)] }, static_cast_HRESULT result)

/-- `input_set_callback` (api.cpp, 136-142). The vendor method
`IDeckLinkInput::SetCallback` is a parameter: what it does to the adapter it is
handed, and the status it returns. -/
def input_set_callback {H : Type} (SetCallback : World H → Option (World H × HRESULT))
    (cb : H) : Option (World H × HResult) :=
  let wrapper := World.fresh cb
  match SetCallback wrapper with
  | none => none
  | some (s, result) => some (s, static_cast_HResult result)

/-- A vendor `IDeckLinkInput::SetCallback` that stores the adapter it is handed,
acquires one reference to it with `AddRef`, and reports success (`S_OK`, `0`). -/
def SetCallback_acquiring {H : Type} (sdk : DeckLinkAPI) (s : World H) :
    Option (World H × HRESULT) :=
  (InputCallbackWrapper.AddRef sdk s).map fun p => (p.1, 0)

/-! ## Sequences of reference-count calls -/

/-- The two reference-count methods. -/
inductive RefCall where
  | AddRef
  | Release
deriving DecidableEq

/-- One reference-count call on the adapter. -/
def call {H : Type} (sdk : DeckLinkAPI) (s : World H) : RefCall → Option (World H × Nat)
  | .AddRef => InputCallbackWrapper.AddRef sdk s
  | .Release => InputCallbackWrapper.Release sdk s

/-- A sequence of reference-count calls made one after the other: the final
state and the values returned, in call order. There is no result when a call is
made on a deleted adapter. -/
def run {H : Type} (sdk : DeckLinkAPI) (ops : List RefCall) (s : World H) :
    Option (World H × List Nat) :=
  ops.foldl
    (fun acc c => acc.bind fun p => (call sdk p.1 c).map fun q => (q.1, p.2 ++ [q.2]))
    (some (s, []))

/-- The calls of a sequence that are a `Release` returning `0`, each paired with
the value it returned. -/
def zeroReleases (ops : List RefCall) (rets : List Nat) : List (RefCall × Nat) :=
  (ops.zip rets).filter fun p => decide (p.1 = RefCall.Release ∧ p.2 = 0)

/-! ## The other two bitmask types (`enums.cpp`) -/

/-- What `enums.cpp` uses from the vendor header `DeckLinkAPI.h` for the bitmask
types `BMDVideoInputFlags` and `BMDSupportedVideoModeFlags`: the named default
value and the bit constants of each. -/
structure DeckLinkFlagConstants where
  bmdVideoInputFlagDefault : Nat
  bmdVideoInputEnableFormatDetection : Nat
  bmdVideoInputDualStream3D : Nat
  bmdVideoInputSynchronizeToCaptureGroup : Nat
  bmdSupportedVideoModeDefault : Nat
  bmdSupportedVideoModeKeying : Nat
  bmdSupportedVideoModeDualStream3D : Nat
  bmdSupportedVideoModeSDISingleLink : Nat
  bmdSupportedVideoModeSDIDualLink : Nat
  bmdSupportedVideoModeSDIQuadLink : Nat
  bmdSupportedVideoModeInAnyProfile : Nat
  bmdSupportedVideoModePsF : Nat

/-- A concrete set of values for these constants: both defaults `0`, the bits in
header order. -/
def flags0 : DeckLinkFlagConstants where
  bmdVideoInputFlagDefault := 0
  bmdVideoInputEnableFormatDetection := 1
  bmdVideoInputDualStream3D := 2
  bmdVideoInputSynchronizeToCaptureGroup := 4
  bmdSupportedVideoModeDefault := 0
  bmdSupportedVideoModeKeying := 1
  bmdSupportedVideoModeDualStream3D := 2
  bmdSupportedVideoModeSDISingleLink := 4
  bmdSupportedVideoModeSDIDualLink := 8
  bmdSupportedVideoModeSDIQuadLink := 16
  bmdSupportedVideoModeInAnyProfile := 32
  bmdSupportedVideoModePsF := 64

/-- The six detected-format constants are six different single bits. -/
def DeckLinkAPI.DetectedFormatBits (sdk : DeckLinkAPI) : Prop :=
  ∃ idx : Fin 6 → Nat, Function.Injective idx ∧
    sdk.bmdDetectedVideoInputYCbCr422 = 2 ^ idx 0 ∧
    sdk.bmdDetectedVideoInputRGB444 = 2 ^ idx 1 ∧
    sdk.bmdDetectedVideoInputDualStream3D = 2 ^ idx 2 ∧
    sdk.bmdDetectedVideoInput12BitDepth = 2 ^ idx 3 ∧
    sdk.bmdDetectedVideoInput10BitDepth = 2 ^ idx 4 ∧
    sdk.bmdDetectedVideoInput8BitDepth = 2 ^ idx 5

/-- The three video-input flag constants are three different single bits, none
of which is set in the default value. -/
def DeckLinkFlagConstants.VideoInputFlagBits (k : DeckLinkFlagConstants) : Prop :=
  ∃ idx : Fin 3 → Nat, Function.Injective idx ∧
    (∀ i, k.bmdVideoInputFlagDefault.testBit (idx i) = false) ∧
    k.bmdVideoInputEnableFormatDetection = 2 ^ idx 0 ∧
    k.bmdVideoInputDualStream3D = 2 ^ idx 1 ∧
    k.bmdVideoInputSynchronizeToCaptureGroup = 2 ^ idx 2

/-- The seven supported-video-mode constants are seven different single bits,
none of which is set in the default value. -/
def DeckLinkFlagConstants.SupportedVideoModeBits (k : DeckLinkFlagConstants) : Prop :=
  ∃ idx : Fin 7 → Nat, Function.Injective idx ∧
    (∀ i, k.bmdSupportedVideoModeDefault.testBit (idx i) = false) ∧
    k.bmdSupportedVideoModeKeying = 2 ^ idx 0 ∧
    k.bmdSupportedVideoModeDualStream3D = 2 ^ idx 1 ∧
    k.bmdSupportedVideoModeSDISingleLink = 2 ^ idx 2 ∧
    k.bmdSupportedVideoModeSDIDualLink = 2 ^ idx 3 ∧
    k.bmdSupportedVideoModeSDIQuadLink = 2 ^ idx 4 ∧
    k.bmdSupportedVideoModeInAnyProfile = 2 ^ idx 5 ∧
    k.bmdSupportedVideoModePsF = 2 ^ idx 6

/-- The shared record `VideoInputFlags`, with the fields that
`into_video_input_flags` fills. -/
structure VideoInputFlags where
  enable_format_detection : Bool
  dual_stream_3d : Bool
  synchronize_to_capture_group : Bool
deriving DecidableEq

/-- The shared record `SupportedVideoModeFlags`, with the fields that
`into_supported_video_mode_flags` fills. -/
structure SupportedVideoModeFlags where
  supports_keying : Bool
  supports_dual_stream_3d : Bool
  supports_SDI_single_link : Bool
  supports_SDI_dual_link : Bool
  supports_SDI_quad_link : Bool
  supports_in_any_profile : Bool
  supports_PsF : Bool
deriving DecidableEq

/-- `from_supported_video_mode_flags` (enums.cpp, 805-831). -/
def from_supported_video_mode_flags (k : DeckLinkFlagConstants)
    (flags : SupportedVideoModeFlags) : Nat :=
  let bmd_flags := k.bmdSupportedVideoModeDefault
  let bmd_flags :=
    if flags.supports_keying then bmd_flags ||| k.bmdSupportedVideoModeKeying else bmd_flags
  let bmd_flags :=
    if flags.supports_dual_stream_3d then bmd_flags ||| k.bmdSupportedVideoModeDualStream3D
    else bmd_flags
  let bmd_flags :=
    if flags.supports_SDI_single_link then bmd_flags ||| k.bmdSupportedVideoModeSDISingleLink
    else bmd_flags
  let bmd_flags :=
    if flags.supports_SDI_dual_link then bmd_flags ||| k.bmdSupportedVideoModeSDIDualLink
    else bmd_flags
  let bmd_flags :=
    if flags.supports_SDI_quad_link then bmd_flags ||| k.bmdSupportedVideoModeSDIQuadLink
    else bmd_flags
  let bmd_flags :=
    if flags.supports_in_any_profile then bmd_flags ||| k.bmdSupportedVideoModeInAnyProfile
    else bmd_flags
  let bmd_flags :=
    if flags.supports_PsF then bmd_flags ||| k.bmdSupportedVideoModePsF else bmd_flags
  bmd_flags

/-- `into_supported_video_mode_flags` (enums.cpp, 833-849). -/
def into_supported_video_mode_flags (k : DeckLinkFlagConstants) (bmd_flags : Nat) :
    SupportedVideoModeFlags where
  supports_keying := decide ((bmd_flags &&& k.bmdSupportedVideoModeKeying) ≠ 0)
  supports_dual_stream_3d :=
    decide ((bmd_flags &&& k.bmdSupportedVideoModeDualStream3D) ≠ 0)
  supports_SDI_single_link :=
    decide ((bmd_flags &&& k.bmdSupportedVideoModeSDISingleLink) ≠ 0)
  supports_SDI_dual_link :=
    decide ((bmd_flags &&& k.bmdSupportedVideoModeSDIDualLink) ≠ 0)
  supports_SDI_quad_link :=
    decide ((bmd_flags &&& k.bmdSupportedVideoModeSDIQuadLink) ≠ 0)
  supports_in_any_profile :=
    decide ((bmd_flags &&& k.bmdSupportedVideoModeInAnyProfile) ≠ 0)
  supports_PsF := decide ((bmd_flags &&& k.bmdSupportedVideoModePsF) ≠ 0)

/-- `from_video_input_flags` (enums.cpp, 851-863). -/
def from_video_input_flags (k : DeckLinkFlagConstants) (flags : VideoInputFlags) : Nat :=
  let bmd_flags := k.bmdVideoInputFlagDefault
  let bmd_flags :=
    if flags.enable_format_detection then bmd_flags ||| k.bmdVideoInputEnableFormatDetection
    else bmd_flags
  let bmd_flags :=
    if flags.dual_stream_3d then bmd_flags ||| k.bmdVideoInputDualStream3D else bmd_flags
  let bmd_flags :=
    if flags.synchronize_to_capture_group then
      bmd_flags ||| k.bmdVideoInputSynchronizeToCaptureGroup
    else bmd_flags
  bmd_flags

/-- `into_video_input_flags` (enums.cpp, 865-873). -/
def into_video_input_flags (k : DeckLinkFlagConstants) (bmd_flags : Nat) :
    VideoInputFlags where
  enable_format_detection :=
    decide ((bmd_flags &&& k.bmdVideoInputEnableFormatDetection) ≠ 0)
  dual_stream_3d := decide ((bmd_flags &&& k.bmdVideoInputDualStream3D) ≠ 0)
  synchronize_to_capture_group :=
    decide ((bmd_flags &&& k.bmdVideoInputSynchronizeToCaptureGroup) ≠ 0)

/-- `from_detected_video_input_format_flags` (enums.cpp, 875-897). -/
def from_detected_video_input_format_flags (sdk : DeckLinkAPI)
    (flags : DetectedVideoInputFormatFlags) : Nat :=
  let bmd_flags := 0
  let bmd_flags :=
    if flags.format_y_cb_cr_422 then bmd_flags ||| sdk.bmdDetectedVideoInputYCbCr422
    else bmd_flags
  let bmd_flags :=
    if flags.format_rgb_444 then bmd_flags ||| sdk.bmdDetectedVideoInputRGB444 else bmd_flags
  let bmd_flags :=
    if flags.dual_stream_3d then bmd_flags ||| sdk.bmdDetectedVideoInputDualStream3D
    else bmd_flags
  let bmd_flags :=
    if flags.bit_depth_12 then bmd_flags ||| sdk.bmdDetectedVideoInput12BitDepth
    else bmd_flags
  let bmd_flags :=
    if flags.bit_depth_10 then bmd_flags ||| sdk.bmdDetectedVideoInput10BitDepth
    else bmd_flags
  let bmd_flags :=
    if flags.bit_depth_8 then bmd_flags ||| sdk.bmdDetectedVideoInput8BitDepth else bmd_flags
  bmd_flags

/-- `from_video_input_format_changed_events` (enums.cpp, 911-924). -/
def from_video_input_format_changed_events (sdk : DeckLinkAPI)
    (flags : VideoInputFormatChangedEvents) : Nat :=
  let bmd_flags := 0
  let bmd_flags :=
    if flags.display_mode_changed then bmd_flags ||| sdk.bmdVideoInputDisplayModeChanged
    else bmd_flags
  let bmd_flags :=
    if flags.field_dominance_changed then
      bmd_flags ||| sdk.bmdVideoInputFieldDominanceChanged
    else bmd_flags
  let bmd_flags :=
    if flags.colorspace_changed then bmd_flags ||| sdk.bmdVideoInputColorspaceChanged
    else bmd_flags
  bmd_flags

/-- The OR of the known bits of `BMDVideoInputFormatChangedEvents`. -/
def DeckLinkAPI.formatChangedKnown (sdk : DeckLinkAPI) : Nat :=
  sdk.bmdVideoInputDisplayModeChanged ||| sdk.bmdVideoInputFieldDominanceChanged |||
    sdk.bmdVideoInputColorspaceChanged

/-- The OR of the known bits of `BMDDetectedVideoInputFormatFlags`. -/
def DeckLinkAPI.detectedFormatKnown (sdk : DeckLinkAPI) : Nat :=
  sdk.bmdDetectedVideoInputYCbCr422 ||| sdk.bmdDetectedVideoInputRGB444 |||
    sdk.bmdDetectedVideoInputDualStream3D ||| sdk.bmdDetectedVideoInput12BitDepth |||
    sdk.bmdDetectedVideoInput10BitDepth ||| sdk.bmdDetectedVideoInput8BitDepth

/-- The OR of the known bits of `BMDVideoInputFlags`. -/
def DeckLinkFlagConstants.videoInputKnown (k : DeckLinkFlagConstants) : Nat :=
  k.bmdVideoInputEnableFormatDetection ||| k.bmdVideoInputDualStream3D |||
    k.bmdVideoInputSynchronizeToCaptureGroup

/-- The OR of the known bits of `BMDSupportedVideoModeFlags`. -/
def DeckLinkFlagConstants.supportedVideoModeKnown (k : DeckLinkFlagConstants) : Nat :=
  k.bmdSupportedVideoModeKeying ||| k.bmdSupportedVideoModeDualStream3D |||
    k.bmdSupportedVideoModeSDISingleLink ||| k.bmdSupportedVideoModeSDIDualLink |||
    k.bmdSupportedVideoModeSDIQuadLink ||| k.bmdSupportedVideoModeInAnyProfile |||
    k.bmdSupportedVideoModePsF

/-! ## Status codes -/

/-- Modelled from the spec: the vendor status `S_OK` of `DeckLinkAPI.h`, the
"OK" code of the vendor status-code type. -/
def S_OK : HRESULT := 0

/-- Modelled from the spec: the success enumerator `HResult::Ok` of the shared
enum `HResult` (declared in the generated header `api.rs.h`, missing from the
sources); the spec maps success onto the vendor "OK" code, so its code is that
of `S_OK`. Every other status is a failure status. -/
def HResult.Ok : HResult := ⟨0, by decide⟩

/-- The handler bound to the adapter, when the adapter is in place. -/
def World.boundHandler {H : Type} (s : World H) : Option H :=
  s.wrapper.map fun this => this.cb

/-! ## Identifier tables (`enums.cpp`) -/

/-- The numeric values behind the two columns of an identifier table whose rows
are generated by `CASE(VALUE)`: `shared VALUE` is the value of the enumerator
`T::VALUE` of the shared enum (generated header `enums.rs.h`), `bmd VALUE` the
value of the vendor constant `bmd##VALUE` (`DeckLinkAPI.h`). Neither header is
part of the sources. -/
structure EnumConstants (N : Type) where
  shared : N → Int
  bmd : N → Int

/-- A `switch` over rows generated by `CASE(VALUE)`: the first row whose case
label equals the scrutinee, if there is one. -/
def switch_case {N : Type} (rows : List N) (label : N → Int) (x : Int) : Option N :=
  rows.find? fun VALUE => decide (x = label VALUE)

/-- Formatting of an integer by `std::format` with the specification `:#x`:
an optional minus sign, the prefix `0x`, and the lower-case hexadecimal digits
of the magnitude. -/
def format_hex (v : Int) : String :=
  (if v < 0 then "-0x" else "0x") ++ String.mk (Nat.toDigits 16 v.natAbs)

/-- The names `VALUE` of the rows of the display-mode table. -/
inductive DisplayModeName where
  | ModeNTSC | ModeNTSC2398 | ModePAL | ModeNTSCp | ModePALp | ModeHD1080p2398 | ModeHD1080p24
  | ModeHD1080p25 | ModeHD1080p2997 | ModeHD1080p30 | ModeHD1080p4795 | ModeHD1080p48
  | ModeHD1080p50 | ModeHD1080p5994 | ModeHD1080p6000 | ModeHD1080p9590 | ModeHD1080p96
  | ModeHD1080p100 | ModeHD1080p11988 | ModeHD1080p120 | ModeHD1080i50 | ModeHD1080i5994
  | ModeHD1080i6000 | ModeHD720p50 | ModeHD720p5994 | ModeHD720p60 | Mode2k2398 | Mode2k24
  | Mode2k25 | Mode2kDCI2398 | Mode2kDCI24 | Mode2kDCI25 | Mode2kDCI2997 | Mode2kDCI30
  | Mode2kDCI4795 | Mode2kDCI48 | Mode2kDCI50 | Mode2kDCI5994 | Mode2kDCI60 | Mode2kDCI9590
  | Mode2kDCI96 | Mode2kDCI100 | Mode2kDCI11988 | Mode2kDCI120 | Mode4K2160p2398 | Mode4K2160p24
  | Mode4K2160p25 | Mode4K2160p2997 | Mode4K2160p30 | Mode4K2160p4795 | Mode4K2160p48
  | Mode4K2160p50 | Mode4K2160p5994 | Mode4K2160p60 | Mode4K2160p9590 | Mode4K2160p96
  | Mode4K2160p100 | Mode4K2160p11988 | Mode4K2160p120 | Mode4kDCI2398 | Mode4kDCI24
  | Mode4kDCI25 | Mode4kDCI2997 | Mode4kDCI30 | Mode4kDCI4795 | Mode4kDCI48 | Mode4kDCI50
  | Mode4kDCI5994 | Mode4kDCI60 | Mode4kDCI9590 | Mode4kDCI96 | Mode4kDCI100 | Mode4kDCI11988
  | Mode4kDCI120 | Mode8K4320p2398 | Mode8K4320p24 | Mode8K4320p25 | Mode8K4320p2997
  | Mode8K4320p30 | Mode8K4320p4795 | Mode8K4320p48 | Mode8K4320p50 | Mode8K4320p5994
  | Mode8K4320p60 | Mode8kDCI2398 | Mode8kDCI24 | Mode8kDCI25 | Mode8kDCI2997 | Mode8kDCI30
  | Mode8kDCI4795 | Mode8kDCI48 | Mode8kDCI50 | Mode8kDCI5994 | Mode8kDCI60 | Mode640x480p60
  | Mode800x600p60 | Mode1440x900p50 | Mode1440x900p60 | Mode1440x1080p50 | Mode1440x1080p60
  | Mode1600x1200p50 | Mode1600x1200p60 | Mode1920x1200p50 | Mode1920x1200p60 | Mode1920x1440p50
  | Mode1920x1440p60 | Mode2560x1440p50 | Mode2560x1440p60 | Mode2560x1600p50 | Mode2560x1600p60
  | ModeUnknown
deriving DecidableEq

/-- The rows of the `switch` of `from_display_mode_type`, in source order. -/
def from_display_mode_type_rows : List DisplayModeName :=
  [DisplayModeName.ModeNTSC, DisplayModeName.ModeNTSC2398, DisplayModeName.ModePAL,
   DisplayModeName.ModeNTSCp, DisplayModeName.ModePALp, DisplayModeName.ModeHD1080p2398,
   DisplayModeName.ModeHD1080p24, DisplayModeName.ModeHD1080p25,
   DisplayModeName.ModeHD1080p2997, DisplayModeName.ModeHD1080p30,
   DisplayModeName.ModeHD1080p4795, DisplayModeName.ModeHD1080p48,
   DisplayModeName.ModeHD1080p50, DisplayModeName.ModeHD1080p5994,
   DisplayModeName.ModeHD1080p6000, DisplayModeName.ModeHD1080p9590,
   DisplayModeName.ModeHD1080p96, DisplayModeName.ModeHD1080p100,
   DisplayModeName.ModeHD1080p11988, DisplayModeName.ModeHD1080p120,
   DisplayModeName.ModeHD1080i50, DisplayModeName.ModeHD1080i5994,
   DisplayModeName.ModeHD1080i6000, DisplayModeName.ModeHD720p50,
   DisplayModeName.ModeHD720p5994, DisplayModeName.ModeHD720p60, DisplayModeName.Mode2k2398,
   DisplayModeName.Mode2k24, DisplayModeName.Mode2k25, DisplayModeName.Mode2kDCI2398,
   DisplayModeName.Mode2kDCI24, DisplayModeName.Mode2kDCI25, DisplayModeName.Mode2kDCI2997,
   DisplayModeName.Mode2kDCI30, DisplayModeName.Mode2kDCI4795, DisplayModeName.Mode2kDCI48,
   DisplayModeName.Mode2kDCI50, DisplayModeName.Mode2kDCI5994, DisplayModeName.Mode2kDCI60,
   DisplayModeName.Mode2kDCI9590, DisplayModeName.Mode2kDCI96, DisplayModeName.Mode2kDCI100,
   DisplayModeName.Mode2kDCI11988, DisplayModeName.Mode2kDCI120,
   DisplayModeName.Mode4K2160p2398, DisplayModeName.Mode4K2160p24,
   DisplayModeName.Mode4K2160p25, DisplayModeName.Mode4K2160p2997,
   DisplayModeName.Mode4K2160p30, DisplayModeName.Mode4K2160p4795,
   DisplayModeName.Mode4K2160p48, DisplayModeName.Mode4K2160p50,
   DisplayModeName.Mode4K2160p5994, DisplayModeName.Mode4K2160p60,
   DisplayModeName.Mode4K2160p9590, DisplayModeName.Mode4K2160p96,
   DisplayModeName.Mode4K2160p100, DisplayModeName.Mode4K2160p11988,
   DisplayModeName.Mode4K2160p120, DisplayModeName.Mode4kDCI2398, DisplayModeName.Mode4kDCI24,
   DisplayModeName.Mode4kDCI25, DisplayModeName.Mode4kDCI2997, DisplayModeName.Mode4kDCI30,
   DisplayModeName.Mode4kDCI4795, DisplayModeName.Mode4kDCI48, DisplayModeName.Mode4kDCI50,
   DisplayModeName.Mode4kDCI5994, DisplayModeName.Mode4kDCI60, DisplayModeName.Mode4kDCI9590,
   DisplayModeName.Mode4kDCI96, DisplayModeName.Mode4kDCI100, DisplayModeName.Mode4kDCI11988,
   DisplayModeName.Mode4kDCI120, DisplayModeName.Mode8K4320p2398, DisplayModeName.Mode8K4320p24,
   DisplayModeName.Mode8K4320p25, DisplayModeName.Mode8K4320p2997,
   DisplayModeName.Mode8K4320p30, DisplayModeName.Mode8K4320p4795,
   DisplayModeName.Mode8K4320p48, DisplayModeName.Mode8K4320p50,
   DisplayModeName.Mode8K4320p5994, DisplayModeName.Mode8K4320p60,
   DisplayModeName.Mode8kDCI2398, DisplayModeName.Mode8kDCI24, DisplayModeName.Mode8kDCI25,
   DisplayModeName.Mode8kDCI2997, DisplayModeName.Mode8kDCI30, DisplayModeName.Mode8kDCI4795,
   DisplayModeName.Mode8kDCI48, DisplayModeName.Mode8kDCI50, DisplayModeName.Mode8kDCI5994,
   DisplayModeName.Mode8kDCI60, DisplayModeName.Mode640x480p60, DisplayModeName.Mode800x600p60,
   DisplayModeName.Mode1440x900p50, DisplayModeName.Mode1440x900p60,
   DisplayModeName.Mode1440x1080p50, DisplayModeName.Mode1440x1080p60,
   DisplayModeName.Mode1600x1200p50, DisplayModeName.Mode1600x1200p60,
   DisplayModeName.Mode1920x1200p50, DisplayModeName.Mode1920x1200p60,
   DisplayModeName.Mode1920x1440p50, DisplayModeName.Mode1920x1440p60,
   DisplayModeName.Mode2560x1440p50, DisplayModeName.Mode2560x1440p60,
   DisplayModeName.Mode2560x1600p50, DisplayModeName.Mode2560x1600p60,
   DisplayModeName.ModeUnknown]

/-- The rows of the `switch` of `into_display_mode_type`, in source order. -/
def into_display_mode_type_rows : List DisplayModeName :=
  [DisplayModeName.ModeNTSC, DisplayModeName.ModeNTSC2398, DisplayModeName.ModePAL,
   DisplayModeName.ModeNTSCp, DisplayModeName.ModePALp, DisplayModeName.ModeHD1080p2398,
   DisplayModeName.ModeHD1080p24, DisplayModeName.ModeHD1080p25,
   DisplayModeName.ModeHD1080p2997, DisplayModeName.ModeHD1080p30,
   DisplayModeName.ModeHD1080p4795, DisplayModeName.ModeHD1080p48,
   DisplayModeName.ModeHD1080p50, DisplayModeName.ModeHD1080p5994,
   DisplayModeName.ModeHD1080p6000, DisplayModeName.ModeHD1080p9590,
   DisplayModeName.ModeHD1080p96, DisplayModeName.ModeHD1080p100,
   DisplayModeName.ModeHD1080p11988, DisplayModeName.ModeHD1080p120,
   DisplayModeName.ModeHD1080i50, DisplayModeName.ModeHD1080i5994,
   DisplayModeName.ModeHD1080i6000, DisplayModeName.ModeHD720p50,
   DisplayModeName.ModeHD720p5994, DisplayModeName.ModeHD720p60, DisplayModeName.Mode2k2398,
   DisplayModeName.Mode2k24, DisplayModeName.Mode2k25, DisplayModeName.Mode2kDCI2398,
   DisplayModeName.Mode2kDCI24, DisplayModeName.Mode2kDCI25, DisplayModeName.Mode2kDCI2997,
   DisplayModeName.Mode2kDCI30, DisplayModeName.Mode2kDCI4795, DisplayModeName.Mode2kDCI48,
   DisplayModeName.Mode2kDCI50, DisplayModeName.Mode2kDCI5994, DisplayModeName.Mode2kDCI60,
   DisplayModeName.Mode2kDCI9590, DisplayModeName.Mode2kDCI96, DisplayModeName.Mode2kDCI100,
   DisplayModeName.Mode2kDCI11988, DisplayModeName.Mode2kDCI120,
   DisplayModeName.Mode4K2160p2398, DisplayModeName.Mode4K2160p24,
   DisplayModeName.Mode4K2160p25, DisplayModeName.Mode4K2160p2997,
   DisplayModeName.Mode4K2160p30, DisplayModeName.Mode4K2160p4795,
   DisplayModeName.Mode4K2160p48, DisplayModeName.Mode4K2160p50,
   DisplayModeName.Mode4K2160p5994, DisplayModeName.Mode4K2160p60,
   DisplayModeName.Mode4K2160p9590, DisplayModeName.Mode4K2160p96,
   DisplayModeName.Mode4K2160p100, DisplayModeName.Mode4K2160p11988,
   DisplayModeName.Mode4K2160p120, DisplayModeName.Mode4kDCI2398, DisplayModeName.Mode4kDCI24,
   DisplayModeName.Mode4kDCI25, DisplayModeName.Mode4kDCI2997, DisplayModeName.Mode4kDCI30,
   DisplayModeName.Mode4kDCI4795, DisplayModeName.Mode4kDCI48, DisplayModeName.Mode4kDCI50,
   DisplayModeName.Mode4kDCI5994, DisplayModeName.Mode4kDCI60, DisplayModeName.Mode4kDCI9590,
   DisplayModeName.Mode4kDCI96, DisplayModeName.Mode4kDCI100, DisplayModeName.Mode4kDCI11988,
   DisplayModeName.Mode4kDCI120, DisplayModeName.Mode8K4320p2398, DisplayModeName.Mode8K4320p24,
   DisplayModeName.Mode8K4320p25, DisplayModeName.Mode8K4320p2997,
   DisplayModeName.Mode8K4320p30, DisplayModeName.Mode8K4320p4795,
   DisplayModeName.Mode8K4320p48, DisplayModeName.Mode8K4320p50,
   DisplayModeName.Mode8K4320p5994, DisplayModeName.Mode8K4320p60,
   DisplayModeName.Mode8kDCI2398, DisplayModeName.Mode8kDCI24, DisplayModeName.Mode8kDCI25,
   DisplayModeName.Mode8kDCI2997, DisplayModeName.Mode8kDCI30, DisplayModeName.Mode8kDCI4795,
   DisplayModeName.Mode8kDCI48, DisplayModeName.Mode8kDCI50, DisplayModeName.Mode8kDCI5994,
   DisplayModeName.Mode8kDCI60, DisplayModeName.Mode640x480p60, DisplayModeName.Mode800x600p60,
   DisplayModeName.Mode1440x900p50, DisplayModeName.Mode1440x900p60,
   DisplayModeName.Mode1440x1080p50, DisplayModeName.Mode1440x1080p60,
   DisplayModeName.Mode1600x1200p50, DisplayModeName.Mode1600x1200p60,
   DisplayModeName.Mode1920x1200p50, DisplayModeName.Mode1920x1200p60,
   DisplayModeName.Mode1920x1440p50, DisplayModeName.Mode1920x1440p60,
   DisplayModeName.Mode2560x1440p50, DisplayModeName.Mode2560x1440p60,
   DisplayModeName.Mode2560x1600p50, DisplayModeName.Mode2560x1600p60,
   DisplayModeName.ModeUnknown]

/-- `from_display_mode_type` (enums.cpp, 428-570): `mode` is the raw value of the
shared enum; the result is the vendor constant of the matching row, or the
message of the `std::invalid_argument` that is thrown. -/
def from_display_mode_type (t : EnumConstants DisplayModeName) (mode : Int) :
    Except String Int :=
  match switch_case from_display_mode_type_rows t.shared mode with
  | some VALUE => .ok (t.bmd VALUE)
  | none => .error ("Unknown DisplayMode: " ++ format_hex mode)

/-- `into_display_mode_type` (enums.cpp, 572-714): `mode` is the raw vendor
value; the result is the shared enumerator of the matching row, or the message
of the `std::invalid_argument` that is thrown. -/
def into_display_mode_type (t : EnumConstants DisplayModeName) (mode : Int) :
    Except String Int :=
  match switch_case into_display_mode_type_rows t.bmd mode with
  | some VALUE => .ok (t.shared VALUE)
  | none => .error ("Unknown BMDDisplayMode: " ++ format_hex mode)

/-- The names `VALUE` of the rows of the pixel-format table. -/
inductive PixelFormatName where
  | FormatUnspecified | Format8BitYUV | Format10BitYUV | Format10BitYUVA | Format8BitARGB
  | Format8BitBGRA | Format10BitRGB | Format12BitRGB | Format12BitRGBLE | Format10BitRGBXLE
  | Format10BitRGBX | FormatH265 | FormatDNxHR
deriving DecidableEq

/-- The rows of the `switch` of `from_pixel_format`, in source order. -/
def from_pixel_format_rows : List PixelFormatName :=
  [PixelFormatName.FormatUnspecified, PixelFormatName.Format8BitYUV,
   PixelFormatName.Format10BitYUV, PixelFormatName.Format10BitYUVA,
   PixelFormatName.Format8BitARGB, PixelFormatName.Format8BitBGRA,
   PixelFormatName.Format10BitRGB, PixelFormatName.Format12BitRGB,
   PixelFormatName.Format12BitRGBLE, PixelFormatName.Format10BitRGBXLE,
   PixelFormatName.Format10BitRGBX, PixelFormatName.FormatH265, PixelFormatName.FormatDNxHR]

/-- The rows of the `switch` of `into_pixel_format`, in source order. -/
def into_pixel_format_rows : List PixelFormatName :=
  [PixelFormatName.FormatUnspecified, PixelFormatName.Format8BitYUV,
   PixelFormatName.Format10BitYUV, PixelFormatName.Format10BitYUVA,
   PixelFormatName.Format8BitARGB, PixelFormatName.Format8BitBGRA,
   PixelFormatName.Format10BitRGB, PixelFormatName.Format12BitRGB,
   PixelFormatName.Format12BitRGBLE, PixelFormatName.Format10BitRGBXLE,
   PixelFormatName.Format10BitRGBX, PixelFormatName.FormatH265, PixelFormatName.FormatDNxHR]

/-- `from_pixel_format` (enums.cpp, 716-739). -/
def from_pixel_format (t : EnumConstants PixelFormatName) (format : Int) :
    Except String Int :=
  match switch_case from_pixel_format_rows t.shared format with
  | some VALUE => .ok (t.bmd VALUE)
  | none => .error ("Unknown PixelFormat: " ++ format_hex format)

/-- `into_pixel_format` (enums.cpp, 740-763). -/
def into_pixel_format (t : EnumConstants PixelFormatName) (format : Int) :
    Except String Int :=
  match switch_case into_pixel_format_rows t.bmd format with
  | some VALUE => .ok (t.shared VALUE)
  | none => .error ("Unknown BMDPixelFormat: " ++ format_hex format)

/-- The position of a row name in the display-mode table. -/
def DisplayModeName.index (n : DisplayModeName) : Nat :=
  from_display_mode_type_rows.indexOf n

/-- The position of a row name in the pixel-format table. -/
def PixelFormatName.index (n : PixelFormatName) : Nat :=
  from_pixel_format_rows.indexOf n

/-- Concrete display-mode constants: the shared enumerators numbered from `0`
in table order, the vendor constants from `1000`. -/
def displayModes0 : EnumConstants DisplayModeName where
  shared := fun n => n.index
  bmd := fun n => 1000 + n.index

/-- Concrete pixel-format constants: the shared enumerators numbered from `0`
in table order, the vendor constants from `1000`. -/
def pixelFormats0 : EnumConstants PixelFormatName where
  shared := fun n => n.index
  bmd := fun n => 1000 + n.index

/-! ## The other identifier tables (`enums.cpp`) -/

/-- A `switch` over rows generated by `CASE(VALUE)` followed by the `throw` of
the translation functions: the `result` column of the first row whose `label`
equals `x`, or the message `what` followed by `x` formatted with `:#x`. Each
translation function below is an instance of this shape. -/
def switch_or_throw {N : Type} (rows : List N) (label result : N → Int) (what : String)
    (x : Int) : Except String Int :=
  match switch_case rows label x with
  | some VALUE => .ok (result VALUE)
  | none => .error (what ++ format_hex x)

/-- The names `VALUE` of the rows of the interface-identifier table of `declare_id`. -/
inductive DeclarationName where
  | VideoOutputCallback | InputCallback | EncoderInputCallback | MemoryAllocator
  | AudioOutputCallback | Iterator | APIInformation | Output | Input | HDMIInputEDID
  | EncoderInput | VideoFrame | MutableVideoFrame | VideoFrame3DExtensions
  | VideoFrameMetadataExtensions | VideoInputFrame | AncillaryPacket | AncillaryPacketIterator
  | VideoFrameAncillaryPackets | VideoFrameAncillary | EncoderPacket | EncoderVideoPacket
  | EncoderAudioPacket | H265NALPacket | AudioInputPacket | ScreenPreviewCallback
  | GLScreenPreviewHelper | NotificationCallback | Notification | ProfileAttributes
  | ProfileIterator | Profile | ProfileCallback | ProfileManager | Status | Keyer
  | VideoConversion | DeviceNotificationCallback | Discovery
deriving DecidableEq

/-- The rows of the `switch` of `declare_id`, in source order. -/
def declare_id_rows : List DeclarationName :=
  [DeclarationName.VideoOutputCallback, DeclarationName.InputCallback,
   DeclarationName.EncoderInputCallback, DeclarationName.MemoryAllocator,
   DeclarationName.AudioOutputCallback, DeclarationName.Iterator,
   DeclarationName.APIInformation, DeclarationName.Output, DeclarationName.Input,
   DeclarationName.HDMIInputEDID, DeclarationName.EncoderInput, DeclarationName.VideoFrame,
   DeclarationName.MutableVideoFrame, DeclarationName.VideoFrame3DExtensions,
   DeclarationName.VideoFrameMetadataExtensions, DeclarationName.VideoInputFrame,
   DeclarationName.AncillaryPacket, DeclarationName.AncillaryPacketIterator,
   DeclarationName.VideoFrameAncillaryPackets, DeclarationName.VideoFrameAncillary,
   DeclarationName.EncoderPacket, DeclarationName.EncoderVideoPacket,
   DeclarationName.EncoderAudioPacket, DeclarationName.H265NALPacket,
   DeclarationName.AudioInputPacket, DeclarationName.ScreenPreviewCallback,
   DeclarationName.GLScreenPreviewHelper, DeclarationName.NotificationCallback,
   DeclarationName.Notification, DeclarationName.ProfileAttributes,
   DeclarationName.ProfileIterator, DeclarationName.Profile, DeclarationName.ProfileCallback,
   DeclarationName.ProfileManager, DeclarationName.Status, DeclarationName.Keyer,
   DeclarationName.VideoConversion, DeclarationName.DeviceNotificationCallback,
   DeclarationName.Discovery]

/-- `declare_id` (enums.cpp, 6-57): `id` is the raw value of the shared enum. -/
def declare_id (t : EnumConstants DeclarationName) (id : Int) : Except String Int :=
  match switch_case declare_id_rows t.shared id with
  | some VALUE => .ok (t.bmd VALUE)
  | none => .error ("Unknown DeclarationId: " ++ format_hex id)

/-- The names `VALUE` of the rows of the flag-attribute table. -/
inductive FlagAttributeName where
  | SupportsInternalKeying | SupportsExternalKeying | SupportsInputFormatDetection
  | HasReferenceInput | HasSerialPort | HasAnalogVideoOutputGain
  | CanOnlyAdjustOverallVideoOutputGain | HasVideoInputAntiAliasingFilter | HasBypass
  | SupportsClockTimingAdjustment | SupportsFullFrameReferenceInputTimingOffset
  | SupportsSMPTELevelAOutput | SupportsAutoSwitchingPPsFOnInput | SupportsDualLinkSDI
  | SupportsQuadLinkSDI | SupportsIdleOutput | VANCRequires10BitYUVVideoFrames
  | HasLTCTimecodeInput | SupportsHDRMetadata | SupportsColorspaceMetadata
  | SupportsHDMITimecode | SupportsHighFrameRateTimecode | SupportsSynchronizeToCaptureGroup
  | SupportsSynchronizeToPlaybackGroup | HasMonitorOut
deriving DecidableEq

/-- The rows of the `switch` of `flag_attribute_id`, in source order. -/
def flag_attribute_id_rows : List FlagAttributeName :=
  [FlagAttributeName.SupportsInternalKeying, FlagAttributeName.SupportsExternalKeying,
   FlagAttributeName.SupportsInputFormatDetection, FlagAttributeName.HasReferenceInput,
   FlagAttributeName.HasSerialPort, FlagAttributeName.HasAnalogVideoOutputGain,
   FlagAttributeName.CanOnlyAdjustOverallVideoOutputGain,
   FlagAttributeName.HasVideoInputAntiAliasingFilter, FlagAttributeName.HasBypass,
   FlagAttributeName.SupportsClockTimingAdjustment,
   FlagAttributeName.SupportsFullFrameReferenceInputTimingOffset,
   FlagAttributeName.SupportsSMPTELevelAOutput,
   FlagAttributeName.SupportsAutoSwitchingPPsFOnInput, FlagAttributeName.SupportsDualLinkSDI,
   FlagAttributeName.SupportsQuadLinkSDI, FlagAttributeName.SupportsIdleOutput,
   FlagAttributeName.VANCRequires10BitYUVVideoFrames, FlagAttributeName.HasLTCTimecodeInput,
   FlagAttributeName.SupportsHDRMetadata, FlagAttributeName.SupportsColorspaceMetadata,
   FlagAttributeName.SupportsHDMITimecode, FlagAttributeName.SupportsHighFrameRateTimecode,
   FlagAttributeName.SupportsSynchronizeToCaptureGroup,
   FlagAttributeName.SupportsSynchronizeToPlaybackGroup, FlagAttributeName.HasMonitorOut]

/-- `flag_attribute_id` (enums.cpp, 59-94): `id` is the raw value of the shared enum. -/
def flag_attribute_id (t : EnumConstants FlagAttributeName) (id : Int) : Except String Int :=
  match switch_case flag_attribute_id_rows t.shared id with
  | some VALUE => .ok (t.bmd VALUE)
  | none => .error ("Unknown FlagAttributeId: " ++ format_hex id)

/-- The names `VALUE` of the rows of the integer-attribute table. -/
inductive IntegerAttributeName where
  | MaximumAudioChannels | MaximumHDMIAudioChannels | MaximumAnalogAudioInputChannels
  | MaximumAnalogAudioOutputChannels | NumberOfSubDevices | SubDeviceIndex | PersistentID
  | DeviceGroupID | TopologicalID | VideoOutputConnections | VideoInputConnections
  | AudioOutputConnections | AudioInputConnections | VideoIOSupport | DeckControlConnections
  | DeviceInterface | AudioInputRCAChannelCount | AudioInputXLRChannelCount
  | AudioOutputRCAChannelCount | AudioOutputXLRChannelCount | ProfileID | Duplex
  | MinimumPrerollFrames | SupportedDynamicRange | MezzanineType
deriving DecidableEq

/-- The rows of the `switch` of `integer_attribute_id`, in source order. -/
def integer_attribute_id_rows : List IntegerAttributeName :=
  [IntegerAttributeName.MaximumAudioChannels, IntegerAttributeName.MaximumHDMIAudioChannels,
   IntegerAttributeName.MaximumAnalogAudioInputChannels,
   IntegerAttributeName.MaximumAnalogAudioOutputChannels,
   IntegerAttributeName.NumberOfSubDevices, IntegerAttributeName.SubDeviceIndex,
   IntegerAttributeName.PersistentID, IntegerAttributeName.DeviceGroupID,
   IntegerAttributeName.TopologicalID, IntegerAttributeName.VideoOutputConnections,
   IntegerAttributeName.VideoInputConnections, IntegerAttributeName.AudioOutputConnections,
   IntegerAttributeName.AudioInputConnections, IntegerAttributeName.VideoIOSupport,
   IntegerAttributeName.DeckControlConnections, IntegerAttributeName.DeviceInterface,
   IntegerAttributeName.AudioInputRCAChannelCount,
   IntegerAttributeName.AudioInputXLRChannelCount,
   IntegerAttributeName.AudioOutputRCAChannelCount,
   IntegerAttributeName.AudioOutputXLRChannelCount, IntegerAttributeName.ProfileID,
   IntegerAttributeName.Duplex, IntegerAttributeName.MinimumPrerollFrames,
   IntegerAttributeName.SupportedDynamicRange, IntegerAttributeName.MezzanineType]

/-- `integer_attribute_id` (enums.cpp, 96-131): `id` is the raw value of the shared enum. -/
def integer_attribute_id (t : EnumConstants IntegerAttributeName) (id : Int) : Except String Int :=
  match switch_case integer_attribute_id_rows t.shared id with
  | some VALUE => .ok (t.bmd VALUE)
  | none => .error ("Unknown IntegerAttributeId: " ++ format_hex id)

/-- The names `VALUE` of the rows of the float-attribute table. -/
inductive FloatAttributeName where
  | VideoInputGainMinimum | VideoInputGainMaximum | VideoOutputGainMinimum
  | VideoOutputGainMaximum | MicrophoneInputGainMinimum | MicrophoneInputGainMaximum
deriving DecidableEq

/-- The rows of the `switch` of `float_attribute_id`, in source order. -/
def float_attribute_id_rows : List FloatAttributeName :=
  [FloatAttributeName.VideoInputGainMinimum, FloatAttributeName.VideoInputGainMaximum,
   FloatAttributeName.VideoOutputGainMinimum, FloatAttributeName.VideoOutputGainMaximum,
   FloatAttributeName.MicrophoneInputGainMinimum, FloatAttributeName.MicrophoneInputGainMaximum]

/-- `float_attribute_id` (enums.cpp, 133-149): `id` is the raw value of the shared enum. -/
def float_attribute_id (t : EnumConstants FloatAttributeName) (id : Int) : Except String Int :=
  match switch_case float_attribute_id_rows t.shared id with
  | some VALUE => .ok (t.bmd VALUE)
  | none => .error ("Unknown FloatAttributeId: " ++ format_hex id)

/-- The names `VALUE` of the rows of the string-attribute table. -/
inductive StringAttributeName where
  | SerialPortDeviceName | VendorName | DisplayName | ModelName | DeviceHandle
  | EthernetMACAddress
deriving DecidableEq

/-- The rows of the `switch` of `string_attribute_id`, in source order. -/
def string_attribute_id_rows : List StringAttributeName :=
  [StringAttributeName.SerialPortDeviceName, StringAttributeName.VendorName,
   StringAttributeName.DisplayName, StringAttributeName.ModelName,
   StringAttributeName.DeviceHandle, StringAttributeName.EthernetMACAddress]

/-- `string_attribute_id` (enums.cpp, 151-169): `id` is the raw value of the shared enum. -/
def string_attribute_id (t : EnumConstants StringAttributeName) (id : Int) : Except String Int :=
  match switch_case string_attribute_id_rows t.shared id with
  | some VALUE => .ok (t.bmd VALUE)
  | none => .error ("Unknown StringAttributeId: " ++ format_hex id)

/-- The names `VALUE` of the rows of the flag-configuration table. -/
inductive FlagConfigurationName where
  | ConfigSwapSerialRxTx | ConfigAnalogAudioConsumerLevels | ConfigSwapHDMICh3AndCh4OnInput
  | ConfigSwapHDMICh3AndCh4OnOutput | ConfigFieldFlickerRemoval
  | ConfigHD1080p24ToHD1080i5994Conversion | Config444SDIVideoOutput
  | ConfigBlackVideoOutputDuringCapture | ConfigLowLatencyVideoOutput
  | ConfigDownConversionOnAllAnalogOutput | ConfigSMPTELevelAOutput | ConfigRec2020Output
  | ConfigQuadLinkSDIVideoOutputSquareDivisionSplit | ConfigOutput1080pAsPsF
  | ConfigVideoInputScanning | ConfigUseDedicatedLTCInput | ConfigSDIInput3DPayloadOverride
  | ConfigCapture1080pAsPsF | ConfigMicrophonePhantomPower | ConfigEthernetUseDHCP
  | ConfigEthernetPTPFollowerOnly | ConfigEthernetPTPUseUDPEncapsulation
deriving DecidableEq

/-- The rows of the `switch` of `flag_configuration_id`, in source order. -/
def flag_configuration_id_rows : List FlagConfigurationName :=
  [FlagConfigurationName.ConfigSwapSerialRxTx,
   FlagConfigurationName.ConfigAnalogAudioConsumerLevels,
   FlagConfigurationName.ConfigSwapHDMICh3AndCh4OnInput,
   FlagConfigurationName.ConfigSwapHDMICh3AndCh4OnOutput,
   FlagConfigurationName.ConfigFieldFlickerRemoval,
   FlagConfigurationName.ConfigHD1080p24ToHD1080i5994Conversion,
   FlagConfigurationName.Config444SDIVideoOutput,
   FlagConfigurationName.ConfigBlackVideoOutputDuringCapture,
   FlagConfigurationName.ConfigLowLatencyVideoOutput,
   FlagConfigurationName.ConfigDownConversionOnAllAnalogOutput,
   FlagConfigurationName.ConfigSMPTELevelAOutput, FlagConfigurationName.ConfigRec2020Output,
   FlagConfigurationName.ConfigQuadLinkSDIVideoOutputSquareDivisionSplit,
   FlagConfigurationName.ConfigOutput1080pAsPsF, FlagConfigurationName.ConfigVideoInputScanning,
   FlagConfigurationName.ConfigUseDedicatedLTCInput,
   FlagConfigurationName.ConfigSDIInput3DPayloadOverride,
   FlagConfigurationName.ConfigCapture1080pAsPsF,
   FlagConfigurationName.ConfigMicrophonePhantomPower,
   FlagConfigurationName.ConfigEthernetUseDHCP,
   FlagConfigurationName.ConfigEthernetPTPFollowerOnly,
   FlagConfigurationName.ConfigEthernetPTPUseUDPEncapsulation]

/-- `flag_configuration_id` (enums.cpp, 171-214): `id` is the raw value of the shared enum. -/
def flag_configuration_id (t : EnumConstants FlagConfigurationName)
    (id : Int) : Except String Int :=
  match switch_case flag_configuration_id_rows t.shared id with
  | some VALUE => .ok (t.bmd VALUE)
  | none => .error ("Unknown FlagAttributeId: " ++ format_hex id)

/-- The names `VALUE` of the rows of the integer-configuration table. -/
inductive IntegerConfigurationName where
  | ConfigHDMI3DPackingFormat | ConfigBypass | ConfigClockTimingAdjustment
  | ConfigVideoOutputConnection | ConfigVideoOutputConversionMode | ConfigAnalogVideoOutputFlags
  | ConfigReferenceInputTimingOffset | ConfigReferenceOutputMode
  | ConfigVideoOutputIdleOperation | ConfigDefaultVideoOutputMode
  | ConfigDefaultVideoOutputModeFlags | ConfigSDIOutputLinkConfiguration
  | ConfigHDMITimecodePacking | ConfigPlaybackGroup | ConfigVideoInputConnection
  | ConfigAnalogVideoInputFlags | ConfigVideoInputConversionMode
  | Config32PulldownSequenceInitialTimecodeFrame | ConfigVANCSourceLine1Mapping
  | ConfigVANCSourceLine2Mapping | ConfigVANCSourceLine3Mapping | ConfigCapturePassThroughMode
  | ConfigCaptureGroup | ConfigInternalKeyingAncillaryDataSource | ConfigAudioInputConnection
  | ConfigAudioOutputAESAnalogSwitch | ConfigEthernetPTPPriority1 | ConfigEthernetPTPPriority2
  | ConfigEthernetPTPDomain | ConfigDeckControlConnection
deriving DecidableEq

/-- The rows of the `switch` of `integer_configuration_id`, in source order. -/
def integer_configuration_id_rows : List IntegerConfigurationName :=
  [IntegerConfigurationName.ConfigHDMI3DPackingFormat, IntegerConfigurationName.ConfigBypass,
   IntegerConfigurationName.ConfigClockTimingAdjustment,
   IntegerConfigurationName.ConfigVideoOutputConnection,
   IntegerConfigurationName.ConfigVideoOutputConversionMode,
   IntegerConfigurationName.ConfigAnalogVideoOutputFlags,
   IntegerConfigurationName.ConfigReferenceInputTimingOffset,
   IntegerConfigurationName.ConfigReferenceOutputMode,
   IntegerConfigurationName.ConfigVideoOutputIdleOperation,
   IntegerConfigurationName.ConfigDefaultVideoOutputMode,
   IntegerConfigurationName.ConfigDefaultVideoOutputModeFlags,
   IntegerConfigurationName.ConfigSDIOutputLinkConfiguration,
   IntegerConfigurationName.ConfigHDMITimecodePacking,
   IntegerConfigurationName.ConfigPlaybackGroup,
   IntegerConfigurationName.ConfigVideoInputConnection,
   IntegerConfigurationName.ConfigAnalogVideoInputFlags,
   IntegerConfigurationName.ConfigVideoInputConversionMode,
   IntegerConfigurationName.Config32PulldownSequenceInitialTimecodeFrame,
   IntegerConfigurationName.ConfigVANCSourceLine1Mapping,
   IntegerConfigurationName.ConfigVANCSourceLine2Mapping,
   IntegerConfigurationName.ConfigVANCSourceLine3Mapping,
   IntegerConfigurationName.ConfigCapturePassThroughMode,
   IntegerConfigurationName.ConfigCaptureGroup,
   IntegerConfigurationName.ConfigInternalKeyingAncillaryDataSource,
   IntegerConfigurationName.ConfigAudioInputConnection,
   IntegerConfigurationName.ConfigAudioOutputAESAnalogSwitch,
   IntegerConfigurationName.ConfigEthernetPTPPriority1,
   IntegerConfigurationName.ConfigEthernetPTPPriority2,
   IntegerConfigurationName.ConfigEthernetPTPDomain,
   IntegerConfigurationName.ConfigDeckControlConnection]

/-- `integer_configuration_id` (enums.cpp, 216-271): `id` is the raw value of the shared enum. -/
def integer_configuration_id (t : EnumConstants IntegerConfigurationName)
    (id : Int) : Except String Int :=
  match switch_case integer_configuration_id_rows t.shared id with
  | some VALUE => .ok (t.bmd VALUE)
  | none => .error ("Unknown IntegerConfigurationId: " ++ format_hex id)

/-- The names `VALUE` of the rows of the float-configuration table. -/
inductive FloatConfigurationName where
  | ConfigVideoOutputComponentLumaGain | ConfigVideoOutputComponentChromaBlueGain
  | ConfigVideoOutputComponentChromaRedGain | ConfigVideoOutputCompositeLumaGain
  | ConfigVideoOutputCompositeChromaGain | ConfigVideoOutputSVideoLumaGain
  | ConfigVideoOutputSVideoChromaGain | ConfigVideoInputComponentLumaGain
  | ConfigVideoInputComponentChromaBlueGain | ConfigVideoInputComponentChromaRedGain
  | ConfigVideoInputCompositeLumaGain | ConfigVideoInputCompositeChromaGain
  | ConfigVideoInputSVideoLumaGain | ConfigVideoInputSVideoChromaGain
  | ConfigAnalogAudioInputScaleChannel1 | ConfigAnalogAudioInputScaleChannel2
  | ConfigAnalogAudioInputScaleChannel3 | ConfigAnalogAudioInputScaleChannel4
  | ConfigDigitalAudioInputScale | ConfigMicrophoneInputGain
  | ConfigAnalogAudioOutputScaleChannel1 | ConfigAnalogAudioOutputScaleChannel2
  | ConfigAnalogAudioOutputScaleChannel3 | ConfigAnalogAudioOutputScaleChannel4
  | ConfigDigitalAudioOutputScale | ConfigHeadphoneVolume
deriving DecidableEq

/-- The rows of the `switch` of `float_configuration_id`, in source order. -/
def float_configuration_id_rows : List FloatConfigurationName :=
  [FloatConfigurationName.ConfigVideoOutputComponentLumaGain,
   FloatConfigurationName.ConfigVideoOutputComponentChromaBlueGain,
   FloatConfigurationName.ConfigVideoOutputComponentChromaRedGain,
   FloatConfigurationName.ConfigVideoOutputCompositeLumaGain,
   FloatConfigurationName.ConfigVideoOutputCompositeChromaGain,
   FloatConfigurationName.ConfigVideoOutputSVideoLumaGain,
   FloatConfigurationName.ConfigVideoOutputSVideoChromaGain,
   FloatConfigurationName.ConfigVideoInputComponentLumaGain,
   FloatConfigurationName.ConfigVideoInputComponentChromaBlueGain,
   FloatConfigurationName.ConfigVideoInputComponentChromaRedGain,
   FloatConfigurationName.ConfigVideoInputCompositeLumaGain,
   FloatConfigurationName.ConfigVideoInputCompositeChromaGain,
   FloatConfigurationName.ConfigVideoInputSVideoLumaGain,
   FloatConfigurationName.ConfigVideoInputSVideoChromaGain,
   FloatConfigurationName.ConfigAnalogAudioInputScaleChannel1,
   FloatConfigurationName.ConfigAnalogAudioInputScaleChannel2,
   FloatConfigurationName.ConfigAnalogAudioInputScaleChannel3,
   FloatConfigurationName.ConfigAnalogAudioInputScaleChannel4,
   FloatConfigurationName.ConfigDigitalAudioInputScale,
   FloatConfigurationName.ConfigMicrophoneInputGain,
   FloatConfigurationName.ConfigAnalogAudioOutputScaleChannel1,
   FloatConfigurationName.ConfigAnalogAudioOutputScaleChannel2,
   FloatConfigurationName.ConfigAnalogAudioOutputScaleChannel3,
   FloatConfigurationName.ConfigAnalogAudioOutputScaleChannel4,
   FloatConfigurationName.ConfigDigitalAudioOutputScale,
   FloatConfigurationName.ConfigHeadphoneVolume]

/-- `float_configuration_id` (enums.cpp, 273-316): `id` is the raw value of the shared enum. -/
def float_configuration_id (t : EnumConstants FloatConfigurationName)
    (id : Int) : Except String Int :=
  match switch_case float_configuration_id_rows t.shared id with
  | some VALUE => .ok (t.bmd VALUE)
  | none => .error ("Unknown FloatConfigurationId: " ++ format_hex id)

/-- The names `VALUE` of the rows of the string-configuration table. -/
inductive StringConfigurationName where
  | ConfigEthernetStaticLocalIPAddress | ConfigEthernetStaticSubnetMask
  | ConfigEthernetStaticGatewayIPAddress | ConfigEthernetStaticPrimaryDNS
  | ConfigEthernetStaticSecondaryDNS | ConfigEthernetVideoOutputAddress
  | ConfigEthernetAudioOutputAddress | ConfigEthernetAncillaryOutputAddress
  | ConfigEthernetAudioOutputChannelOrder | ConfigDeviceInformationLabel
  | ConfigDeviceInformationSerialNumber | ConfigDeviceInformationCompany
  | ConfigDeviceInformationPhone | ConfigDeviceInformationEmail | ConfigDeviceInformationDate
deriving DecidableEq

/-- The rows of the `switch` of `string_configuration_id`, in source order. -/
def string_configuration_id_rows : List StringConfigurationName :=
  [StringConfigurationName.ConfigEthernetStaticLocalIPAddress,
   StringConfigurationName.ConfigEthernetStaticSubnetMask,
   StringConfigurationName.ConfigEthernetStaticGatewayIPAddress,
   StringConfigurationName.ConfigEthernetStaticPrimaryDNS,
   StringConfigurationName.ConfigEthernetStaticSecondaryDNS,
   StringConfigurationName.ConfigEthernetVideoOutputAddress,
   StringConfigurationName.ConfigEthernetAudioOutputAddress,
   StringConfigurationName.ConfigEthernetAncillaryOutputAddress,
   StringConfigurationName.ConfigEthernetAudioOutputChannelOrder,
   StringConfigurationName.ConfigDeviceInformationLabel,
   StringConfigurationName.ConfigDeviceInformationSerialNumber,
   StringConfigurationName.ConfigDeviceInformationCompany,
   StringConfigurationName.ConfigDeviceInformationPhone,
   StringConfigurationName.ConfigDeviceInformationEmail,
   StringConfigurationName.ConfigDeviceInformationDate]

/-- `string_configuration_id` (enums.cpp, 318-346): `id` is the raw value of the shared enum. -/
def string_configuration_id (t : EnumConstants StringConfigurationName)
    (id : Int) : Except String Int :=
  match switch_case string_configuration_id_rows t.shared id with
  | some VALUE => .ok (t.bmd VALUE)
  | none => .error ("Unknown StringConfigurationId: " ++ format_hex id)

/-- The names `VALUE` of the rows of the video-connection table. -/
inductive VideoConnectionName where
  | Unspecified | SDI | HDMI | OpticalSDI | Component | Composite | SVideo | Ethernet
  | OpticalEthernet
deriving DecidableEq

/-- The rows of the `switch` of `from_video_connection`, in source order. -/
def from_video_connection_rows : List VideoConnectionName :=
  [VideoConnectionName.Unspecified, VideoConnectionName.SDI, VideoConnectionName.HDMI,
   VideoConnectionName.OpticalSDI, VideoConnectionName.Component, VideoConnectionName.Composite,
   VideoConnectionName.SVideo, VideoConnectionName.Ethernet,
   VideoConnectionName.OpticalEthernet]

/-- `from_video_connection` (enums.cpp, 348-367): `conn` is the raw value of the shared enum. -/
def from_video_connection (t : EnumConstants VideoConnectionName)
    (conn : Int) : Except String Int :=
  match switch_case from_video_connection_rows t.shared conn with
  | some VALUE => .ok (t.bmd VALUE)
  | none => .error ("Unknown VideoConnection: " ++ format_hex conn)

/-- The rows of the `switch` of `into_video_connection`, in source order. -/
def into_video_connection_rows : List VideoConnectionName :=
  [VideoConnectionName.Unspecified, VideoConnectionName.SDI, VideoConnectionName.HDMI,
   VideoConnectionName.OpticalSDI, VideoConnectionName.Component, VideoConnectionName.Composite,
   VideoConnectionName.SVideo, VideoConnectionName.Ethernet,
   VideoConnectionName.OpticalEthernet]

/-- `into_video_connection` (enums.cpp, 369-388): `conn` is the raw vendor value. -/
def into_video_connection (t : EnumConstants VideoConnectionName)
    (conn : Int) : Except String Int :=
  match switch_case into_video_connection_rows t.bmd conn with
  | some VALUE => .ok (t.shared VALUE)
  | none => .error ("Unknown BMDVideoConnection: " ++ format_hex conn)

/-- The names `VALUE` of the rows of the audio-connection table. -/
inductive AudioConnectionName where
  | Embedded | AESEBU | Analog | AnalogXLR | AnalogRCA | Microphone | Headphones
deriving DecidableEq

/-- The rows of the `switch` of `from_audio_connection`, in source order. -/
def from_audio_connection_rows : List AudioConnectionName :=
  [AudioConnectionName.Embedded, AudioConnectionName.AESEBU, AudioConnectionName.Analog,
   AudioConnectionName.AnalogXLR, AudioConnectionName.AnalogRCA, AudioConnectionName.Microphone,
   AudioConnectionName.Headphones]

/-- `from_audio_connection` (enums.cpp, 390-407): `conn` is the raw value of the shared enum. -/
def from_audio_connection (t : EnumConstants AudioConnectionName)
    (conn : Int) : Except String Int :=
  match switch_case from_audio_connection_rows t.shared conn with
  | some VALUE => .ok (t.bmd VALUE)
  | none => .error ("Unknown AudioConnection: " ++ format_hex conn)

/-- The rows of the `switch` of `into_audio_connection`, in source order. -/
def into_audio_connection_rows : List AudioConnectionName :=
  [AudioConnectionName.Embedded, AudioConnectionName.AESEBU, AudioConnectionName.Analog,
   AudioConnectionName.AnalogXLR, AudioConnectionName.AnalogRCA, AudioConnectionName.Microphone,
   AudioConnectionName.Headphones]

/-- `into_audio_connection` (enums.cpp, 409-426): `conn` is the raw vendor value. -/
def into_audio_connection (t : EnumConstants AudioConnectionName)
    (conn : Int) : Except String Int :=
  match switch_case into_audio_connection_rows t.bmd conn with
  | some VALUE => .ok (t.shared VALUE)
  | none => .error ("Unknown BMDAudioConnection: " ++ format_hex conn)

/-- The names `VALUE` of the rows of the conversion-mode table. -/
inductive VideoInputConversionModeName where
  | NoVideoInputConversion | VideoInputLetterboxDownconversionFromHD1080
  | VideoInputAnamorphicDownconversionFromHD1080 | VideoInputLetterboxDownconversionFromHD720
  | VideoInputAnamorphicDownconversionFromHD720 | VideoInputLetterboxUpconversion
  | VideoInputAnamorphicUpconversion
deriving DecidableEq

/-- The rows of the `switch` of `from_video_input_conversion_mode`, in source order. -/
def from_video_input_conversion_mode_rows : List VideoInputConversionModeName :=
  [VideoInputConversionModeName.NoVideoInputConversion,
   VideoInputConversionModeName.VideoInputLetterboxDownconversionFromHD1080,
   VideoInputConversionModeName.VideoInputAnamorphicDownconversionFromHD1080,
   VideoInputConversionModeName.VideoInputLetterboxDownconversionFromHD720,
   VideoInputConversionModeName.VideoInputAnamorphicDownconversionFromHD720,
   VideoInputConversionModeName.VideoInputLetterboxUpconversion,
   VideoInputConversionModeName.VideoInputAnamorphicUpconversion]

/-- `from_video_input_conversion_mode` (enums.cpp, 766-784):
`mode` is the raw value of the shared enum. -/
def from_video_input_conversion_mode (t : EnumConstants VideoInputConversionModeName)
    (mode : Int) : Except String Int :=
  match switch_case from_video_input_conversion_mode_rows t.shared mode with
  | some VALUE => .ok (t.bmd VALUE)
  | none => .error ("Unknown VideoInputConversionMode: " ++ format_hex mode)

/-- The rows of the `switch` of `into_video_input_conversion_mode`, in source order. -/
def into_video_input_conversion_mode_rows : List VideoInputConversionModeName :=
  [VideoInputConversionModeName.NoVideoInputConversion,
   VideoInputConversionModeName.VideoInputLetterboxDownconversionFromHD1080,
   VideoInputConversionModeName.VideoInputAnamorphicDownconversionFromHD1080,
   VideoInputConversionModeName.VideoInputLetterboxDownconversionFromHD720,
   VideoInputConversionModeName.VideoInputAnamorphicDownconversionFromHD720,
   VideoInputConversionModeName.VideoInputLetterboxUpconversion,
   VideoInputConversionModeName.VideoInputAnamorphicUpconversion]

/-- `into_video_input_conversion_mode` (enums.cpp, 786-804): `mode` is the raw vendor value. -/
def into_video_input_conversion_mode (t : EnumConstants VideoInputConversionModeName)
    (mode : Int) : Except String Int :=
  match switch_case into_video_input_conversion_mode_rows t.bmd mode with
  | some VALUE => .ok (t.shared VALUE)
  | none => .error ("Unknown BMDVideoInputConversionMode: " ++ format_hex mode)

/-- The position of a row name in its table. -/
def VideoConnectionName.index (n : VideoConnectionName) : Nat :=
  from_video_connection_rows.indexOf n

/-- Concrete constants for this table: the shared enumerators numbered from
`0` in table order, the vendor constants from `1000`. -/
def videoConnections0 : EnumConstants VideoConnectionName where
  shared := fun n => n.index
  bmd := fun n => 1000 + n.index

/-- The position of a row name in its table. -/
def AudioConnectionName.index (n : AudioConnectionName) : Nat :=
  from_audio_connection_rows.indexOf n

/-- Concrete constants for this table: the shared enumerators numbered from
`0` in table order, the vendor constants from `1000`. -/
def audioConnections0 : EnumConstants AudioConnectionName where
  shared := fun n => n.index
  bmd := fun n => 1000 + n.index

/-- The position of a row name in its table. -/
def VideoInputConversionModeName.index (n : VideoInputConversionModeName) : Nat :=
  from_video_input_conversion_mode_rows.indexOf n

/-- Concrete constants for this table: the shared enumerators numbered from
`0` in table order, the vendor constants from `1000`. -/
def conversionModes0 : EnumConstants VideoInputConversionModeName where
  shared := fun n => n.index
  bmd := fun n => 1000 + n.index

/-- What the claims ask of a translation function `f` whose `switch` has the
rows `rows` with case labels `label` and results `result`, and whose `throw`
carries the message `what`: on a value that is the label of no row it fails with
`what` followed by the value in hexadecimal; on a value that is the label of a
row it returns the result of a row with that label (case labels of one `switch`
are pairwise different, so this is the row); and it succeeds exactly on the
labels of its rows. -/
def TranslatesOrFails {N : Type} (f : Int → Except String Int) (rows : List N)
    (label result : N → Int) (what : String) : Prop :=
  (∀ x, (∀ n ∈ rows, label n ≠ x) → f x = .error (what ++ format_hex x)) ∧
  (∀ x, (∃ n ∈ rows, label n = x) → ∃ n ∈ rows, label n = x ∧ f x = .ok (result n)) ∧
  (∀ x, (∃ v, f x = .ok v) ↔ ∃ n ∈ rows, label n = x)

/-! ## Accessors and queries (`api.cpp`, `enums.cpp`) -/

/-- `input_supports_video_mode` (api.cpp, 101-119). The vendor method
`IDeckLinkInput::DoesSupportVideoMode` is a parameter: given its five value
arguments and the contents of the two output locations it is handed, it returns
its status and the contents of the two locations after the call.
`bmd_actual_mode0` is the content of the uninitialised local `bmd_actual_mode`;
`actual_mode` and `is_supported` are the contents of the two reference
arguments before the call, and the result carries the returned status and their
contents after it. A translation that throws ends the call with its message
(the arguments are translated left to right here; the contents of the
references after a throw are not part of the result). -/
def input_supports_video_mode (tVC : EnumConstants VideoConnectionName)
    (tDM : EnumConstants DisplayModeName) (tPF : EnumConstants PixelFormatName)
    (tCM : EnumConstants VideoInputConversionModeName) (k : DeckLinkFlagConstants)
    (DoesSupportVideoMode : Int → Int → Int → Int → Nat → Int → Bool → HRESULT × Int × Bool)
    (bmd_actual_mode0 : Int) (conn mode pixel_format conversion_mode : Int)
    (supported_mode_flags : SupportedVideoModeFlags) (actual_mode : Int)
    (is_supported : Bool) : Except String (HResult × Int × Bool) :=
  match from_video_connection tVC conn with
  | .error e => .error e
  | .ok bmd_conn =>
    match from_display_mode_type tDM mode with
    | .error e => .error e
    | .ok bmd_mode =>
      match from_pixel_format tPF pixel_format with
      | .error e => .error e
      | .ok bmd_format =>
        match from_video_input_conversion_mode tCM conversion_mode with
        | .error e => .error e
        | .ok bmd_conversion =>
          match DoesSupportVideoMode bmd_conn bmd_mode bmd_format bmd_conversion
              (from_supported_video_mode_flags k supported_mode_flags)
              bmd_actual_mode0 is_supported with
          | (result, bmd_actual_mode, is_supported) =>
            if result = S_OK ∧ is_supported = true then
              match into_display_mode_type tDM bmd_actual_mode with
              | .error e => .error e
              | .ok actual_mode => .ok (static_cast_HResult result, actual_mode, is_supported)
            else
              .ok (static_cast_HResult result, actual_mode, is_supported)

/-- What a call of `profile_manager_profiles` leaves behind: the returned
status, the output sequence, the number of calls of `Next` made on the vendor
iterator, and whether the iterator has been released. -/
structure ProfilesOutcome where
  status : HResult
  profiles : List Ptr
  next_calls : Nat
  iterator_released : Bool
deriving DecidableEq

/-- The `while (true)` loop of `profile_manager_profiles` (api.cpp, 174-182).
The vendor method `IDeckLinkProfileIterator::Next` is a parameter: `Next i` is
the status and the handle it produces on its call number `i` (counted from `0`).
`calls` is the number of calls made so far. The loop has no bound in the source;
here it gives up (`none`) after `fuel` rounds. -/
def profile_manager_profiles_loop (Next : Nat → HRESULT × Ptr) :
    Nat → Nat → List Ptr → Option ProfilesOutcome
  | 0, _, _ => none
  | fuel + 1, calls, profiles =>
    match Next calls with
    | (result, profile) =>
      if result ≠ S_OK then
        some ⟨HResult.Ok, profiles, calls + 1, true⟩
      else
        profile_manager_profiles_loop Next fuel (calls + 1) (profiles ++ [profile])

/-- `profile_manager_profiles` (api.cpp, 166-183). `GetProfiles` is the status
of the vendor method `IDeckLinkProfileManager::GetProfiles`, `Next` the
behaviour of the iterator it hands out, `profiles` the output sequence before
the call. -/
def profile_manager_profiles (GetProfiles : HRESULT) (Next : Nat → HRESULT × Ptr)
    (fuel : Nat) (profiles : List Ptr) : Option ProfilesOutcome :=
  let profile_iter_result := GetProfiles
  if profile_iter_result ≠ S_OK then
    some ⟨static_cast_HResult profile_iter_result, profiles, 0, false⟩
  else
    profile_manager_profiles_loop Next fuel 0 profiles

/-- `video_input_frame_bytes` (api.cpp, 276-283). The vendor method
`IDeckLinkVideoInputFrame::GetBytes` is a parameter: given the state of the
vendor frame and the content of the location it is handed, it returns the state
after the call, its status, and the content of the location after the call. The
result carries the state of the vendor frame after the accessor, and the pointer
returned or the message of the `std::runtime_error` thrown. -/
def video_input_frame_bytes {F : Type} (GetBytes : F → Ptr → F × HRESULT × Ptr)
    (frame : F) : F × Except String Ptr :=
  let buffer : Ptr := none
  match GetBytes frame buffer with
  | (frame, result, buffer) =>
    if result ≠ S_OK then
      (frame, .error ("IDeckLinkVideoInputFrame::GetBytes failed."))
    else
      (frame, .ok buffer)

/-- `audio_input_packet_bytes` (api.cpp, 303-309), with the vendor method
`IDeckLinkAudioInputPacket::GetBytes` as a parameter in the same way. -/
def audio_input_packet_bytes {F : Type} (GetBytes : F → Ptr → F × HRESULT × Ptr)
    (packet : F) : F × Except String Ptr :=
  let buffer : Ptr := none
  match GetBytes packet buffer with
  | (packet, result, buffer) =>
    if result ≠ S_OK then
      (packet, .error ("IDeckLinkAudioInputPacket::GetBytes failed."))
    else
      (packet, .ok buffer)

/-- A vendor object that counts the calls of `GetBytes` made on it and answers
each with the given status and buffer. -/
def GetBytes_counting (status : HRESULT) (buffer : Ptr) (count : Nat) (_out : Ptr) :
    Nat × HRESULT × Ptr :=
  (count + 1, status, buffer)

/-- The shared record `VideoIOSupport`, with the fields that
`into_video_io_support` sets. -/
structure VideoIOSupport where
  capture : Bool
  playback : Bool
deriving DecidableEq

/-- The value `1 + a - r` for a sequence with `a` calls of `AddRef` and `r`
calls of `Release`. -/
def balance (ops : List RefCall) : Int :=
  1 + (ops.count RefCall.AddRef : Int) - (ops.count RefCall.Release : Int)

/-- The position of a row name in the flag-configuration table. -/
def FlagConfigurationName.index (n : FlagConfigurationName) : Nat :=
  flag_configuration_id_rows.indexOf n

/-- Concrete flag-configuration constants: the shared enumerators numbered from
`0` in table order, the vendor constants from `1000`. -/
def flagConfigurations0 : EnumConstants FlagConfigurationName where
  shared := fun n => n.index
  bmd := fun n => 1000 + n.index

/-! ## Auxiliary facts about the machine integers -/

theorem two_pow_32_le (bits : Nat) (h : 32 ≤ bits) : (4294967296 : Int) ≤ (2 : Int) ^ bits := by
  have h1 : (2 : Int) ^ 32 ≤ (2 : Int) ^ bits := pow_le_pow_right₀ (by norm_num) h
  norm_num at h1
  exact h1

/-- A non-negative `int32_t` keeps its value when converted to a `ULONG` of at
least 32 bits. -/
theorem to_ULONG_of_nonneg (bits : Nat) (h : 32 ≤ bits) (v : int32_t) (hv : 0 ≤ v.val) :
    ((to_ULONG bits v : Nat) : Int) = v.val := by
  have h1 := two_pow_32_le bits h
  have h2 := v.hi
  unfold to_ULONG
  rw [Int.emod_eq_of_lt hv (by omega)]
  exact Int.toNat_of_nonneg hv

/-- A non-zero `int32_t` does not become `0` when converted to a `ULONG` of at
least 32 bits. -/
theorem to_ULONG_ne_zero (bits : Nat) (h : 32 ≤ bits) (v : int32_t) (hv : v.val ≠ 0) :
    to_ULONG bits v ≠ 0 := by
  have h1 := two_pow_32_le bits h
  have h2 := v.hi
  have h3 := v.lo
  unfold to_ULONG
  intro h0
  have h4 : v.val % (2 : Int) ^ bits ≤ 0 := Int.toNat_eq_zero.mp h0
  have h5 : 0 ≤ v.val % (2 : Int) ^ bits := Int.emod_nonneg _ (by omega)
  have h6 : v.val % (2 : Int) ^ bits = 0 := le_antisymm h4 h5
  obtain ⟨k, hk⟩ := Int.dvd_of_emod_eq_zero h6
  have hk0 : k ≠ 0 := by
    rintro rfl
    simp at hk
    exact hv hk
  rcases lt_or_gt_of_ne hk0 with hneg | hpos
  · have : (2 : Int) ^ bits * k ≤ (2 : Int) ^ bits * (-1) :=
      mul_le_mul_of_nonneg_left (by omega) (by omega)
    omega
  · have : (2 : Int) ^ bits * 1 ≤ (2 : Int) ^ bits * k :=
      mul_le_mul_of_nonneg_left (by omega) (by omega)
    omega

theorem wrap_int32_val_of_range (v : Int) (h1 : -2147483648 ≤ v) (h2 : v ≤ 2147483647) :
    (wrap_int32 v).val = v := by
  unfold wrap_int32
  simp only
  omega

/-! ## The reference-count methods, one call -/

/-- C1: on an adapter whose reference count is `c ≥ 1`, `Release` decrements the
count to `c - 1`. If `c - 1 = 0` the adapter is freed (the slot is emptied and
its handler is torn down) and `Release` returns `0`; otherwise the adapter stays
in place with count `c - 1`, nothing is torn down, and `Release` returns
`c - 1`, which is positive. -/
theorem Release_spec {H : Type} (sdk : DeckLinkAPI) (hbits : 32 ≤ sdk.ULONG_bits)
    (cb : H) (c : int32_t) (dropped : List H) (calls : List (H × HandlerCall))
    (hc : 1 ≤ c.val) :
    (c.val - 1 = 0 →
      InputCallbackWrapper.Release sdk ⟨some ⟨cb, c⟩, dropped, calls⟩
        = some (⟨none, dropped ++ [cb], calls⟩, 0)) ∧
    (c.val - 1 ≠ 0 →
      ∃ (n : int32_t) (r : Nat), n.val = c.val - 1 ∧ (r : Int) = c.val - 1 ∧ 0 < r ∧
        InputCallbackWrapper.Release sdk ⟨some ⟨cb, c⟩, dropped, calls⟩
          = some (⟨some ⟨cb, n⟩, dropped, calls⟩, r)) := by
  have hhi := c.hi
  have hw : (wrap_int32 (c.val - 1)).val = c.val - 1 :=
    wrap_int32_val_of_range _ (by omega) (by omega)
  constructor
  · intro h0
    have hw0 : (wrap_int32 (c.val - 1)).val = 0 := by rw [hw]; exact h0
    simp [InputCallbackWrapper.Release, hw0]
  · intro h0
    have hr := to_ULONG_of_nonneg sdk.ULONG_bits hbits (wrap_int32 (c.val - 1)) (by omega)
    refine ⟨wrap_int32 (c.val - 1), to_ULONG sdk.ULONG_bits (wrap_int32 (c.val - 1)),
      hw, by omega, by omega, ?_⟩
    simp [InputCallbackWrapper.Release, hw, h0]

/-- Witness of C1 at the counts `1` (freed) and `3` (kept). -/
theorem Release_spec_witness :
    (32 ≤ sdk0.ULONG_bits ∧ (1 : Int) ≤ (⟨3, by decide, by decide⟩ : int32_t).val) ∧
    ((⟨3, by decide, by decide⟩ : int32_t).val - 1 ≠ 0 →
      ∃ (n : int32_t) (r : Nat), n.val = (⟨3, by decide, by decide⟩ : int32_t).val - 1 ∧
        (r : Int) = (⟨3, by decide, by decide⟩ : int32_t).val - 1 ∧ 0 < r ∧
        InputCallbackWrapper.Release sdk0 ⟨some ⟨7, ⟨3, by decide, by decide⟩⟩, [], []⟩
          = some ((⟨some ⟨7, n⟩, [], []⟩ : World Nat), r)) :=
  ⟨⟨by decide, by decide⟩,
    (Release_spec sdk0 (by decide) (7 : Nat) ⟨3, by decide, by decide⟩ [] [] (by decide)).2⟩

/-- C2: on an adapter whose reference count is `c` with `1 ≤ c < 2^31 - 1`,
`AddRef` sets the count to `c + 1`, returns `c + 1`, and does not free the
adapter (the slot stays filled with the same handler, nothing is torn down). -/
theorem AddRef_spec {H : Type} (sdk : DeckLinkAPI) (hbits : 32 ≤ sdk.ULONG_bits)
    (cb : H) (c : int32_t) (dropped : List H) (calls : List (H × HandlerCall))
    (hc : 1 ≤ c.val) (hmax : c.val < 2147483647) :
    ∃ (n : int32_t) (r : Nat), n.val = c.val + 1 ∧ (r : Int) = c.val + 1 ∧
      InputCallbackWrapper.AddRef sdk ⟨some ⟨cb, c⟩, dropped, calls⟩
        = some (⟨some ⟨cb, n⟩, dropped, calls⟩, r) := by
  have hw : (wrap_int32 (c.val + 1)).val = c.val + 1 :=
    wrap_int32_val_of_range _ (by omega) (by omega)
  have hr := to_ULONG_of_nonneg sdk.ULONG_bits hbits (wrap_int32 (c.val + 1)) (by omega)
  refine ⟨wrap_int32 (c.val + 1), to_ULONG sdk.ULONG_bits (wrap_int32 (c.val + 1)),
    hw, by omega, ?_⟩
  simp [InputCallbackWrapper.AddRef]

/-- Witness of C2 at the count `1` of a freshly constructed adapter. -/
theorem AddRef_spec_witness :
    (32 ≤ sdk0.ULONG_bits ∧ (1 : Int) ≤ (⟨1, by decide, by decide⟩ : int32_t).val ∧
      (⟨1, by decide, by decide⟩ : int32_t).val < 2147483647) ∧
    ∃ (n : int32_t) (r : Nat), n.val = (⟨1, by decide, by decide⟩ : int32_t).val + 1 ∧
      (r : Int) = (⟨1, by decide, by decide⟩ : int32_t).val + 1 ∧
      InputCallbackWrapper.AddRef sdk0 ⟨some ⟨7, ⟨1, by decide, by decide⟩⟩, [], []⟩
        = some ((⟨some ⟨7, n⟩, [], []⟩ : World Nat), r) :=
  ⟨⟨by decide, by decide, by decide⟩,
    AddRef_spec sdk0 (by decide) (7 : Nat) ⟨1, by decide, by decide⟩ [] [] (by decide)
      (by decide)⟩

/-! ## Sequences of calls: unfolding and invariants -/

theorem run_nil {H : Type} (sdk : DeckLinkAPI) (s : World H) : run sdk [] s = some (s, []) :=
  rfl

theorem run_concat {H : Type} (sdk : DeckLinkAPI) (ops : List RefCall) (c : RefCall)
    (s : World H) :
    run sdk (ops ++ [c]) s
      = (run sdk ops s).bind fun p => (call sdk p.1 c).map fun q => (q.1, p.2 ++ [q.2]) := by
  simp [run, List.foldl_append]

/-- Inversion of a successful run that ends with the call `c`. -/
theorem run_concat_some {H : Type} (sdk : DeckLinkAPI) (ops : List RefCall) (c : RefCall)
    (s w : World H) (rets : List Nat) (h : run sdk (ops ++ [c]) s = some (w, rets)) :
    ∃ (w0 : World H) (r0 : List Nat) (r : Nat), run sdk ops s = some (w0, r0) ∧
      call sdk w0 c = some (w, r) ∧ rets = r0 ++ [r] := by
  rw [run_concat] at h
  cases h0 : run sdk ops s with
  | none => simp [h0] at h
  | some p =>
    obtain ⟨w0, r0⟩ := p
    simp only [h0, Option.some_bind] at h
    cases h1 : call sdk w0 c with
    | none => simp [h1] at h
    | some q =>
      obtain ⟨w1, r⟩ := q
      simp only [h1, Option.map_some', Option.some.injEq, Prod.mk.injEq] at h
      exact ⟨w0, r0, r, rfl, by rw [← h.1]; exact h1, h.2.symm⟩

theorem call_none {H : Type} (sdk : DeckLinkAPI) (d : List H) (cs : List (H × HandlerCall))
    (c : RefCall) : call sdk ⟨none, d, cs⟩ c = none := by
  cases c <;> rfl

theorem zeroReleases_concat (ops : List RefCall) (rets : List Nat) (c : RefCall) (r : Nat)
    (hlen : rets.length = ops.length) :
    zeroReleases (ops ++ [c]) (rets ++ [r])
      = zeroReleases ops rets ++ if c = RefCall.Release ∧ r = 0 then [(c, r)] else [] := by
  unfold zeroReleases
  rw [List.zip_append hlen.symm, List.filter_append]
  by_cases hc : c = RefCall.Release ∧ r = 0 <;> simp [hc]

/-- Invariant of every run that starts on a freshly constructed adapter and makes
no call on a deleted adapter: either the adapter is still in place and nothing
has been torn down; or the last call was a `Release` that returned `0`, it
emptied the slot and tore the handler down. In both cases no other `Release`
returned `0`, provided `ULONG` has at least 32 bits. -/
theorem run_fresh_inv {H : Type} (sdk : DeckLinkAPI) (cb : H)
    (ops : List RefCall) (w : World H) (rets : List Nat)
    (h : run sdk ops (World.fresh cb) = some (w, rets)) :
    rets.length = ops.length ∧
    ((∃ c : int32_t, w = ⟨some ⟨cb, c⟩, [], []⟩ ∧
        (32 ≤ sdk.ULONG_bits → zeroReleases ops rets = [])) ∨
     (w = ⟨none, [cb], []⟩ ∧ ∃ (ops0 : List RefCall) (rets0 : List Nat),
        ops = ops0 ++ [RefCall.Release] ∧ rets = rets0 ++ [0] ∧
        rets0.length = ops0.length ∧
        (32 ≤ sdk.ULONG_bits → zeroReleases ops0 rets0 = []))) := by
  induction ops using List.reverseRecOn generalizing w rets with
  | nil =>
    rw [run_nil] at h
    simp only [Option.some.injEq, Prod.mk.injEq] at h
    obtain ⟨rfl, rfl⟩ := h
    exact ⟨rfl, Or.inl ⟨_, rfl, fun _ => rfl⟩⟩
  | append_singleton l c ih =>
    obtain ⟨w0, r0, r, h0, h1, rfl⟩ := run_concat_some sdk l c _ w rets h
    obtain ⟨hlen, hcase⟩ := ih w0 r0 h0
    refine ⟨by simp [hlen], ?_⟩
    rcases hcase with ⟨c0, rfl, hz⟩ | ⟨rfl, _⟩
    · rw [zeroReleases_concat l r0 c r hlen]
      cases c with
      | AddRef =>
        simp only [call, InputCallbackWrapper.AddRef, Option.some.injEq, Prod.mk.injEq] at h1
        obtain ⟨rfl, _⟩ := h1
        exact Or.inl ⟨_, rfl, fun hb => by simp [hz hb]⟩
      | Release =>
        simp only [call, InputCallbackWrapper.Release] at h1
        by_cases hzero : (wrap_int32 (c0.val - 1)).val = 0
        · simp only [hzero, if_true, Option.some.injEq, Prod.mk.injEq] at h1
          obtain ⟨rfl, rfl⟩ := h1
          exact Or.inr ⟨by simp, l, r0, rfl, rfl, hlen, hz⟩
        · simp only [hzero, if_false, Option.some.injEq, Prod.mk.injEq] at h1
          obtain ⟨rfl, rfl⟩ := h1
          refine Or.inl ⟨_, rfl, fun hb => ?_⟩
          have hne := to_ULONG_ne_zero sdk.ULONG_bits hb _ hzero
          simp [hne, hz hb]
    · rw [call_none] at h1
      exact absurd h1 (by simp)

/-- The reference count along a run on a freshly constructed adapter with fewer
than `2^31 - 1` calls of `AddRef` (so the count cannot overflow): while the
adapter is in place its count is `1 + #AddRef - #Release ≥ 1`; once it is freed,
`#Release = #AddRef + 1`. -/
theorem run_fresh_count {H : Type} (sdk : DeckLinkAPI) (cb : H)
    (ops : List RefCall) (w : World H) (rets : List Nat)
    (hA : ops.count RefCall.AddRef < 2147483647)
    (h : run sdk ops (World.fresh cb) = some (w, rets)) :
    (∀ a, w.wrapper = some a →
      a.refcount.val = 1 + (ops.count RefCall.AddRef : Int) - ops.count RefCall.Release ∧
      1 ≤ a.refcount.val) ∧
    (w.wrapper = none →
      1 + (ops.count RefCall.AddRef : Int) - ops.count RefCall.Release = 0) := by
  induction ops using List.reverseRecOn generalizing w rets with
  | nil =>
    rw [run_nil] at h
    simp only [Option.some.injEq, Prod.mk.injEq] at h
    obtain ⟨rfl, rfl⟩ := h
    simp [World.fresh, InputCallbackWrapper.ctor]
  | append_singleton l c ih =>
    obtain ⟨w0, r0, r, h0, h1, rfl⟩ := run_concat_some sdk l c _ w rets h
    have hA0 : l.count RefCall.AddRef < 2147483647 := by
      have := List.count_append RefCall.AddRef l [c]
      omega
    obtain ⟨hal, _⟩ := ih w0 r0 hA0 h0
    obtain ⟨wr, d, cs⟩ := w0
    cases wr with
    | none =>
      rw [call_none] at h1
      exact absurd h1 (by simp)
    | some a0 =>
      obtain ⟨hv, hpos⟩ := hal a0 rfl
      have hhi := a0.refcount.hi
      cases c with
      | AddRef =>
        have hcA : (l ++ [RefCall.AddRef]).count RefCall.AddRef
            = l.count RefCall.AddRef + 1 := by simp
        have hcR : (l ++ [RefCall.AddRef]).count RefCall.Release
            = l.count RefCall.Release := by simp
        rw [hcA] at hA
        rw [hcA, hcR]
        simp only [call, InputCallbackWrapper.AddRef, Option.some.injEq, Prod.mk.injEq] at h1
        obtain ⟨rfl, _⟩ := h1
        have hw : (wrap_int32 (a0.refcount.val + 1)).val = a0.refcount.val + 1 :=
          wrap_int32_val_of_range _ (by omega) (by omega)
        refine ⟨fun a ha => ?_, fun hn => by simp at hn⟩
        simp only [Option.some.injEq] at ha
        subst ha
        simp only [hw]
        push_cast
        omega
      | Release =>
        have hcA : (l ++ [RefCall.Release]).count RefCall.AddRef
            = l.count RefCall.AddRef := by simp
        have hcR : (l ++ [RefCall.Release]).count RefCall.Release
            = l.count RefCall.Release + 1 := by simp
        rw [hcA, hcR]
        have hw : (wrap_int32 (a0.refcount.val - 1)).val = a0.refcount.val - 1 :=
          wrap_int32_val_of_range _ (by omega) (by omega)
        simp only [call, InputCallbackWrapper.Release, hw] at h1
        by_cases hzero : a0.refcount.val - 1 = 0
        · simp only [hzero, if_true, Option.some.injEq, Prod.mk.injEq] at h1
          obtain ⟨rfl, _⟩ := h1
          refine ⟨fun a ha => by simp at ha, fun _ => ?_⟩
          push_cast
          omega
        · simp only [hzero, if_false, Option.some.injEq, Prod.mk.injEq] at h1
          obtain ⟨rfl, _⟩ := h1
          refine ⟨fun a ha => ?_, fun hn => by simp at hn⟩
          simp only [Option.some.injEq] at ha
          subst ha
          simp only [hw]
          push_cast
          omega

/-- A run that succeeds has succeeded on each of its initial segments. -/
theorem run_append_some {H : Type} (sdk : DeckLinkAPI) (l1 l2 : List RefCall) (s : World H)
    (h : (run sdk (l1 ++ l2) s).isSome) : (run sdk l1 s).isSome := by
  induction l2 using List.reverseRecOn with
  | nil => simpa using h
  | append_singleton l c ih =>
    apply ih
    rw [← List.append_assoc] at h
    obtain ⟨p, hp⟩ := Option.isSome_iff_exists.mp h
    obtain ⟨w0, r0, r, h0, _, _⟩ := run_concat_some sdk (l1 ++ l) c s p.1 p.2 hp
    simp [h0]

/-! ## Balanced and unbalanced sequences of calls -/

/-- C3 (counterexample): with `N = 1`, the ordering `AddRef, Release` has one
`AddRef` and one `Release`, and after it the freshly constructed adapter is
still in place with count `1` and its handler has not been torn down: the
`N`-th `Release` does not free it. -/
theorem addref_release_keeps_adapter :
    [RefCall.AddRef, RefCall.Release].count RefCall.AddRef = 1 ∧
    [RefCall.AddRef, RefCall.Release].count RefCall.Release = 1 ∧
    run sdk0 [RefCall.AddRef, RefCall.Release] (World.fresh (7 : Nat))
      = some (⟨some ⟨7, ⟨1, by decide, by decide⟩⟩, [], []⟩, [2, 1]) := by
  refine ⟨by decide, by decide, ?_⟩
  decide

/-- C3 (amended): for every `N < 2^31 - 1` and every ordering of `N` calls of
`AddRef` and `N + 1` calls of `Release` on a freshly constructed adapter in which
no call is made on a deleted adapter, the adapter is freed exactly once, by the
last call, which is a `Release` (the `N + 1`-th one): after every shorter initial
segment the adapter is in place and nothing is torn down, and after the whole
sequence the slot is empty and the handler has been torn down once. -/
theorem freed_by_last_release {H : Type} (sdk : DeckLinkAPI) (cb : H) (N : Nat)
    (ops : List RefCall) (hN : N < 2147483647)
    (hA : ops.count RefCall.AddRef = N) (hR : ops.count RefCall.Release = N + 1)
    (hvalid : (run sdk ops (World.fresh cb)).isSome) :
    (∃ rets, run sdk ops (World.fresh cb) = some (⟨none, [cb], []⟩, rets)) ∧
    ops.getLast? = some RefCall.Release ∧
    ∀ i, i < ops.length → ∃ (c : int32_t) (ri : List Nat),
      run sdk (ops.take i) (World.fresh cb) = some (⟨some ⟨cb, c⟩, [], []⟩, ri) := by
  obtain ⟨⟨w, rets⟩, hrun⟩ := Option.isSome_iff_exists.mp hvalid
  obtain ⟨_, hshape⟩ := run_fresh_inv sdk cb ops w rets hrun
  obtain ⟨hal, _⟩ := run_fresh_count sdk cb ops w rets (by omega) hrun
  have hfreed : w = ⟨none, [cb], []⟩ ∧ ops.getLast? = some RefCall.Release := by
    rcases hshape with ⟨c, rfl, _⟩ | ⟨rfl, ops0, rets0, rfl, _, _, _⟩
    · obtain ⟨hv, hpos⟩ := hal _ rfl
      rw [hA, hR] at hv
      push_cast at hv
      simp only at hv hpos
      omega
    · exact ⟨rfl, by simp⟩
  refine ⟨⟨rets, by rw [hrun, hfreed.1]⟩, hfreed.2, fun i hi => ?_⟩
  have hsplit : ops = ops.take i ++ ([ops.get ⟨i, hi⟩] ++ ops.drop (i + 1)) := by
    simp
  have hsome : (run sdk (ops.take i ++ [ops.get ⟨i, hi⟩]) (World.fresh cb)).isSome := by
    apply run_append_some sdk _ (ops.drop (i + 1))
    rw [List.append_assoc, ← hsplit]
    exact hvalid
  obtain ⟨⟨w1, r1⟩, h1⟩ := Option.isSome_iff_exists.mp hsome
  obtain ⟨w0, r0, r, h0, hcall, _⟩ := run_concat_some sdk _ _ _ w1 r1 h1
  obtain ⟨_, hshape0⟩ := run_fresh_inv sdk cb _ w0 r0 h0
  rcases hshape0 with ⟨c, rfl, _⟩ | ⟨rfl, _⟩
  · exact ⟨c, r0, h0⟩
  · rw [call_none] at hcall
    exact absurd hcall (by simp)

/-- Witness of the amended C3 with `N = 1` and the ordering
`AddRef, Release, Release`. -/
theorem freed_by_last_release_witness :
    ((1 : Nat) < 2147483647 ∧
      [RefCall.AddRef, RefCall.Release, RefCall.Release].count RefCall.AddRef = 1 ∧
      [RefCall.AddRef, RefCall.Release, RefCall.Release].count RefCall.Release = 1 + 1 ∧
      (run sdk0 [RefCall.AddRef, RefCall.Release, RefCall.Release]
        (World.fresh (7 : Nat))).isSome) ∧
    ((∃ rets, run sdk0 [RefCall.AddRef, RefCall.Release, RefCall.Release]
        (World.fresh (7 : Nat)) = some (⟨none, [7], []⟩, rets)) ∧
      [RefCall.AddRef, RefCall.Release, RefCall.Release].getLast? = some RefCall.Release ∧
      ∀ i, i < [RefCall.AddRef, RefCall.Release, RefCall.Release].length →
        ∃ (c : int32_t) (ri : List Nat),
          run sdk0 ([RefCall.AddRef, RefCall.Release, RefCall.Release].take i)
            (World.fresh (7 : Nat)) = some (⟨some ⟨7, c⟩, [], []⟩, ri)) :=
  ⟨⟨by decide, by decide, by decide, by decide⟩,
    freed_by_last_release sdk0 (7 : Nat) 1 [RefCall.AddRef, RefCall.Release, RefCall.Release]
      (by decide) (by decide) (by decide) (by decide)⟩

/-- C5: over every sequence of `AddRef`/`Release` calls on a freshly constructed
adapter in which no call is made on a deleted adapter, the bound handler is torn
down at most once; the teardowns are exactly the `Release` calls that return `0`
(one teardown of the bound handler for each such call, none for any other call);
and the handler has been torn down exactly when the adapter has been freed. -/
theorem handler_torn_down_once {H : Type} (sdk : DeckLinkAPI) (hbits : 32 ≤ sdk.ULONG_bits)
    (cb : H) (ops : List RefCall) (w : World H) (rets : List Nat)
    (h : run sdk ops (World.fresh cb) = some (w, rets)) :
    w.dropped.length ≤ 1 ∧
    w.dropped = (zeroReleases ops rets).map (fun _ => cb) ∧
    (w.wrapper = none ↔ w.dropped = [cb]) := by
  obtain ⟨_, hshape⟩ := run_fresh_inv sdk cb ops w rets h
  rcases hshape with ⟨c, rfl, hz⟩ | ⟨rfl, ops0, rets0, rfl, rfl, hlen, hz⟩
  · simp [hz hbits]
  · rw [zeroReleases_concat ops0 rets0 _ _ hlen, hz hbits]
    simp

/-- Witness of C5 on the sequence `AddRef, Release, Release`. -/
theorem handler_torn_down_once_witness :
    (32 ≤ sdk0.ULONG_bits ∧
      run sdk0 [RefCall.AddRef, RefCall.Release, RefCall.Release] (World.fresh (7 : Nat))
        = some (⟨none, [7], []⟩, [2, 1, 0])) ∧
    ((⟨none, [7], []⟩ : World Nat).dropped.length ≤ 1 ∧
      (⟨none, [7], []⟩ : World Nat).dropped
        = (zeroReleases [RefCall.AddRef, RefCall.Release, RefCall.Release] [2, 1, 0]).map
            (fun _ => 7) ∧
      ((⟨none, [7], []⟩ : World Nat).wrapper = none
        ↔ (⟨none, [7], []⟩ : World Nat).dropped = [7])) :=
  ⟨⟨by decide, by decide⟩,
    handler_torn_down_once sdk0 (by decide) (7 : Nat)
      [RefCall.AddRef, RefCall.Release, RefCall.Release] ⟨none, [7], []⟩ [2, 1, 0] (by decide)⟩

/-! ## Releasing down to zero -/

theorem run_cons {H : Type} (sdk : DeckLinkAPI) (c : RefCall) (ops : List RefCall)
    (s : World H) :
    run sdk (c :: ops) s
      = (call sdk s c).bind fun q => (run sdk ops q.1).map fun p => (p.1, q.2 :: p.2) := by
  induction ops using List.reverseRecOn with
  | nil =>
    have h := run_concat sdk [] c s
    simp only [List.nil_append, run_nil, Option.some_bind] at h
    rw [h]
    cases call sdk s c <;> simp [run_nil]
  | append_singleton l d ih =>
    rw [← List.cons_append, run_concat, ih]
    cases call sdk s c with
    | none => simp
    | some q =>
      simp only [Option.some_bind]
      rw [run_concat]
      cases run sdk l q.1 with
      | none => simp
      | some p =>
        simp only [Option.map_some', Option.some_bind]
        cases call sdk p.1 d <;> simp

/-- The value `Release` returns on a count above `1`, and the state it leaves. -/
theorem Release_of_gt_one {H : Type} (sdk : DeckLinkAPI) (hbits : 32 ≤ sdk.ULONG_bits)
    (cb : H) (c : int32_t) (d : List H) (cs : List (H × HandlerCall)) (k : Nat)
    (hc : c.val = (k : Int) + 2) :
    (wrap_int32 (c.val - 1)).val = (k : Int) + 1 ∧
    call sdk ⟨some ⟨cb, c⟩, d, cs⟩ RefCall.Release
      = some (⟨some ⟨cb, wrap_int32 (c.val - 1)⟩, d, cs⟩, k + 1) := by
  have hhi := c.hi
  have hw : (wrap_int32 (c.val - 1)).val = (k : Int) + 1 := by
    rw [wrap_int32_val_of_range _ (by omega) (by omega)]
    omega
  have hr := to_ULONG_of_nonneg sdk.ULONG_bits hbits (wrap_int32 (c.val - 1)) (by omega)
  have hr2 : to_ULONG sdk.ULONG_bits (wrap_int32 (c.val - 1)) = k + 1 := by omega
  refine ⟨hw, ?_⟩
  have hne : ¬ (wrap_int32 (c.val - 1)).val = 0 := by omega
  simp only [call, InputCallbackWrapper.Release, hne, if_false, hr2]

/-- The value `Release` returns on the count `1`, and the state it leaves. -/
theorem Release_of_one {H : Type} (sdk : DeckLinkAPI) (cb : H) (c : int32_t) (d : List H)
    (cs : List (H × HandlerCall)) (hc : c.val = 1) :
    call sdk ⟨some ⟨cb, c⟩, d, cs⟩ RefCall.Release = some (⟨none, d ++ [cb], cs⟩, 0) := by
  have hw : (wrap_int32 (c.val - 1)).val = 0 := by
    rw [wrap_int32_val_of_range _ (by omega) (by omega)]
    omega
  simp only [call, InputCallbackWrapper.Release, hw, if_true]

theorem countdown_aux {H : Type} (sdk : DeckLinkAPI) (hbits : 32 ≤ sdk.ULONG_bits)
    (cb : H) (d : List H) (cs : List (H × HandlerCall)) (k : Nat) :
    ∀ c : int32_t, c.val = (k : Int) + 1 →
      run sdk (List.replicate (k + 1) RefCall.Release) ⟨some ⟨cb, c⟩, d, cs⟩
        = some (⟨none, d ++ [cb], cs⟩, (List.range (k + 1)).reverse) ∧
      ∀ j, j < k + 1 → ∃ (n : int32_t) (rj : List Nat), n.val = c.val - j ∧
        run sdk (List.replicate j RefCall.Release) ⟨some ⟨cb, c⟩, d, cs⟩
          = some (⟨some ⟨cb, n⟩, d, cs⟩, rj) := by
  induction k with
  | zero =>
    intro c hc
    have hc1 : c.val = 1 := by simpa using hc
    refine ⟨?_, fun j hj => ?_⟩
    · rw [List.replicate_succ, run_cons, Release_of_one sdk cb c d cs hc1]
      simp only [Option.some_bind, List.replicate_zero, run_nil, Option.map_some']
      rfl
    · have hj0 : j = 0 := by omega
      subst hj0
      exact ⟨c, [], by simp, by simp [run_nil]⟩
  | succ k ih =>
    intro c hc
    have hc2 : c.val = (k : Int) + 2 := by push_cast at hc; omega
    obtain ⟨hw, hcall⟩ := Release_of_gt_one sdk hbits cb c d cs k hc2
    obtain ⟨hall, hpre⟩ := ih (wrap_int32 (c.val - 1)) hw
    refine ⟨?_, fun j hj => ?_⟩
    · rw [List.replicate_succ, run_cons, hcall]
      simp only [Option.some_bind, hall, Option.map_some']
      rw [List.range_succ (k + 1), List.reverse_append]
      simp
    · cases j with
      | zero => exact ⟨c, [], by simp, by simp [run_nil]⟩
      | succ j =>
        obtain ⟨n, rj, hn, hrun⟩ := hpre j (by omega)
        refine ⟨n, (k + 1) :: rj, ?_, ?_⟩
        · rw [hn, hw, hc2]
          push_cast
          omega
        · rw [List.replicate_succ, run_cons, hcall]
          simp only [Option.some_bind, hrun, Option.map_some']

/-- C4: on an adapter with reference count `k ≥ 1`, `k` successive calls of
`Release` return `k-1, k-2, ..., 1, 0` in that order; the last one frees the
adapter and tears its handler down, and after any smaller number `j` of them the
adapter is still in place with count `k - j` and nothing torn down. In
particular a freshly constructed adapter (count `1`) that is acquired once
(count `2`) returns `1` from the first `Release` and `0` from the second, which
frees it. -/
theorem release_countdown {H : Type} (sdk : DeckLinkAPI) (hbits : 32 ≤ sdk.ULONG_bits)
    (cb : H) (c : int32_t) (d : List H) (cs : List (H × HandlerCall)) (hc : 1 ≤ c.val) :
    run sdk (List.replicate c.val.toNat RefCall.Release) ⟨some ⟨cb, c⟩, d, cs⟩
      = some (⟨none, d ++ [cb], cs⟩, (List.range c.val.toNat).reverse) ∧
    (∀ j, j < c.val.toNat → ∃ (n : int32_t) (rj : List Nat), n.val = c.val - j ∧
      run sdk (List.replicate j RefCall.Release) ⟨some ⟨cb, c⟩, d, cs⟩
        = some (⟨some ⟨cb, n⟩, d, cs⟩, rj)) ∧
    run sdk [RefCall.AddRef, RefCall.Release, RefCall.Release] (World.fresh cb)
      = some (⟨none, [cb], []⟩, [2, 1, 0]) := by
  obtain ⟨k, hk⟩ : ∃ k : Nat, c.val.toNat = k + 1 := ⟨c.val.toNat - 1, by omega⟩
  have hck : c.val = (k : Int) + 1 := by omega
  obtain ⟨h1, h2⟩ := countdown_aux sdk hbits cb d cs k c hck
  rw [hk]
  refine ⟨h1, h2, ?_⟩
  have hadd : call sdk (World.fresh cb) RefCall.AddRef
      = some (⟨some ⟨cb, wrap_int32 2⟩, [], []⟩, 2) := by
    have hr := to_ULONG_of_nonneg sdk.ULONG_bits hbits (wrap_int32 2) (by decide)
    have hr2 : to_ULONG sdk.ULONG_bits (wrap_int32 2) = 2 := by
      have : (wrap_int32 2).val = 2 := by decide
      omega
    simp [call, InputCallbackWrapper.AddRef, World.fresh, InputCallbackWrapper.ctor, hr2]
  obtain ⟨hw, hrel⟩ := Release_of_gt_one sdk hbits cb (wrap_int32 2) [] [] 0 (by decide)
  have hrel1 := Release_of_one sdk cb (wrap_int32 ((wrap_int32 2).val - 1)) [] []
    (by simpa using hw)
  rw [run_cons, hadd]
  simp only [Option.some_bind]
  rw [run_cons, hrel]
  simp only [Option.some_bind]
  rw [run_cons, hrel1]
  simp [run_nil]

/-- Witness of C4 on an adapter with count `3`. -/
theorem release_countdown_witness :
    (32 ≤ sdk0.ULONG_bits ∧ (1 : Int) ≤ (⟨3, by decide, by decide⟩ : int32_t).val) ∧
    run sdk0 (List.replicate (⟨3, by decide, by decide⟩ : int32_t).val.toNat RefCall.Release)
        (⟨some ⟨7, ⟨3, by decide, by decide⟩⟩, [], []⟩ : World Nat)
      = some (⟨none, [] ++ [7], []⟩,
          (List.range (⟨3, by decide, by decide⟩ : int32_t).val.toNat).reverse) :=
  ⟨⟨by decide, by decide⟩,
    (release_countdown sdk0 (by decide) (7 : Nat) ⟨3, by decide, by decide⟩ [] []
      (by decide)).1⟩

/-! ## Registration -/

/-- C6 (the code at the failing input): `input_set_callback` with a vendor
`SetCallback` that acquires one reference leaves the adapter with count `2`, and
the vendor releasing that one reference afterwards leaves it in place with count
`1`: the slot is still filled and the handler has not been torn down. -/
theorem input_set_callback_keeps_adapter {H : Type} (sdk : DeckLinkAPI) (cb : H) :
    ∃ (s1 s2 : World H) (status : HResult) (r : Nat),
      input_set_callback (SetCallback_acquiring sdk) cb = some (s1, status) ∧
      s1 = ⟨some ⟨cb, ⟨2, by decide, by decide⟩⟩, [], []⟩ ∧
      InputCallbackWrapper.Release sdk s1 = some (s2, r) ∧
      s2 = ⟨some ⟨cb, ⟨1, by decide, by decide⟩⟩, [], []⟩ :=
  ⟨_, _, _, _, rfl, rfl, rfl, rfl⟩

/-! ## The event methods -/

/-- C7: for every video-frame handle and every audio-packet handle (the null
handle `none` included), `VideoInputFrameArrived` on an adapter that is in place
invokes `video_input_frame_arrived` of the bound handler exactly once (the call
log grows by that one entry) with the same two handles, and returns the status
the handler gave for that call, with its code unchanged; a null audio handle is
handed on as null and the call still succeeds. Nothing else changes. -/
theorem VideoInputFrameArrived_spec {H : Type} (respond : Respond H) (cb : H) (c : int32_t)
    (d : List H) (cs : List (H × HandlerCall)) (video_frame audio_packet : Ptr) :
    InputCallbackWrapper.VideoInputFrameArrived respond ⟨some ⟨cb, c⟩, d, cs⟩
        video_frame audio_packet
      = some (⟨some ⟨cb, c⟩, d,
            cs ++ [(cb, HandlerCall.video_input_frame_arrived video_frame audio_packet)]⟩,
          (respond cb cs
            (HandlerCall.video_input_frame_arrived video_frame audio_packet)).code) ∧
    InputCallbackWrapper.VideoInputFrameArrived respond ⟨some ⟨cb, c⟩, d, cs⟩
        video_frame none
      = some (⟨some ⟨cb, c⟩, d,
            cs ++ [(cb, HandlerCall.video_input_frame_arrived video_frame none)]⟩,
          (respond cb cs (HandlerCall.video_input_frame_arrived video_frame none)).code) := by
  have hcast : ∀ r : HResult, static_cast_HRESULT r = r.code := fun r =>
    Nat.mod_eq_of_lt r.code_lt
  simp [InputCallbackWrapper.VideoInputFrameArrived, hcast]

/-- C8: for every raw events bitmask `e`, display-mode handle `m` and raw
detected-format bitmask `f`, `VideoInputFormatChanged` on an adapter that is in
place invokes `video_input_format_changed` of the bound handler exactly once
with `into_video_input_format_changed_events e`, `m` unchanged and
`into_detected_video_input_format_flags f`, and returns the status the handler
gave for that call, with its code unchanged. Nothing else changes. -/
theorem VideoInputFormatChanged_spec {H : Type} (sdk : DeckLinkAPI) (respond : Respond H)
    (cb : H) (c : int32_t) (d : List H) (cs : List (H × HandlerCall)) (e : Nat) (m : Ptr)
    (f : Nat) :
    InputCallbackWrapper.VideoInputFormatChanged sdk respond ⟨some ⟨cb, c⟩, d, cs⟩ e m f
      = some (⟨some ⟨cb, c⟩, d,
            cs ++ [(cb, HandlerCall.video_input_format_changed
              (into_video_input_format_changed_events sdk e) m
              (into_detected_video_input_format_flags sdk f))]⟩,
          (respond cb cs (HandlerCall.video_input_format_changed
              (into_video_input_format_changed_events sdk e) m
              (into_detected_video_input_format_flags sdk f))).code) := by
  have hcast : ∀ r : HResult, static_cast_HRESULT r = r.code := fun r =>
    Nat.mod_eq_of_lt r.code_lt
  simp [InputCallbackWrapper.VideoInputFormatChanged, hcast]

theorem two_pow_land_two_pow (a b : Nat) :
    (2 ^ a &&& 2 ^ b : Nat) = if a = b then 2 ^ a else 0 := by
  rw [Nat.two_pow_and, Nat.testBit_two_pow]
  by_cases h : a = b
  · simp [h]
  · have h2 : ¬ b = a := fun hba => h hba.symm
    simp [h, h2]

/-- Decoding a raw events bitmask that is exactly one of the three event bits. -/
theorem into_video_input_format_changed_events_single (sdk : DeckLinkAPI)
    (hb : sdk.FormatChangedBits) :
    into_video_input_format_changed_events sdk sdk.bmdVideoInputDisplayModeChanged
      = ⟨true, false, false⟩ ∧
    into_video_input_format_changed_events sdk sdk.bmdVideoInputFieldDominanceChanged
      = ⟨false, true, false⟩ ∧
    into_video_input_format_changed_events sdk sdk.bmdVideoInputColorspaceChanged
      = ⟨false, false, true⟩ := by
  obtain ⟨a, b, c, hab, hac, hbc, h1, h2, h3⟩ := hb
  have hba : b ≠ a := fun h => hab h.symm
  have hca : c ≠ a := fun h => hac h.symm
  have hcb : c ≠ b := fun h => hbc h.symm
  simp [into_video_input_format_changed_events, h1, h2, h3, two_pow_land_two_pow,
    hab, hac, hbc, hba, hca, hcb]

/-- C9: when the three format-changed event constants are three different single
bits, a raw events bitmask in which exactly one of them is set and every other
bit is clear reaches the handler, through `VideoInputFormatChanged`, as the
record with the corresponding field `true` and the other two `false`; in
particular the bitmask with only `DisplayModeChanged` gives
`display_mode_changed = true`, `field_dominance_changed = false`,
`colorspace_changed = false`. -/
theorem VideoInputFormatChanged_single_bit {H : Type} (sdk : DeckLinkAPI)
    (hb : sdk.FormatChangedBits) (respond : Respond H) (cb : H) (c : int32_t) (d : List H)
    (cs : List (H × HandlerCall)) (m : Ptr) (f : Nat) :
    (InputCallbackWrapper.VideoInputFormatChanged sdk respond ⟨some ⟨cb, c⟩, d, cs⟩
        sdk.bmdVideoInputDisplayModeChanged m f).map (fun p => p.1.calls)
      = some (cs ++ [(cb, HandlerCall.video_input_format_changed
          ⟨true, false, false⟩ m (into_detected_video_input_format_flags sdk f))]) ∧
    (InputCallbackWrapper.VideoInputFormatChanged sdk respond ⟨some ⟨cb, c⟩, d, cs⟩
        sdk.bmdVideoInputFieldDominanceChanged m f).map (fun p => p.1.calls)
      = some (cs ++ [(cb, HandlerCall.video_input_format_changed
          ⟨false, true, false⟩ m (into_detected_video_input_format_flags sdk f))]) ∧
    (InputCallbackWrapper.VideoInputFormatChanged sdk respond ⟨some ⟨cb, c⟩, d, cs⟩
        sdk.bmdVideoInputColorspaceChanged m f).map (fun p => p.1.calls)
      = some (cs ++ [(cb, HandlerCall.video_input_format_changed
          ⟨false, false, true⟩ m (into_detected_video_input_format_flags sdk f))]) := by
  obtain ⟨h1, h2, h3⟩ := into_video_input_format_changed_events_single sdk hb
  refine ⟨?_, ?_, ?_⟩
  · simp only [InputCallbackWrapper.VideoInputFormatChanged, h1, Option.map_some']
  · simp only [InputCallbackWrapper.VideoInputFormatChanged, h2, Option.map_some']
  · simp only [InputCallbackWrapper.VideoInputFormatChanged, h3, Option.map_some']

/-- The concrete vendor values have three different single event bits. -/
theorem sdk0_FormatChangedBits : sdk0.FormatChangedBits :=
  ⟨0, 1, 2, by decide, by decide, by decide, rfl, rfl, rfl⟩

/-- Witness of C9 with the concrete vendor values, a handler that always reports
success, and the bitmask `1` (only `DisplayModeChanged`). -/
theorem VideoInputFormatChanged_single_bit_witness :
    sdk0.FormatChangedBits ∧
    (InputCallbackWrapper.VideoInputFormatChanged sdk0
        (fun _ _ _ => ⟨0, by decide⟩) (⟨some ⟨7, ⟨1, by decide, by decide⟩⟩, [], []⟩ : World Nat)
        sdk0.bmdVideoInputDisplayModeChanged (some 5) 0).map (fun p => p.1.calls)
      = some ([] ++ [(7, HandlerCall.video_input_format_changed ⟨true, false, false⟩ (some 5)
            (into_detected_video_input_format_flags sdk0 0))]) :=
  ⟨sdk0_FormatChangedBits,
    (VideoInputFormatChanged_single_bit sdk0 sdk0_FormatChangedBits
      (fun _ _ _ => ⟨0, by decide⟩) (7 : Nat) ⟨1, by decide, by decide⟩ [] [] (some 5) 0).1⟩

/-- C10: for every interface identifier and every content of the output
location, on every adapter that is in place, `QueryInterface` returns
`E_NOINTERFACE`, leaves the output location as it was (no object is written),
and leaves the adapter, with its reference count and its handler, and the rest
of the state unchanged. -/
theorem QueryInterface_spec {H : Type} (sdk : DeckLinkAPI) (cb : H) (c : int32_t)
    (d : List H) (cs : List (H × HandlerCall)) (iid : Nat) (out : Ptr) :
    InputCallbackWrapper.QueryInterface sdk ⟨some ⟨cb, c⟩, d, cs⟩ iid out
      = some (⟨some ⟨cb, c⟩, d, cs⟩, out, sdk.E_NOINTERFACE) :=
  rfl

/-! ## Status translation and the bound handler -/

/-- C11: the translation `static_cast<HRESULT>` of a handler status into the
vendor status, which `VideoInputFrameArrived` and `VideoInputFormatChanged`
apply to the handler's result, is one-to-one; the success status `HResult::Ok`
translates to the vendor code `S_OK`; and every other (failure) status
translates to a code different from `S_OK`. -/
theorem static_cast_HRESULT_one_to_one :
    Function.Injective static_cast_HRESULT ∧
    static_cast_HRESULT HResult.Ok = S_OK ∧
    ∀ r : HResult, r ≠ HResult.Ok → static_cast_HRESULT r ≠ S_OK := by
  have hcast : ∀ r : HResult, static_cast_HRESULT r = r.code := fun r =>
    Nat.mod_eq_of_lt r.code_lt
  have hinj : Function.Injective static_cast_HRESULT := by
    intro a b hab
    rw [hcast, hcast] at hab
    cases a
    cases b
    simp only at hab
    subst hab
    rfl
  refine ⟨hinj, rfl, fun r hr h => hr (hinj ?_)⟩
  rw [h]
  rfl

/-- C12: on every adapter that is in place, each operation that does not free it
leaves the bound handler the one it was: `AddRef`, a `Release` that returns a
positive count, `QueryInterface`, `VideoInputFrameArrived` and
`VideoInputFormatChanged` all end with the same handler `cb` bound. -/
theorem bound_handler_never_replaced {H : Type} (sdk : DeckLinkAPI) (respond : Respond H)
    (cb : H) (c : int32_t) (d : List H) (cs : List (H × HandlerCall)) (iid : Nat)
    (out video_frame audio_packet display_mode : Ptr) (events flags : Nat) :
    (InputCallbackWrapper.AddRef sdk ⟨some ⟨cb, c⟩, d, cs⟩).map
        (fun p => p.1.boundHandler) = some (some cb) ∧
    (∀ (s : World H) (r : Nat),
      InputCallbackWrapper.Release sdk ⟨some ⟨cb, c⟩, d, cs⟩ = some (s, r) → 0 < r →
        s.boundHandler = some cb) ∧
    (InputCallbackWrapper.QueryInterface sdk ⟨some ⟨cb, c⟩, d, cs⟩ iid out).map
        (fun p => p.1.boundHandler) = some (some cb) ∧
    (InputCallbackWrapper.VideoInputFrameArrived respond ⟨some ⟨cb, c⟩, d, cs⟩
        video_frame audio_packet).map (fun p => p.1.boundHandler) = some (some cb) ∧
    (InputCallbackWrapper.VideoInputFormatChanged sdk respond ⟨some ⟨cb, c⟩, d, cs⟩
        events display_mode flags).map (fun p => p.1.boundHandler) = some (some cb) := by
  refine ⟨rfl, ?_, rfl, rfl, rfl⟩
  intro s r h hr
  simp only [InputCallbackWrapper.Release] at h
  by_cases hzero : (wrap_int32 (c.val - 1)).val = 0
  · simp only [hzero, if_true, Option.some.injEq, Prod.mk.injEq] at h
    omega
  · simp only [hzero, if_false, Option.some.injEq, Prod.mk.injEq] at h
    rw [← h.1]
    rfl

/-! ## Bitmask records: encode, then decode -/

theorem decide_land_two_pow_ne_zero (x a : Nat) :
    decide ((x &&& 2 ^ a) ≠ 0) = x.testBit a := by
  rw [Nat.and_comm, Nat.two_pow_and]
  cases x.testBit a <;> simp

theorem testBit_ite_lor_two_pow (b : Bool) (x a i : Nat) :
    (if b = true then x ||| 2 ^ a else x).testBit i
      = (x.testBit i || (b && decide (a = i))) := by
  cases b <;> simp [Nat.testBit_or, Nat.testBit_two_pow]

/-- C13: when the three format-changed event constants are three different
single bits, decoding the encoding of any `VideoInputFormatChangedEvents` record
gives the record back. -/
theorem into_from_video_input_format_changed_events (sdk : DeckLinkAPI)
    (hb : sdk.FormatChangedBits) (r : VideoInputFormatChangedEvents) :
    into_video_input_format_changed_events sdk
      (from_video_input_format_changed_events sdk r) = r := by
  obtain ⟨a, b, c, hab, hac, hbc, h1, h2, h3⟩ := hb
  have hba : b ≠ a := fun h => hab h.symm
  have hca : c ≠ a := fun h => hac h.symm
  have hcb : c ≠ b := fun h => hbc h.symm
  obtain ⟨r1, r2, r3⟩ := r
  simp only [into_video_input_format_changed_events, from_video_input_format_changed_events,
    h1, h2, h3, decide_land_two_pow_ne_zero, testBit_ite_lor_two_pow]
  simp [hab, hac, hbc, hba, hca, hcb]

/-- C14: when the six detected-format constants are six different single bits,
decoding the encoding of any `DetectedVideoInputFormatFlags` record gives the
record back. -/
theorem into_from_detected_video_input_format_flags (sdk : DeckLinkAPI)
    (hb : sdk.DetectedFormatBits) (r : DetectedVideoInputFormatFlags) :
    into_detected_video_input_format_flags sdk
      (from_detected_video_input_format_flags sdk r) = r := by
  obtain ⟨idx, hinj, h1, h2, h3, h4, h5, h6⟩ := hb
  obtain ⟨r1, r2, r3, r4, r5, r6⟩ := r
  simp only [into_detected_video_input_format_flags, from_detected_video_input_format_flags,
    h1, h2, h3, h4, h5, h6, decide_land_two_pow_ne_zero, testBit_ite_lor_two_pow]
  simp [hinj.eq_iff]

/-- The concrete vendor values have six different single detected-format bits. -/
theorem sdk0_DetectedFormatBits : sdk0.DetectedFormatBits :=
  ⟨fun i => i.val, Fin.val_injective, rfl, rfl, rfl, rfl, rfl, rfl⟩

/-- The concrete video-input flag constants are three different single bits
outside the default value. -/
theorem flags0_VideoInputFlagBits : flags0.VideoInputFlagBits :=
  ⟨fun i => i.val, Fin.val_injective, fun _ => Nat.zero_testBit _, rfl, rfl, rfl⟩

/-- The concrete supported-video-mode constants are seven different single bits
outside the default value. -/
theorem flags0_SupportedVideoModeBits : flags0.SupportedVideoModeBits :=
  ⟨fun i => i.val, Fin.val_injective, fun _ => Nat.zero_testBit _,
    rfl, rfl, rfl, rfl, rfl, rfl, rfl⟩

/-- Witness of C13 with the concrete vendor values and the record with
`display_mode_changed` and `colorspace_changed` set. -/
theorem into_from_video_input_format_changed_events_witness :
    sdk0.FormatChangedBits ∧
    into_video_input_format_changed_events sdk0
      (from_video_input_format_changed_events sdk0 ⟨true, false, true⟩)
      = ⟨true, false, true⟩ :=
  ⟨sdk0_FormatChangedBits,
    into_from_video_input_format_changed_events sdk0 sdk0_FormatChangedBits
      ⟨true, false, true⟩⟩

/-- Witness of C14 with the concrete vendor values and the record with
`format_rgb_444` and `bit_depth_10` set. -/
theorem into_from_detected_video_input_format_flags_witness :
    sdk0.DetectedFormatBits ∧
    into_detected_video_input_format_flags sdk0
      (from_detected_video_input_format_flags sdk0 ⟨false, true, false, false, true, false⟩)
      = ⟨false, true, false, false, true, false⟩ :=
  ⟨sdk0_DetectedFormatBits,
    into_from_detected_video_input_format_flags sdk0 sdk0_DetectedFormatBits
      ⟨false, true, false, false, true, false⟩⟩

/-- C15: when the three video-input flag constants are three different single
bits that are not set in `bmdVideoInputFlagDefault`, decoding the encoding of
any `VideoInputFlags` record gives the record back. -/
theorem into_from_video_input_flags (k : DeckLinkFlagConstants)
    (hb : k.VideoInputFlagBits) (r : VideoInputFlags) :
    into_video_input_flags k (from_video_input_flags k r) = r := by
  obtain ⟨idx, hinj, hd, h1, h2, h3⟩ := hb
  obtain ⟨r1, r2, r3⟩ := r
  simp only [into_video_input_flags, from_video_input_flags,
    h1, h2, h3, decide_land_two_pow_ne_zero, testBit_ite_lor_two_pow]
  simp [hinj.eq_iff, hd]

/-- Witness of C15 with the concrete constants and the record with
`enable_format_detection` set. -/
theorem into_from_video_input_flags_witness :
    flags0.VideoInputFlagBits ∧
    into_video_input_flags flags0 (from_video_input_flags flags0 ⟨true, false, false⟩)
      = ⟨true, false, false⟩ :=
  ⟨flags0_VideoInputFlagBits,
    into_from_video_input_flags flags0 flags0_VideoInputFlagBits ⟨true, false, false⟩⟩

/-- C16: when the seven supported-video-mode constants are seven different
single bits that are not set in `bmdSupportedVideoModeDefault`, decoding the
encoding of any `SupportedVideoModeFlags` record gives the record back. -/
theorem into_from_supported_video_mode_flags (k : DeckLinkFlagConstants)
    (hb : k.SupportedVideoModeBits) (r : SupportedVideoModeFlags) :
    into_supported_video_mode_flags k (from_supported_video_mode_flags k r) = r := by
  obtain ⟨idx, hinj, hd, h1, h2, h3, h4, h5, h6, h7⟩ := hb
  obtain ⟨r1, r2, r3, r4, r5, r6, r7⟩ := r
  simp only [into_supported_video_mode_flags, from_supported_video_mode_flags,
    h1, h2, h3, h4, h5, h6, h7, decide_land_two_pow_ne_zero, testBit_ite_lor_two_pow]
  simp [hinj.eq_iff, hd]

/-- Witness of C16 with the concrete constants and the record with
`supports_keying`, `supports_SDI_dual_link` and `supports_PsF` set. -/
theorem into_from_supported_video_mode_flags_witness :
    flags0.SupportedVideoModeBits ∧
    into_supported_video_mode_flags flags0
      (from_supported_video_mode_flags flags0 ⟨true, false, false, true, false, false, true⟩)
      = ⟨true, false, false, true, false, false, true⟩ :=
  ⟨flags0_SupportedVideoModeBits,
    into_from_supported_video_mode_flags flags0 flags0_SupportedVideoModeBits
      ⟨true, false, false, true, false, false, true⟩⟩

/-! ## Bitmask decoders and unknown bits -/

theorem land_self_land (x k : Nat) : (x &&& k) &&& k = x &&& k := by
  rw [Nat.and_assoc, Nat.and_self]

theorem land_lor_right_land (x a k : Nat) : (x &&& (a ||| k)) &&& k = x &&& k := by
  apply Nat.eq_of_testBit_eq
  intro i
  simp only [Nat.testBit_and, Nat.testBit_or]
  cases x.testBit i <;> cases a.testBit i <;> cases k.testBit i <;> rfl

theorem land_lor_left_land (x a b k : Nat) (h : (x &&& a) &&& k = x &&& k) :
    (x &&& (a ||| b)) &&& k = x &&& k := by
  apply Nat.eq_of_testBit_eq
  intro i
  have hi : ((x &&& a) &&& k).testBit i = (x &&& k).testBit i := by rw [h]
  simp only [Nat.testBit_and, Nat.testBit_or] at hi ⊢
  revert hi
  cases x.testBit i <;> cases a.testBit i <;> cases b.testBit i <;> cases k.testBit i <;> simp

theorem into_video_input_format_changed_events_known (sdk : DeckLinkAPI) (x : Nat) :
    into_video_input_format_changed_events sdk (x &&& sdk.formatChangedKnown)
      = into_video_input_format_changed_events sdk x := by
  unfold into_video_input_format_changed_events DeckLinkAPI.formatChangedKnown
  have h1 : ∀ a b c : Nat, (x &&& (a ||| b ||| c)) &&& a = x &&& a := fun a b c =>
    land_lor_left_land _ _ _ _ (land_lor_left_land _ _ _ _ (land_self_land _ _))
  have h2 : ∀ a b c : Nat, (x &&& (a ||| b ||| c)) &&& b = x &&& b := fun a b c =>
    land_lor_left_land _ _ _ _ (land_lor_right_land _ _ _)
  have h3 : ∀ a b c : Nat, (x &&& (a ||| b ||| c)) &&& c = x &&& c := fun a b c =>
    land_lor_right_land _ _ _
  rw [h1, h2, h3]

theorem into_video_input_flags_known (k : DeckLinkFlagConstants) (x : Nat) :
    into_video_input_flags k (x &&& k.videoInputKnown) = into_video_input_flags k x := by
  unfold into_video_input_flags DeckLinkFlagConstants.videoInputKnown
  have h1 : ∀ a b c : Nat, (x &&& (a ||| b ||| c)) &&& a = x &&& a := fun a b c =>
    land_lor_left_land _ _ _ _ (land_lor_left_land _ _ _ _ (land_self_land _ _))
  have h2 : ∀ a b c : Nat, (x &&& (a ||| b ||| c)) &&& b = x &&& b := fun a b c =>
    land_lor_left_land _ _ _ _ (land_lor_right_land _ _ _)
  have h3 : ∀ a b c : Nat, (x &&& (a ||| b ||| c)) &&& c = x &&& c := fun a b c =>
    land_lor_right_land _ _ _
  rw [h1, h2, h3]

theorem into_detected_video_input_format_flags_known (sdk : DeckLinkAPI) (x : Nat) :
    into_detected_video_input_format_flags sdk (x &&& sdk.detectedFormatKnown)
      = into_detected_video_input_format_flags sdk x := by
  unfold into_detected_video_input_format_flags DeckLinkAPI.detectedFormatKnown
  congr 1 <;>
    (congr 2
     repeat (first
       | exact land_lor_right_land _ _ _
       | exact land_self_land _ _
       | apply land_lor_left_land))

theorem into_supported_video_mode_flags_known (k : DeckLinkFlagConstants) (x : Nat) :
    into_supported_video_mode_flags k (x &&& k.supportedVideoModeKnown)
      = into_supported_video_mode_flags k x := by
  unfold into_supported_video_mode_flags DeckLinkFlagConstants.supportedVideoModeKnown
  congr 1 <;>
    (congr 2
     repeat (first
       | exact land_lor_right_land _ _ _
       | exact land_self_land _ _
       | apply land_lor_left_land))

/-- C17: each of the four bitmask decoders is a total function of the raw value
and ignores unknown bits: for every raw value `x`, decoding `x` gives the same
record as decoding `x AND K`, where `K` is the OR of the known bits of that
type; so a value with none of the known bits set decodes to the all-false
record. -/
theorem decoders_ignore_unknown_bits (sdk : DeckLinkAPI) (k : DeckLinkFlagConstants)
    (x : Nat) :
    (into_video_input_format_changed_events sdk x
        = into_video_input_format_changed_events sdk (x &&& sdk.formatChangedKnown) ∧
      (x &&& sdk.formatChangedKnown = 0 →
        into_video_input_format_changed_events sdk x = ⟨false, false, false⟩)) ∧
    (into_detected_video_input_format_flags sdk x
        = into_detected_video_input_format_flags sdk (x &&& sdk.detectedFormatKnown) ∧
      (x &&& sdk.detectedFormatKnown = 0 →
        into_detected_video_input_format_flags sdk x
          = ⟨false, false, false, false, false, false⟩)) ∧
    (into_video_input_flags k x = into_video_input_flags k (x &&& k.videoInputKnown) ∧
      (x &&& k.videoInputKnown = 0 →
        into_video_input_flags k x = ⟨false, false, false⟩)) ∧
    (into_supported_video_mode_flags k x
        = into_supported_video_mode_flags k (x &&& k.supportedVideoModeKnown) ∧
      (x &&& k.supportedVideoModeKnown = 0 →
        into_supported_video_mode_flags k x
          = ⟨false, false, false, false, false, false, false⟩)) := by
  refine ⟨⟨(into_video_input_format_changed_events_known sdk x).symm, fun h => ?_⟩,
    ⟨(into_detected_video_input_format_flags_known sdk x).symm, fun h => ?_⟩,
    ⟨(into_video_input_flags_known k x).symm, fun h => ?_⟩,
    ⟨(into_supported_video_mode_flags_known k x).symm, fun h => ?_⟩⟩
  · rw [← into_video_input_format_changed_events_known, h]
    simp [into_video_input_format_changed_events]
  · rw [← into_detected_video_input_format_flags_known, h]
    simp [into_detected_video_input_format_flags]
  · rw [← into_video_input_flags_known, h]
    simp [into_video_input_flags]
  · rw [← into_supported_video_mode_flags_known, h]
    simp [into_supported_video_mode_flags]

/-! ## Bitmask encoders and the default value -/

theorem ite_lor_eq (b : Bool) (x K : Nat) :
    (if b = true then x ||| K else x) = x ||| (if b = true then K else 0) := by
  cases b <;> simp

theorem testBit_ite_zero (b : Bool) (K i : Nat) :
    (if b = true then K else 0).testBit i = (b && K.testBit i) := by
  cases b <;> simp

/-- C18: `from_video_input_flags` and `from_supported_video_mode_flags` return
the named default constant OR-ed with the vendor constant of exactly the fields
that are `true`; the all-false record encodes to the default constant; and a
bit is set in the result only if it is set in the default constant or in the
constant of a field that is `true`. -/
theorem encoders_or_default (k : DeckLinkFlagConstants) (v : VideoInputFlags)
    (m : SupportedVideoModeFlags) :
    (from_video_input_flags k v
        = k.bmdVideoInputFlagDefault |||
            (if v.enable_format_detection then k.bmdVideoInputEnableFormatDetection else 0) |||
            (if v.dual_stream_3d then k.bmdVideoInputDualStream3D else 0) |||
            (if v.synchronize_to_capture_group then
              k.bmdVideoInputSynchronizeToCaptureGroup else 0) ∧
      from_video_input_flags k ⟨false, false, false⟩ = k.bmdVideoInputFlagDefault ∧
      ∀ i, (from_video_input_flags k v).testBit i
        = (k.bmdVideoInputFlagDefault.testBit i ||
            (v.enable_format_detection && k.bmdVideoInputEnableFormatDetection.testBit i) ||
            (v.dual_stream_3d && k.bmdVideoInputDualStream3D.testBit i) ||
            (v.synchronize_to_capture_group &&
              k.bmdVideoInputSynchronizeToCaptureGroup.testBit i))) ∧
    (from_supported_video_mode_flags k m
        = k.bmdSupportedVideoModeDefault |||
            (if m.supports_keying then k.bmdSupportedVideoModeKeying else 0) |||
            (if m.supports_dual_stream_3d then k.bmdSupportedVideoModeDualStream3D else 0) |||
            (if m.supports_SDI_single_link then k.bmdSupportedVideoModeSDISingleLink else 0) |||
            (if m.supports_SDI_dual_link then k.bmdSupportedVideoModeSDIDualLink else 0) |||
            (if m.supports_SDI_quad_link then k.bmdSupportedVideoModeSDIQuadLink else 0) |||
            (if m.supports_in_any_profile then k.bmdSupportedVideoModeInAnyProfile else 0) |||
            (if m.supports_PsF then k.bmdSupportedVideoModePsF else 0) ∧
      from_supported_video_mode_flags k ⟨false, false, false, false, false, false, false⟩
        = k.bmdSupportedVideoModeDefault ∧
      ∀ i, (from_supported_video_mode_flags k m).testBit i
        = (k.bmdSupportedVideoModeDefault.testBit i ||
            (m.supports_keying && k.bmdSupportedVideoModeKeying.testBit i) ||
            (m.supports_dual_stream_3d && k.bmdSupportedVideoModeDualStream3D.testBit i) ||
            (m.supports_SDI_single_link && k.bmdSupportedVideoModeSDISingleLink.testBit i) ||
            (m.supports_SDI_dual_link && k.bmdSupportedVideoModeSDIDualLink.testBit i) ||
            (m.supports_SDI_quad_link && k.bmdSupportedVideoModeSDIQuadLink.testBit i) ||
            (m.supports_in_any_profile && k.bmdSupportedVideoModeInAnyProfile.testBit i) ||
            (m.supports_PsF && k.bmdSupportedVideoModePsF.testBit i))) := by
  have hv : from_video_input_flags k v
      = k.bmdVideoInputFlagDefault |||
          (if v.enable_format_detection then k.bmdVideoInputEnableFormatDetection else 0) |||
          (if v.dual_stream_3d then k.bmdVideoInputDualStream3D else 0) |||
          (if v.synchronize_to_capture_group then
            k.bmdVideoInputSynchronizeToCaptureGroup else 0) := by
    simp only [from_video_input_flags, ite_lor_eq]
  have hm : from_supported_video_mode_flags k m
      = k.bmdSupportedVideoModeDefault |||
          (if m.supports_keying then k.bmdSupportedVideoModeKeying else 0) |||
          (if m.supports_dual_stream_3d then k.bmdSupportedVideoModeDualStream3D else 0) |||
          (if m.supports_SDI_single_link then k.bmdSupportedVideoModeSDISingleLink else 0) |||
          (if m.supports_SDI_dual_link then k.bmdSupportedVideoModeSDIDualLink else 0) |||
          (if m.supports_SDI_quad_link then k.bmdSupportedVideoModeSDIQuadLink else 0) |||
          (if m.supports_in_any_profile then k.bmdSupportedVideoModeInAnyProfile else 0) |||
          (if m.supports_PsF then k.bmdSupportedVideoModePsF else 0) := by
    simp only [from_supported_video_mode_flags, ite_lor_eq]
  refine ⟨⟨hv, rfl, fun i => ?_⟩, ⟨hm, rfl, fun i => ?_⟩⟩
  · rw [hv]
    simp only [Nat.testBit_or, testBit_ite_zero]
  · rw [hm]
    simp only [Nat.testBit_or, testBit_ite_zero]

/-! ## Identifier tables: translate there and back -/

/-- A `switch` finds a row for the label of every row it lists, and the row it
finds carries that label. -/
theorem switch_case_of_mem {N : Type} (rows : List N) (label : N → Int) (n : N)
    (h : n ∈ rows) : ∃ m, switch_case rows label (label n) = some m ∧ label m = label n := by
  induction rows with
  | nil => simp at h
  | cons a l ih =>
    by_cases ha : label n = label a
    · exact ⟨a, by simp [switch_case, List.find?_cons, ha], ha.symm⟩
    · have hn : n ∈ l := by
        rcases List.mem_cons.mp h with rfl | hl
        · exact absurd rfl ha
        · exact hl
      obtain ⟨m, hm, hl⟩ := ih hn
      refine ⟨m, ?_, hl⟩
      simp only [switch_case, List.find?_cons, ha, decide_False] at hm ⊢
      exact hm

/-- With pairwise different case labels, a `switch` finds exactly the row whose
label it is given. -/
theorem switch_case_of_injective {N : Type} (rows : List N) (label : N → Int)
    (hinj : Function.Injective label) (n : N) (h : n ∈ rows) :
    switch_case rows label (label n) = some n := by
  obtain ⟨m, hm, hl⟩ := switch_case_of_mem rows label n h
  rw [hm, hinj hl]

theorem mem_from_display_mode_type_rows (m : DisplayModeName) :
    m ∈ from_display_mode_type_rows := by
  cases m <;> decide

theorem mem_into_display_mode_type_rows (m : DisplayModeName) :
    m ∈ into_display_mode_type_rows := by
  cases m <;> decide

theorem mem_from_pixel_format_rows (p : PixelFormatName) : p ∈ from_pixel_format_rows := by
  cases p <;> decide

theorem mem_into_pixel_format_rows (p : PixelFormatName) : p ∈ into_pixel_format_rows := by
  cases p <;> decide

/-- C19: for every row `m` of the display-mode table (SD, HD, 2K, 4K, 8K, PC
modes and `ModeUnknown`), `from_display_mode_type` succeeds on the shared
enumerator of `m`, and `into_display_mode_type` of its result is that
enumerator again. The vendor constants are the case labels of one `switch`, so
they are pairwise different. -/
theorem into_from_display_mode_type (t : EnumConstants DisplayModeName)
    (hbmd : Function.Injective t.bmd) (m : DisplayModeName) :
    ∃ v, from_display_mode_type t (t.shared m) = Except.ok v ∧
      into_display_mode_type t v = Except.ok (t.shared m) := by
  obtain ⟨m1, h1, hl⟩ :=
    switch_case_of_mem from_display_mode_type_rows t.shared m
      (mem_from_display_mode_type_rows m)
  refine ⟨t.bmd m1, by simp only [from_display_mode_type, h1], ?_⟩
  have h2 := switch_case_of_injective into_display_mode_type_rows t.bmd hbmd m1
    (mem_into_display_mode_type_rows m1)
  simp only [into_display_mode_type, h2, hl]

/-- C20: for every row `p` of the pixel-format table (13 rows,
`FormatUnspecified` through `FormatDNxHR`), `from_pixel_format` succeeds on the
shared enumerator of `p`, and `into_pixel_format` of its result is that
enumerator again. The vendor constants are the case labels of one `switch`, so
they are pairwise different. -/
theorem into_from_pixel_format (t : EnumConstants PixelFormatName)
    (hbmd : Function.Injective t.bmd) (p : PixelFormatName) :
    ∃ v, from_pixel_format t (t.shared p) = Except.ok v ∧
      into_pixel_format t v = Except.ok (t.shared p) := by
  obtain ⟨p1, h1, hl⟩ :=
    switch_case_of_mem from_pixel_format_rows t.shared p (mem_from_pixel_format_rows p)
  refine ⟨t.bmd p1, by simp only [from_pixel_format, h1], ?_⟩
  have h2 := switch_case_of_injective into_pixel_format_rows t.bmd hbmd p1
    (mem_into_pixel_format_rows p1)
  simp only [into_pixel_format, h2, hl]

theorem displayModeName_index_injective : Function.Injective DisplayModeName.index := by
  have h : ∀ n : DisplayModeName, from_display_mode_type_rows[n.index]? = some n := by
    intro n
    cases n <;> rfl
  intro a b hab
  have ha := h a
  rw [hab, h b] at ha
  exact (Option.some.inj ha).symm

theorem pixelFormatName_index_injective : Function.Injective PixelFormatName.index := by
  have h : ∀ n : PixelFormatName, from_pixel_format_rows[n.index]? = some n := by
    intro n
    cases n <;> rfl
  intro a b hab
  have ha := h a
  rw [hab, h b] at ha
  exact (Option.some.inj ha).symm

/-- The concrete display-mode vendor constants are pairwise different. -/
theorem displayModes0_bmd_injective : Function.Injective displayModes0.bmd := by
  intro a b hab
  apply displayModeName_index_injective
  simp only [displayModes0] at hab
  omega

/-- The concrete pixel-format vendor constants are pairwise different. -/
theorem pixelFormats0_bmd_injective : Function.Injective pixelFormats0.bmd := by
  intro a b hab
  apply pixelFormatName_index_injective
  simp only [pixelFormats0] at hab
  omega

/-- Witness of C19 with the concrete constants at the row `ModeHD1080p25`. -/
theorem into_from_display_mode_type_witness :
    Function.Injective displayModes0.bmd ∧
    ∃ v, from_display_mode_type displayModes0
        (displayModes0.shared DisplayModeName.ModeHD1080p25) = Except.ok v ∧
      into_display_mode_type displayModes0 v
        = Except.ok (displayModes0.shared DisplayModeName.ModeHD1080p25) :=
  ⟨displayModes0_bmd_injective,
    into_from_display_mode_type displayModes0 displayModes0_bmd_injective
      DisplayModeName.ModeHD1080p25⟩

/-- Witness of C20 with the concrete constants at the row `Format10BitYUV`. -/
theorem into_from_pixel_format_witness :
    Function.Injective pixelFormats0.bmd ∧
    ∃ v, from_pixel_format pixelFormats0
        (pixelFormats0.shared PixelFormatName.Format10BitYUV) = Except.ok v ∧
      into_pixel_format pixelFormats0 v
        = Except.ok (pixelFormats0.shared PixelFormatName.Format10BitYUV) :=
  ⟨pixelFormats0_bmd_injective,
    into_from_pixel_format pixelFormats0 pixelFormats0_bmd_injective
      PixelFormatName.Format10BitYUV⟩

/-! ## The smaller identifier tables: translate there and back -/

theorem mem_from_video_connection_rows (c : VideoConnectionName) : c ∈ from_video_connection_rows := by
  cases c <;> decide

theorem mem_into_video_connection_rows (c : VideoConnectionName) : c ∈ into_video_connection_rows := by
  cases c <;> decide

/-- C21: for every row `c` of the video-connection table (`Unspecified`, `SDI`, `HDMI`, `OpticalSDI`,
`Component`, `Composite`, `SVideo`, `Ethernet`, `OpticalEthernet`), `from_video_connection` succeeds on the shared
enumerator of `c`, and `into_video_connection` of its result is that enumerator again. The
vendor constants are the case labels of one `switch`, so they are pairwise
different. -/
theorem into_from_video_connection (t : EnumConstants VideoConnectionName)
    (hbmd : Function.Injective t.bmd) (c : VideoConnectionName) :
    ∃ v, from_video_connection t (t.shared c) = Except.ok v ∧
      into_video_connection t v = Except.ok (t.shared c) := by
  obtain ⟨n1, h1, hl⟩ :=
    switch_case_of_mem from_video_connection_rows t.shared c (mem_from_video_connection_rows c)
  refine ⟨t.bmd n1, by simp only [from_video_connection, h1], ?_⟩
  have h2 := switch_case_of_injective into_video_connection_rows t.bmd hbmd n1
    (mem_into_video_connection_rows n1)
  simp only [into_video_connection, h2, hl]

theorem videoConnectionName_index_injective : Function.Injective VideoConnectionName.index := by
  have h : ∀ n : VideoConnectionName, from_video_connection_rows[n.index]? = some n := by
    intro n
    cases n <;> rfl
  intro a b hab
  have ha := h a
  rw [hab, h b] at ha
  exact (Option.some.inj ha).symm

/-- The concrete vendor constants of this table are pairwise different. -/
theorem videoConnections0_bmd_injective : Function.Injective videoConnections0.bmd := by
  intro a b hab
  apply videoConnectionName_index_injective
  simp only [videoConnections0] at hab
  omega

/-- Witness of C21 with the concrete constants at the row `HDMI`. -/
theorem into_from_video_connection_witness :
    Function.Injective videoConnections0.bmd ∧
    ∃ v, from_video_connection videoConnections0 (videoConnections0.shared VideoConnectionName.HDMI) = Except.ok v ∧
      into_video_connection videoConnections0 v = Except.ok (videoConnections0.shared VideoConnectionName.HDMI) :=
  ⟨videoConnections0_bmd_injective,
    into_from_video_connection videoConnections0 videoConnections0_bmd_injective VideoConnectionName.HDMI⟩

theorem mem_from_audio_connection_rows (c : AudioConnectionName) : c ∈ from_audio_connection_rows := by
  cases c <;> decide

theorem mem_into_audio_connection_rows (c : AudioConnectionName) : c ∈ into_audio_connection_rows := by
  cases c <;> decide

/-- C22: for every row `c` of the audio-connection table (`Embedded`, `AESEBU`, `Analog`, `AnalogXLR`,
`AnalogRCA`, `Microphone`, `Headphones`), `from_audio_connection` succeeds on the shared
enumerator of `c`, and `into_audio_connection` of its result is that enumerator again. The
vendor constants are the case labels of one `switch`, so they are pairwise
different. -/
theorem into_from_audio_connection (t : EnumConstants AudioConnectionName)
    (hbmd : Function.Injective t.bmd) (c : AudioConnectionName) :
    ∃ v, from_audio_connection t (t.shared c) = Except.ok v ∧
      into_audio_connection t v = Except.ok (t.shared c) := by
  obtain ⟨n1, h1, hl⟩ :=
    switch_case_of_mem from_audio_connection_rows t.shared c (mem_from_audio_connection_rows c)
  refine ⟨t.bmd n1, by simp only [from_audio_connection, h1], ?_⟩
  have h2 := switch_case_of_injective into_audio_connection_rows t.bmd hbmd n1
    (mem_into_audio_connection_rows n1)
  simp only [into_audio_connection, h2, hl]

theorem audioConnectionName_index_injective : Function.Injective AudioConnectionName.index := by
  have h : ∀ n : AudioConnectionName, from_audio_connection_rows[n.index]? = some n := by
    intro n
    cases n <;> rfl
  intro a b hab
  have ha := h a
  rw [hab, h b] at ha
  exact (Option.some.inj ha).symm

/-- The concrete vendor constants of this table are pairwise different. -/
theorem audioConnections0_bmd_injective : Function.Injective audioConnections0.bmd := by
  intro a b hab
  apply audioConnectionName_index_injective
  simp only [audioConnections0] at hab
  omega

/-- Witness of C22 with the concrete constants at the row `AnalogXLR`. -/
theorem into_from_audio_connection_witness :
    Function.Injective audioConnections0.bmd ∧
    ∃ v, from_audio_connection audioConnections0 (audioConnections0.shared AudioConnectionName.AnalogXLR) = Except.ok v ∧
      into_audio_connection audioConnections0 v = Except.ok (audioConnections0.shared AudioConnectionName.AnalogXLR) :=
  ⟨audioConnections0_bmd_injective,
    into_from_audio_connection audioConnections0 audioConnections0_bmd_injective AudioConnectionName.AnalogXLR⟩

theorem mem_from_video_input_conversion_mode_rows (m : VideoInputConversionModeName) : m ∈ from_video_input_conversion_mode_rows := by
  cases m <;> decide

theorem mem_into_video_input_conversion_mode_rows (m : VideoInputConversionModeName) : m ∈ into_video_input_conversion_mode_rows := by
  cases m <;> decide

/-- C23: for every row `m` of the conversion-mode table (7 rows), `from_video_input_conversion_mode` succeeds on the shared
enumerator of `m`, and `into_video_input_conversion_mode` of its result is that enumerator again. The
vendor constants are the case labels of one `switch`, so they are pairwise
different. -/
theorem into_from_video_input_conversion_mode (t : EnumConstants VideoInputConversionModeName)
    (hbmd : Function.Injective t.bmd) (m : VideoInputConversionModeName) :
    ∃ v, from_video_input_conversion_mode t (t.shared m) = Except.ok v ∧
      into_video_input_conversion_mode t v = Except.ok (t.shared m) := by
  obtain ⟨n1, h1, hl⟩ :=
    switch_case_of_mem from_video_input_conversion_mode_rows t.shared m (mem_from_video_input_conversion_mode_rows m)
  refine ⟨t.bmd n1, by simp only [from_video_input_conversion_mode, h1], ?_⟩
  have h2 := switch_case_of_injective into_video_input_conversion_mode_rows t.bmd hbmd n1
    (mem_into_video_input_conversion_mode_rows n1)
  simp only [into_video_input_conversion_mode, h2, hl]

theorem conversionModeName_index_injective : Function.Injective VideoInputConversionModeName.index := by
  have h : ∀ n : VideoInputConversionModeName, from_video_input_conversion_mode_rows[n.index]? = some n := by
    intro n
    cases n <;> rfl
  intro a b hab
  have ha := h a
  rw [hab, h b] at ha
  exact (Option.some.inj ha).symm

/-- The concrete vendor constants of this table are pairwise different. -/
theorem conversionModes0_bmd_injective : Function.Injective conversionModes0.bmd := by
  intro a b hab
  apply conversionModeName_index_injective
  simp only [conversionModes0] at hab
  omega

/-- Witness of C23 with the concrete constants at the row `VideoInputLetterboxUpconversion`. -/
theorem into_from_video_input_conversion_mode_witness :
    Function.Injective conversionModes0.bmd ∧
    ∃ v, from_video_input_conversion_mode conversionModes0 (conversionModes0.shared VideoInputConversionModeName.VideoInputLetterboxUpconversion) = Except.ok v ∧
      into_video_input_conversion_mode conversionModes0 v = Except.ok (conversionModes0.shared VideoInputConversionModeName.VideoInputLetterboxUpconversion) :=
  ⟨conversionModes0_bmd_injective,
    into_from_video_input_conversion_mode conversionModes0 conversionModes0_bmd_injective VideoInputConversionModeName.VideoInputLetterboxUpconversion⟩

/-! ## Identifier tables: values without a row -/

theorem switch_case_eq_none_iff {N : Type} (rows : List N) (label : N → Int) (x : Int) :
    switch_case rows label x = none ↔ ∀ n ∈ rows, label n ≠ x := by
  unfold switch_case
  rw [List.find?_eq_none]
  constructor
  · intro h n hn hl
    exact h n hn (by simp [hl])
  · intro h n hn hl
    exact h n hn (of_decide_eq_true hl).symm

theorem switch_case_eq_some {N : Type} (rows : List N) (label : N → Int) (x : Int) (n : N)
    (h : switch_case rows label x = some n) : n ∈ rows ∧ label n = x := by
  unfold switch_case at h
  refine ⟨List.mem_of_find?_eq_some h, ?_⟩
  have hp := List.find?_some h
  exact (of_decide_eq_true hp).symm

/-- Every `switch` followed by a `throw` meets `TranslatesOrFails`. -/
theorem switch_or_throw_spec {N : Type} (rows : List N) (label result : N → Int)
    (what : String) :
    TranslatesOrFails (switch_or_throw rows label result what) rows label result what := by
  have hnone : ∀ x, (∀ n ∈ rows, label n ≠ x) →
      switch_or_throw rows label result what x = .error (what ++ format_hex x) := by
    intro x hx
    have h := (switch_case_eq_none_iff rows label x).mpr hx
    simp only [switch_or_throw, h]
  have hsome : ∀ x, (∃ n ∈ rows, label n = x) →
      ∃ n ∈ rows, label n = x ∧ switch_or_throw rows label result what x = .ok (result n) := by
    intro x hx
    cases h : switch_case rows label x with
    | none =>
      obtain ⟨n, hn, hl⟩ := hx
      exact absurd hl ((switch_case_eq_none_iff rows label x).mp h n hn)
    | some m =>
      obtain ⟨hm, hl⟩ := switch_case_eq_some rows label x m h
      exact ⟨m, hm, hl, by simp only [switch_or_throw, h]⟩
  refine ⟨hnone, hsome, fun x => ⟨fun hv => ?_, fun hx => ?_⟩⟩
  · by_contra hno
    have hall : ∀ n ∈ rows, label n ≠ x := fun n hn hl => hno ⟨n, hn, hl⟩
    obtain ⟨v, hv⟩ := hv
    rw [hnone x hall] at hv
    exact absurd hv (by simp)
  · obtain ⟨n, _, _, hn⟩ := hsome x hx
    exact ⟨_, hn⟩

/-- C24: each vendor-to-external translation (`into_video_connection`,
`into_audio_connection`, `into_display_mode_type`, `into_pixel_format`,
`into_video_input_conversion_mode`), on a raw vendor value `v` that is the
vendor constant of no row of its table, fails with its unknown-identifier
message followed by `v` in hexadecimal and returns no value; on a vendor
constant of a row it returns the shared enumerator of that row; and it succeeds
if and only if `v` is the vendor constant of a row, so no enumerator is returned
as a fallback for an unlisted value. -/
theorem into_fails_on_unlisted (tVC : EnumConstants VideoConnectionName)
    (tAC : EnumConstants AudioConnectionName) (tDM : EnumConstants DisplayModeName)
    (tPF : EnumConstants PixelFormatName)
    (tCM : EnumConstants VideoInputConversionModeName) :
    TranslatesOrFails (into_video_connection tVC) into_video_connection_rows
      tVC.bmd tVC.shared "Unknown BMDVideoConnection: " ∧
    TranslatesOrFails (into_audio_connection tAC) into_audio_connection_rows
      tAC.bmd tAC.shared "Unknown BMDAudioConnection: " ∧
    TranslatesOrFails (into_display_mode_type tDM) into_display_mode_type_rows
      tDM.bmd tDM.shared "Unknown BMDDisplayMode: " ∧
    TranslatesOrFails (into_pixel_format tPF) into_pixel_format_rows
      tPF.bmd tPF.shared "Unknown BMDPixelFormat: " ∧
    TranslatesOrFails (into_video_input_conversion_mode tCM)
      into_video_input_conversion_mode_rows tCM.bmd tCM.shared
      "Unknown BMDVideoInputConversionMode: " := by
  refine ⟨?_, ?_, ?_, ?_, ?_⟩
  · have h : into_video_connection tVC = switch_or_throw into_video_connection_rows tVC.bmd tVC.shared
        ("Unknown BMDVideoConnection: ") := by
      funext x
      unfold into_video_connection switch_or_throw
      cases switch_case into_video_connection_rows tVC.bmd x <;> rfl
    rw [h]
    exact switch_or_throw_spec _ _ _ _
  · have h : into_audio_connection tAC = switch_or_throw into_audio_connection_rows tAC.bmd tAC.shared
        ("Unknown BMDAudioConnection: ") := by
      funext x
      unfold into_audio_connection switch_or_throw
      cases switch_case into_audio_connection_rows tAC.bmd x <;> rfl
    rw [h]
    exact switch_or_throw_spec _ _ _ _
  · have h : into_display_mode_type tDM = switch_or_throw into_display_mode_type_rows tDM.bmd tDM.shared
        ("Unknown BMDDisplayMode: ") := by
      funext x
      unfold into_display_mode_type switch_or_throw
      cases switch_case into_display_mode_type_rows tDM.bmd x <;> rfl
    rw [h]
    exact switch_or_throw_spec _ _ _ _
  · have h : into_pixel_format tPF = switch_or_throw into_pixel_format_rows tPF.bmd tPF.shared
        ("Unknown BMDPixelFormat: ") := by
      funext x
      unfold into_pixel_format switch_or_throw
      cases switch_case into_pixel_format_rows tPF.bmd x <;> rfl
    rw [h]
    exact switch_or_throw_spec _ _ _ _
  · have h : into_video_input_conversion_mode tCM = switch_or_throw into_video_input_conversion_mode_rows tCM.bmd tCM.shared
        ("Unknown BMDVideoInputConversionMode: ") := by
      funext x
      unfold into_video_input_conversion_mode switch_or_throw
      cases switch_case into_video_input_conversion_mode_rows tCM.bmd x <;> rfl
    rw [h]
    exact switch_or_throw_spec _ _ _ _

/-- C25: each external-to-vendor translation (`declare_id`, the four
`*_attribute_id`, the four `*_configuration_id`, `from_video_connection`,
`from_audio_connection`, `from_display_mode_type`, `from_pixel_format`,
`from_video_input_conversion_mode`), on a raw value `x` of the shared enum that
has no case in its table, fails with its unknown-identifier message followed by
`x` in hexadecimal and returns no vendor constant; on every `x` that has a case
it returns the vendor constant of that case. -/
theorem from_fails_on_unlisted (tD : EnumConstants DeclarationName)
    (tFA : EnumConstants FlagAttributeName) (tIA : EnumConstants IntegerAttributeName)
    (tFlA : EnumConstants FloatAttributeName) (tSA : EnumConstants StringAttributeName)
    (tFC : EnumConstants FlagConfigurationName)
    (tIC : EnumConstants IntegerConfigurationName)
    (tFlC : EnumConstants FloatConfigurationName)
    (tSC : EnumConstants StringConfigurationName)
    (tVC : EnumConstants VideoConnectionName) (tAC : EnumConstants AudioConnectionName)
    (tDM : EnumConstants DisplayModeName) (tPF : EnumConstants PixelFormatName)
    (tCM : EnumConstants VideoInputConversionModeName) :
    TranslatesOrFails (declare_id tD) declare_id_rows tD.shared tD.bmd
      "Unknown DeclarationId: " ∧
    TranslatesOrFails (flag_attribute_id tFA) flag_attribute_id_rows tFA.shared tFA.bmd
      "Unknown FlagAttributeId: " ∧
    TranslatesOrFails (integer_attribute_id tIA) integer_attribute_id_rows tIA.shared tIA.bmd
      "Unknown IntegerAttributeId: " ∧
    TranslatesOrFails (float_attribute_id tFlA) float_attribute_id_rows tFlA.shared tFlA.bmd
      "Unknown FloatAttributeId: " ∧
    TranslatesOrFails (string_attribute_id tSA) string_attribute_id_rows tSA.shared tSA.bmd
      "Unknown StringAttributeId: " ∧
    TranslatesOrFails (flag_configuration_id tFC) flag_configuration_id_rows
      tFC.shared tFC.bmd "Unknown FlagAttributeId: " ∧
    TranslatesOrFails (integer_configuration_id tIC) integer_configuration_id_rows
      tIC.shared tIC.bmd "Unknown IntegerConfigurationId: " ∧
    TranslatesOrFails (float_configuration_id tFlC) float_configuration_id_rows
      tFlC.shared tFlC.bmd "Unknown FloatConfigurationId: " ∧
    TranslatesOrFails (string_configuration_id tSC) string_configuration_id_rows
      tSC.shared tSC.bmd "Unknown StringConfigurationId: " ∧
    TranslatesOrFails (from_video_connection tVC) from_video_connection_rows
      tVC.shared tVC.bmd "Unknown VideoConnection: " ∧
    TranslatesOrFails (from_audio_connection tAC) from_audio_connection_rows
      tAC.shared tAC.bmd "Unknown AudioConnection: " ∧
    TranslatesOrFails (from_display_mode_type tDM) from_display_mode_type_rows
      tDM.shared tDM.bmd "Unknown DisplayMode: " ∧
    TranslatesOrFails (from_pixel_format tPF) from_pixel_format_rows
      tPF.shared tPF.bmd "Unknown PixelFormat: " ∧
    TranslatesOrFails (from_video_input_conversion_mode tCM)
      from_video_input_conversion_mode_rows tCM.shared tCM.bmd
      "Unknown VideoInputConversionMode: " := by
  refine ⟨?_, ?_, ?_, ?_, ?_, ?_, ?_, ?_, ?_, ?_, ?_, ?_, ?_, ?_⟩
  · have h : declare_id tD = switch_or_throw declare_id_rows tD.shared tD.bmd
        ("Unknown DeclarationId: ") := by
      funext x
      unfold declare_id switch_or_throw
      cases switch_case declare_id_rows tD.shared x <;> rfl
    rw [h]
    exact switch_or_throw_spec _ _ _ _
  · have h : flag_attribute_id tFA = switch_or_throw flag_attribute_id_rows tFA.shared tFA.bmd
        ("Unknown FlagAttributeId: ") := by
      funext x
      unfold flag_attribute_id switch_or_throw
      cases switch_case flag_attribute_id_rows tFA.shared x <;> rfl
    rw [h]
    exact switch_or_throw_spec _ _ _ _
  · have h : integer_attribute_id tIA = switch_or_throw integer_attribute_id_rows tIA.shared tIA.bmd
        ("Unknown IntegerAttributeId: ") := by
      funext x
      unfold integer_attribute_id switch_or_throw
      cases switch_case integer_attribute_id_rows tIA.shared x <;> rfl
    rw [h]
    exact switch_or_throw_spec _ _ _ _
  · have h : float_attribute_id tFlA = switch_or_throw float_attribute_id_rows tFlA.shared tFlA.bmd
        ("Unknown FloatAttributeId: ") := by
      funext x
      unfold float_attribute_id switch_or_throw
      cases switch_case float_attribute_id_rows tFlA.shared x <;> rfl
    rw [h]
    exact switch_or_throw_spec _ _ _ _
  · have h : string_attribute_id tSA = switch_or_throw string_attribute_id_rows tSA.shared tSA.bmd
        ("Unknown StringAttributeId: ") := by
      funext x
      unfold string_attribute_id switch_or_throw
      cases switch_case string_attribute_id_rows tSA.shared x <;> rfl
    rw [h]
    exact switch_or_throw_spec _ _ _ _
  · have h : flag_configuration_id tFC = switch_or_throw flag_configuration_id_rows tFC.shared tFC.bmd
        ("Unknown FlagAttributeId: ") := by
      funext x
      unfold flag_configuration_id switch_or_throw
      cases switch_case flag_configuration_id_rows tFC.shared x <;> rfl
    rw [h]
    exact switch_or_throw_spec _ _ _ _
  · have h : integer_configuration_id tIC = switch_or_throw integer_configuration_id_rows tIC.shared tIC.bmd
        ("Unknown IntegerConfigurationId: ") := by
      funext x
      unfold integer_configuration_id switch_or_throw
      cases switch_case integer_configuration_id_rows tIC.shared x <;> rfl
    rw [h]
    exact switch_or_throw_spec _ _ _ _
  · have h : float_configuration_id tFlC = switch_or_throw float_configuration_id_rows tFlC.shared tFlC.bmd
        ("Unknown FloatConfigurationId: ") := by
      funext x
      unfold float_configuration_id switch_or_throw
      cases switch_case float_configuration_id_rows tFlC.shared x <;> rfl
    rw [h]
    exact switch_or_throw_spec _ _ _ _
  · have h : string_configuration_id tSC = switch_or_throw string_configuration_id_rows tSC.shared tSC.bmd
        ("Unknown StringConfigurationId: ") := by
      funext x
      unfold string_configuration_id switch_or_throw
      cases switch_case string_configuration_id_rows tSC.shared x <;> rfl
    rw [h]
    exact switch_or_throw_spec _ _ _ _
  · have h : from_video_connection tVC = switch_or_throw from_video_connection_rows tVC.shared tVC.bmd
        ("Unknown VideoConnection: ") := by
      funext x
      unfold from_video_connection switch_or_throw
      cases switch_case from_video_connection_rows tVC.shared x <;> rfl
    rw [h]
    exact switch_or_throw_spec _ _ _ _
  · have h : from_audio_connection tAC = switch_or_throw from_audio_connection_rows tAC.shared tAC.bmd
        ("Unknown AudioConnection: ") := by
      funext x
      unfold from_audio_connection switch_or_throw
      cases switch_case from_audio_connection_rows tAC.shared x <;> rfl
    rw [h]
    exact switch_or_throw_spec _ _ _ _
  · have h : from_display_mode_type tDM = switch_or_throw from_display_mode_type_rows tDM.shared tDM.bmd
        ("Unknown DisplayMode: ") := by
      funext x
      unfold from_display_mode_type switch_or_throw
      cases switch_case from_display_mode_type_rows tDM.shared x <;> rfl
    rw [h]
    exact switch_or_throw_spec _ _ _ _
  · have h : from_pixel_format tPF = switch_or_throw from_pixel_format_rows tPF.shared tPF.bmd
        ("Unknown PixelFormat: ") := by
      funext x
      unfold from_pixel_format switch_or_throw
      cases switch_case from_pixel_format_rows tPF.shared x <;> rfl
    rw [h]
    exact switch_or_throw_spec _ _ _ _
  · have h : from_video_input_conversion_mode tCM = switch_or_throw from_video_input_conversion_mode_rows tCM.shared tCM.bmd
        ("Unknown VideoInputConversionMode: ") := by
      funext x
      unfold from_video_input_conversion_mode switch_or_throw
      cases switch_case from_video_input_conversion_mode_rows tCM.shared x <;> rfl
    rw [h]
    exact switch_or_throw_spec _ _ _ _

/-- The format `:#x` on three sample values. -/
theorem format_hex_samples :
    format_hex 255 = "0xff" ∧ format_hex 1853125475 = "0x6e747363" ∧ format_hex (-1) = "-0x1" := by
  decide

/-! ## Payload accessors -/

/-- C26: `video_input_frame_bytes` and `audio_input_packet_bytes` make the vendor
call `GetBytes` exactly once (the vendor object ends in the state one call on a
null output location leaves it in; a vendor object that counts its calls ends at
one call more); they fail, returning no pointer, if and only if that call
returns a status other than `S_OK`; and when it returns `S_OK` they return
exactly the buffer pointer the call produced. -/
theorem bytes_accessors_spec {F : Type} (GetBytes : F → Ptr → F × HRESULT × Ptr) (obj : F)
    (status : HRESULT) (buffer : Ptr) (count : Nat) :
    ((video_input_frame_bytes GetBytes obj).1 = (GetBytes obj none).1 ∧
      ((∃ msg, (video_input_frame_bytes GetBytes obj).2 = .error msg)
        ↔ (GetBytes obj none).2.1 ≠ S_OK) ∧
      ((GetBytes obj none).2.1 = S_OK →
        (video_input_frame_bytes GetBytes obj).2 = .ok (GetBytes obj none).2.2)) ∧
    ((audio_input_packet_bytes GetBytes obj).1 = (GetBytes obj none).1 ∧
      ((∃ msg, (audio_input_packet_bytes GetBytes obj).2 = .error msg)
        ↔ (GetBytes obj none).2.1 ≠ S_OK) ∧
      ((GetBytes obj none).2.1 = S_OK →
        (audio_input_packet_bytes GetBytes obj).2 = .ok (GetBytes obj none).2.2)) ∧
    (video_input_frame_bytes (GetBytes_counting status buffer) count).1 = count + 1 ∧
    (audio_input_packet_bytes (GetBytes_counting status buffer) count).1 = count + 1 := by
  rcases hG : GetBytes obj none with ⟨f, r, b⟩
  refine ⟨?_, ?_, ?_, ?_⟩
  · by_cases hr : r = S_OK
    · simp [video_input_frame_bytes, hG, hr]
    · simp [video_input_frame_bytes, hG, hr]
  · by_cases hr : r = S_OK
    · simp [audio_input_packet_bytes, hG, hr]
    · simp [audio_input_packet_bytes, hG, hr]
  · by_cases hr : status = S_OK
    · simp [video_input_frame_bytes, GetBytes_counting, hr]
    · simp [video_input_frame_bytes, GetBytes_counting, hr]
  · by_cases hr : status = S_OK
    · simp [audio_input_packet_bytes, GetBytes_counting, hr]
    · simp [audio_input_packet_bytes, GetBytes_counting, hr]

/-! ## Device support bits -/

/-- The loop of `profile_manager_profiles`, started after `j` calls of `Next` on
an iterator whose calls `j, ..., n-1` succeed and whose call `n` does not: with
enough fuel it appends the handles of the calls `j, ..., n-1`, in order, and
ends right after call `n`. -/
theorem profile_manager_profiles_loop_collects (Next : Nat → HRESULT × Ptr) (n : Nat)
    (hok : ∀ i, i < n → (Next i).1 = S_OK) (hend : (Next n).1 ≠ S_OK) :
    ∀ (fuel j : Nat) (acc : List Ptr), j ≤ n → n < j + fuel →
      profile_manager_profiles_loop Next fuel j acc
        = some ⟨HResult.Ok, acc ++ (List.range' j (n - j)).map (fun i => (Next i).2),
            n + 1, true⟩ := by
  intro fuel
  induction fuel with
  | zero =>
    intro j acc hj hlt
    omega
  | succ fuel ih =>
    intro j acc hj hlt
    rcases hN : Next j with ⟨r, p⟩
    by_cases hjn : j = n
    · subst hjn
      have hr : r ≠ S_OK := by
        have := hend
        rw [hN] at this
        exact this
      simp [profile_manager_profiles_loop, hN, hr]
    · have hlt2 : j < n := by omega
      have hr : r = S_OK := by
        have := hok j hlt2
        rw [hN] at this
        exact this
      have hstep : n - j = (n - (j + 1)) + 1 := by omega
      have hp : (Next j).2 = p := by rw [hN]
      simp only [profile_manager_profiles_loop, hN, hr, ne_eq, not_true_eq_false, if_false]
      rw [ih (j + 1) (acc ++ [p]) (by omega) (by omega), hstep, List.range'_succ]
      simp [hp]

/-- C28: `profile_manager_profiles` returns the status of `GetProfiles`
unchanged, without touching the output sequence or the iterator, when that
status is not `S_OK`. Otherwise, on an iterator whose first `n` calls of `Next`
return `S_OK` with handles `h1..hn` and whose next call returns another status,
it terminates (any fuel above `n` suffices), has appended exactly `h1..hn` in
that order to the output sequence, keeping what was there, has released the
iterator after `n + 1` calls of `Next`, and returns `Ok`. -/
theorem profile_manager_profiles_spec (GetProfiles : HRESULT) (Next : Nat → HRESULT × Ptr)
    (profiles : List Ptr) :
    (∀ fuel, GetProfiles ≠ S_OK →
      profile_manager_profiles GetProfiles Next fuel profiles
        = some ⟨static_cast_HResult GetProfiles, profiles, 0, false⟩) ∧
    (∀ n fuel, GetProfiles = S_OK → (∀ i, i < n → (Next i).1 = S_OK) →
      (Next n).1 ≠ S_OK → n < fuel →
      profile_manager_profiles GetProfiles Next fuel profiles
        = some ⟨HResult.Ok, profiles ++ (List.range n).map (fun i => (Next i).2),
            n + 1, true⟩) := by
  constructor
  · intro fuel h
    simp [profile_manager_profiles, h]
  · intro n fuel h hok hend hfuel
    have hl := profile_manager_profiles_loop_collects Next n hok hend fuel 0 profiles
      (Nat.zero_le n) (by omega)
    simp only [profile_manager_profiles, h, ne_eq, not_true_eq_false, if_false, hl,
      Nat.sub_zero, List.range_eq_range']

/-- Witness of C28: an iterator that yields the handles `10` and `11` and then
reports the status `1`. -/
theorem profile_manager_profiles_spec_witness :
    profile_manager_profiles S_OK
        (fun i => if i < 2 then (S_OK, some (10 + i)) else (1, none)) 5 [some 3]
      = some ⟨HResult.Ok, [some 3] ++ (List.range 2).map
          (fun i => ((fun i => if i < 2 then (S_OK, some (10 + i)) else (1, none) :
            Nat → HRESULT × Ptr) i).2), 2 + 1, true⟩ :=
  (profile_manager_profiles_spec S_OK
      (fun i => if i < 2 then (S_OK, some (10 + i)) else (1, none)) [some 3]).2 2 5 rfl
    (by intro i hi; simp [hi]) (by decide) (by decide)

/-! ## Video-mode negotiation -/

/-- C27 (counterexample): with all four enumeration arguments in their tables
(each translation succeeds), a vendor that reports `S_OK`, `is_supported = true`
and the actual mode `5`, which is the vendor constant of no row of the
display-mode table, makes `input_supports_video_mode` fail with the
unknown-identifier error: no status is returned and `actual_mode` is not
overwritten. -/
theorem input_supports_video_mode_unlisted_actual_mode :
    from_video_connection videoConnections0 0 = .ok 1000 ∧
    from_display_mode_type displayModes0 0 = .ok 1000 ∧
    from_pixel_format pixelFormats0 0 = .ok 1000 ∧
    from_video_input_conversion_mode conversionModes0 0 = .ok 1000 ∧
    input_supports_video_mode videoConnections0 displayModes0 pixelFormats0 conversionModes0
        flags0 (fun _ _ _ _ _ _ _ => (S_OK, 5, true)) 0 0 0 0 0
        ⟨false, false, false, false, false, false, false⟩ 0 false
      = .error ("Unknown BMDDisplayMode: 0x5") := by
  refine ⟨rfl, rfl, rfl, rfl, ?_⟩
  rfl

/-- C27 (amended): for every call of `input_supports_video_mode` whose four
enumeration arguments are in their tables, with `result`, `bmd_actual_mode` and
`supported` what the vendor call `DoesSupportVideoMode` reports: if `result` is
not `S_OK` or `supported` is false, the call returns the vendor status,
`is_supported` is the vendor's boolean and `actual_mode` is left unchanged; if
`result` is `S_OK` and `supported` is true and the vendor's actual mode is in
the display-mode table, the call returns the vendor status, `is_supported` is
the vendor's boolean and `actual_mode` is overwritten with
`into_display_mode_type` of the vendor's actual mode; if `result` is `S_OK` and
`supported` is true but the vendor's actual mode is not in the table, the call
fails with the error of `into_display_mode_type`. The returned status has the
code of the vendor status. -/
theorem input_supports_video_mode_spec (tVC : EnumConstants VideoConnectionName)
    (tDM : EnumConstants DisplayModeName) (tPF : EnumConstants PixelFormatName)
    (tCM : EnumConstants VideoInputConversionModeName) (k : DeckLinkFlagConstants)
    (DoesSupportVideoMode : Int → Int → Int → Int → Nat → Int → Bool → HRESULT × Int × Bool)
    (bmd_actual_mode0 conn mode pixel_format conversion_mode : Int)
    (supported_mode_flags : SupportedVideoModeFlags) (actual_mode : Int) (is_supported : Bool)
    (bmd_conn bmd_mode bmd_format bmd_conversion : Int)
    (result : HRESULT) (bmd_actual_mode : Int) (supported : Bool)
    (h1 : from_video_connection tVC conn = .ok bmd_conn)
    (h2 : from_display_mode_type tDM mode = .ok bmd_mode)
    (h3 : from_pixel_format tPF pixel_format = .ok bmd_format)
    (h4 : from_video_input_conversion_mode tCM conversion_mode = .ok bmd_conversion)
    (hv : DoesSupportVideoMode bmd_conn bmd_mode bmd_format bmd_conversion
        (from_supported_video_mode_flags k supported_mode_flags) bmd_actual_mode0 is_supported
      = (result, bmd_actual_mode, supported)) :
    (¬ (result = S_OK ∧ supported = true) →
      input_supports_video_mode tVC tDM tPF tCM k DoesSupportVideoMode bmd_actual_mode0
          conn mode pixel_format conversion_mode supported_mode_flags actual_mode is_supported
        = .ok (static_cast_HResult result, actual_mode, supported)) ∧
    (result = S_OK ∧ supported = true → ∀ m,
      into_display_mode_type tDM bmd_actual_mode = .ok m →
      input_supports_video_mode tVC tDM tPF tCM k DoesSupportVideoMode bmd_actual_mode0
          conn mode pixel_format conversion_mode supported_mode_flags actual_mode is_supported
        = .ok (static_cast_HResult result, m, supported)) ∧
    (result = S_OK ∧ supported = true → ∀ e,
      into_display_mode_type tDM bmd_actual_mode = .error e →
      input_supports_video_mode tVC tDM tPF tCM k DoesSupportVideoMode bmd_actual_mode0
          conn mode pixel_format conversion_mode supported_mode_flags actual_mode is_supported
        = .error e) ∧
    (result < 4294967296 → (static_cast_HResult result).code = result) := by
  refine ⟨fun hno => ?_, fun hyes m hm => ?_, fun hyes e he => ?_, fun hlt => ?_⟩
  · simp only [input_supports_video_mode, h1, h2, h3, h4, hv, hno, if_false]
  · simp only [input_supports_video_mode, h1, h2, h3, h4, hv, hyes, and_self, if_true, hm]
  · simp only [input_supports_video_mode, h1, h2, h3, h4, hv, hyes, and_self, if_true, he]
  · exact Nat.mod_eq_of_lt hlt

/-- Witness of the amended C27 with the concrete tables and a vendor that
reports `S_OK`, support, and the actual mode of row 7. -/
theorem input_supports_video_mode_spec_witness :
    (from_video_connection videoConnections0 0 = .ok 1000 ∧
      from_display_mode_type displayModes0 0 = .ok 1000 ∧
      from_pixel_format pixelFormats0 0 = .ok 1000 ∧
      from_video_input_conversion_mode conversionModes0 0 = .ok 1000) ∧
    ((S_OK = S_OK ∧ true = true) → ∀ m,
      into_display_mode_type displayModes0 1007 = .ok m →
      input_supports_video_mode videoConnections0 displayModes0 pixelFormats0
          conversionModes0 flags0 (fun _ _ _ _ _ _ _ => (S_OK, 1007, true)) 0 0 0 0 0
          ⟨false, false, false, false, false, false, false⟩ 0 false
        = .ok (static_cast_HResult S_OK, m, true)) :=
  ⟨⟨rfl, rfl, rfl, rfl⟩,
    (input_supports_video_mode_spec videoConnections0 displayModes0 pixelFormats0
      conversionModes0 flags0 (fun _ _ _ _ _ _ _ => (S_OK, 1007, true)) 0 0 0 0 0
      ⟨false, false, false, false, false, false, false⟩ 0 false 1000 1000 1000 1000
      S_OK 1007 true rfl rfl rfl rfl rfl).2.1⟩

/-! ## The reference count along a trace -/

theorem int32_t_eq_of_val (a b : int32_t) (h : a.val = b.val) : a = b := by
  cases a
  cases b
  simp only at h
  subst h
  rfl

theorem balance_nil : balance [] = 1 := by
  simp [balance]

theorem balance_concat_AddRef (l : List RefCall) :
    balance (l ++ [RefCall.AddRef]) = balance l + 1 := by
  simp only [balance, List.count_append]
  have h1 : [RefCall.AddRef].count RefCall.AddRef = 1 := by decide
  have h2 : [RefCall.AddRef].count RefCall.Release = 0 := by decide
  rw [h1, h2]
  push_cast
  omega

theorem balance_concat_Release (l : List RefCall) :
    balance (l ++ [RefCall.Release]) = balance l - 1 := by
  simp only [balance, List.count_append]
  have h1 : [RefCall.Release].count RefCall.AddRef = 0 := by decide
  have h2 : [RefCall.Release].count RefCall.Release = 1 := by decide
  rw [h1, h2]
  push_cast
  omega

/-- The reference count along a run on a freshly constructed adapter during
which `1 + #AddRef - #Release` never exceeds the largest `int32_t`: while the
adapter is in place its count is `1 + #AddRef - #Release ≥ 1`; once it is freed,
`1 + #AddRef - #Release = 0`. -/
theorem run_fresh_balance {H : Type} (sdk : DeckLinkAPI) (cb : H)
    (ops : List RefCall) (w : World H) (rets : List Nat)
    (hb : ∀ l1 l2, ops = l1 ++ l2 → balance l1 ≤ 2147483647)
    (h : run sdk ops (World.fresh cb) = some (w, rets)) :
    (∀ a, w.wrapper = some a → a.refcount.val = balance ops ∧ 1 ≤ a.refcount.val) ∧
    (w.wrapper = none → balance ops = 0) := by
  induction ops using List.reverseRecOn generalizing w rets with
  | nil =>
    rw [run_nil] at h
    simp only [Option.some.injEq, Prod.mk.injEq] at h
    obtain ⟨rfl, rfl⟩ := h
    simp [World.fresh, InputCallbackWrapper.ctor, balance_nil]
  | append_singleton l c ih =>
    obtain ⟨w0, r0, r, h0, h1, rfl⟩ := run_concat_some sdk l c _ w rets h
    have hb0 : ∀ l1 l2, l = l1 ++ l2 → balance l1 ≤ 2147483647 := by
      intro l1 l2 hl
      exact hb l1 (l2 ++ [c]) (by rw [hl, List.append_assoc])
    have hfull := hb (l ++ [c]) [] (by simp)
    obtain ⟨hal, _⟩ := ih w0 r0 hb0 h0
    obtain ⟨wr, d, cs⟩ := w0
    cases wr with
    | none =>
      rw [call_none] at h1
      exact absurd h1 (by simp)
    | some a0 =>
      obtain ⟨hv, hpos⟩ := hal a0 rfl
      have hhi := a0.refcount.hi
      cases c with
      | AddRef =>
        rw [balance_concat_AddRef] at hfull ⊢
        simp only [call, InputCallbackWrapper.AddRef, Option.some.injEq, Prod.mk.injEq] at h1
        obtain ⟨rfl, _⟩ := h1
        have hw : (wrap_int32 (a0.refcount.val + 1)).val = a0.refcount.val + 1 :=
          wrap_int32_val_of_range _ (by omega) (by omega)
        refine ⟨fun a ha => ?_, fun hn => by simp at hn⟩
        simp only [Option.some.injEq] at ha
        subst ha
        simp only [hw]
        omega
      | Release =>
        rw [balance_concat_Release]
        have hw : (wrap_int32 (a0.refcount.val - 1)).val = a0.refcount.val - 1 :=
          wrap_int32_val_of_range _ (by omega) (by omega)
        simp only [call, InputCallbackWrapper.Release, hw] at h1
        by_cases hzero : a0.refcount.val - 1 = 0
        · simp only [hzero, if_true, Option.some.injEq, Prod.mk.injEq] at h1
          obtain ⟨rfl, _⟩ := h1
          refine ⟨fun a ha => by simp at ha, fun _ => ?_⟩
          omega
        · simp only [hzero, if_false, Option.some.injEq, Prod.mk.injEq] at h1
          obtain ⟨rfl, _⟩ := h1
          refine ⟨fun a ha => ?_, fun hn => by simp at hn⟩
          simp only [Option.some.injEq] at ha
          subst ha
          simp only [hw]
          omega

/-- After `n` calls of `AddRef` on a freshly constructed adapter the count is
`1 + n` wrapped into `int32_t`. -/
theorem run_replicate_AddRef {H : Type} (sdk : DeckLinkAPI) (cb : H) (n : Nat) :
    ∃ rets, run sdk (List.replicate n RefCall.AddRef) (World.fresh cb)
      = some (⟨some ⟨cb, wrap_int32 (1 + (n : Int))⟩, [], []⟩, rets) := by
  induction n with
  | zero => exact ⟨[], by rw [List.replicate_zero, run_nil]; rfl⟩
  | succ n ih =>
    obtain ⟨rets, h⟩ := ih
    refine ⟨rets ++ [to_ULONG sdk.ULONG_bits
      (wrap_int32 ((wrap_int32 (1 + (n : Int))).val + 1))], ?_⟩
    rw [List.replicate_succ', run_concat, h]
    simp only [Option.some_bind, call, InputCallbackWrapper.AddRef, Option.map_some',
      Option.some.injEq, Prod.mk.injEq, and_true]
    have he : wrap_int32 ((wrap_int32 (1 + (n : Int))).val + 1)
        = wrap_int32 (1 + ((n + 1 : Nat) : Int)) := by
      apply int32_t_eq_of_val
      simp only [wrap_int32]
      push_cast
      omega
    rw [he]

/-- C30 (counterexample): `2^31 - 1` calls of `AddRef` on a freshly constructed
adapter, with no `Release` (so `r ≤ a`, and no call is made on a deleted
adapter), leave the count at `-2^31`, not at `1 + a - r = 2^31`, and not at a
value `≥ 1`. -/
theorem addref_overflow_breaks_count :
    (List.replicate 2147483647 RefCall.AddRef).count RefCall.AddRef = 2147483647 ∧
    (List.replicate 2147483647 RefCall.AddRef).count RefCall.Release = 0 ∧
    ∃ rets, run sdk0 (List.replicate 2147483647 RefCall.AddRef) (World.fresh (7 : Nat))
      = some (⟨some ⟨7, ⟨-2147483648, by decide, by decide⟩⟩, [], []⟩, rets) := by
  refine ⟨List.count_replicate_self _ _, ?_, ?_⟩
  · rw [List.count_replicate]
    rfl
  · obtain ⟨rets, h⟩ := run_replicate_AddRef sdk0 (7 : Nat) 2147483647
    refine ⟨rets, ?_⟩
    rw [h]
    have he : wrap_int32 (1 + ((2147483647 : Nat) : Int))
        = ⟨-2147483648, by decide, by decide⟩ := by
      apply int32_t_eq_of_val
      simp only [wrap_int32]
      norm_num
    rw [he]

/-- C30 (amended): starting from a freshly constructed adapter (count `1`), for
every sequence of `AddRef` and `Release` calls in which no call is made on a
deleted adapter and in which `1 + a - r` never exceeds `2^31 - 1` (the count
does not overflow `int32_t`), after each initial segment `l1` with `a` calls of
`AddRef` and `r` calls of `Release` either `r ≤ a` and the adapter is in place
with count `1 + a - r ≥ 1` and nothing torn down, or `r = a + 1` and the adapter
has been freed, by the last call of `l1`, which is a `Release` and the last call
of the whole sequence. So the adapter is freed exactly by the `Release` that
makes `r = a + 1`. -/
theorem refcount_trace_invariant {H : Type} (sdk : DeckLinkAPI) (cb : H)
    (ops : List RefCall)
    (hvalid : (run sdk ops (World.fresh cb)).isSome)
    (hbound : ∀ l1 l2, ops = l1 ++ l2 → balance l1 ≤ 2147483647) :
    ∀ l1 l2, ops = l1 ++ l2 →
      ∃ (w : World H) (rets : List Nat), run sdk l1 (World.fresh cb) = some (w, rets) ∧
        ((∃ c : int32_t, w = ⟨some ⟨cb, c⟩, [], []⟩ ∧ c.val = balance l1 ∧ 1 ≤ c.val ∧
            l1.count RefCall.Release ≤ l1.count RefCall.AddRef) ∨
         (w = ⟨none, [cb], []⟩ ∧
            l1.count RefCall.Release = l1.count RefCall.AddRef + 1 ∧ l2 = [] ∧
            ∃ l0, l1 = l0 ++ [RefCall.Release])) := by
  intro l1 l2 hsplit
  have hsome1 : (run sdk l1 (World.fresh cb)).isSome := by
    apply run_append_some sdk l1 l2
    rw [← hsplit]
    exact hvalid
  obtain ⟨⟨w, rets⟩, hrun⟩ := Option.isSome_iff_exists.mp hsome1
  have hb1 : ∀ m1 m2, l1 = m1 ++ m2 → balance m1 ≤ 2147483647 := by
    intro m1 m2 hm
    exact hbound m1 (m2 ++ l2) (by rw [hsplit, hm, List.append_assoc])
  obtain ⟨_, hshape⟩ := run_fresh_inv sdk cb l1 w rets hrun
  obtain ⟨hal, hfr⟩ := run_fresh_balance sdk cb l1 w rets hb1 hrun
  refine ⟨w, rets, hrun, ?_⟩
  rcases hshape with ⟨c, rfl, _⟩ | ⟨rfl, l0, _, hl0, _, _, _⟩
  · obtain ⟨hv, hpos⟩ := hal _ rfl
    refine Or.inl ⟨c, rfl, hv, hpos, ?_⟩
    simp only at hv hpos
    simp only [balance] at hv
    omega
  · have hz := hfr rfl
    simp only [balance] at hz
    refine Or.inr ⟨rfl, by omega, ?_, l0, hl0⟩
    cases l2 with
    | nil => rfl
    | cons c rest =>
      exfalso
      have hsome2 : (run sdk (l1 ++ [c]) (World.fresh cb)).isSome := by
        apply run_append_some sdk (l1 ++ [c]) rest
        rw [List.append_assoc, List.singleton_append, ← hsplit]
        exact hvalid
      obtain ⟨⟨w2, r2⟩, h2⟩ := Option.isSome_iff_exists.mp hsome2
      obtain ⟨w0, r0, r, h0, hcall, _⟩ := run_concat_some sdk l1 c _ w2 r2 h2
      rw [hrun] at h0
      simp only [Option.some.injEq, Prod.mk.injEq] at h0
      rw [← h0.1, call_none] at hcall
      exact absurd hcall (by simp)

/-- In a sequence of fewer than `2^31 - 1` calls, `1 + a - r` stays within
`int32_t` on every initial segment. -/
theorem balance_le_of_length (ops : List RefCall) (h : ops.length < 2147483647) :
    ∀ l1 l2, ops = l1 ++ l2 → balance l1 ≤ 2147483647 := by
  intro l1 l2 hsplit
  have hlen : l1.length ≤ ops.length := by
    rw [hsplit, List.length_append]
    omega
  have hc : l1.count RefCall.AddRef ≤ l1.length := List.count_le_length _ _
  simp only [balance]
  omega

/-- Witness of the amended C30 on the sequence `AddRef, Release, Release`, at
the initial segment `AddRef, Release`. -/
theorem refcount_trace_invariant_witness :
    ((run sdk0 [RefCall.AddRef, RefCall.Release, RefCall.Release]
        (World.fresh (7 : Nat))).isSome ∧
      ∀ l1 l2, [RefCall.AddRef, RefCall.Release, RefCall.Release] = l1 ++ l2 →
        balance l1 ≤ 2147483647) ∧
    ∃ (w : World Nat) (rets : List Nat),
      run sdk0 [RefCall.AddRef, RefCall.Release] (World.fresh (7 : Nat)) = some (w, rets) ∧
        ((∃ c : int32_t, w = ⟨some ⟨7, c⟩, [], []⟩ ∧
            c.val = balance [RefCall.AddRef, RefCall.Release] ∧ 1 ≤ c.val ∧
            [RefCall.AddRef, RefCall.Release].count RefCall.Release
              ≤ [RefCall.AddRef, RefCall.Release].count RefCall.AddRef) ∨
         (w = ⟨none, [7], []⟩ ∧
            [RefCall.AddRef, RefCall.Release].count RefCall.Release
              = [RefCall.AddRef, RefCall.Release].count RefCall.AddRef + 1 ∧
            [RefCall.Release] = [] ∧
            ∃ l0, [RefCall.AddRef, RefCall.Release] = l0 ++ [RefCall.Release])) :=
  ⟨⟨by decide, balance_le_of_length _ (by decide)⟩,
    refcount_trace_invariant sdk0 (7 : Nat) [RefCall.AddRef, RefCall.Release, RefCall.Release]
      (by decide) (balance_le_of_length _ (by decide))
      [RefCall.AddRef, RefCall.Release] [RefCall.Release] rfl⟩

/-! ## The event methods and the reference count -/

/-- C31: on every adapter that is in place, for all arguments and whatever
status the handler returns, `VideoInputFrameArrived`, `VideoInputFormatChanged`
and `QueryInterface` leave the adapter in place with its reference count
unchanged, and nothing is torn down. -/
theorem event_methods_keep_refcount {H : Type} (sdk : DeckLinkAPI) (respond : Respond H)
    (cb : H) (c : int32_t) (d : List H) (cs : List (H × HandlerCall)) (iid : Nat)
    (out video_frame audio_packet display_mode : Ptr) (events flags : Nat) :
    (InputCallbackWrapper.VideoInputFrameArrived respond ⟨some ⟨cb, c⟩, d, cs⟩
        video_frame audio_packet).map (fun p => (p.1.wrapper, p.1.dropped))
      = some (some ⟨cb, c⟩, d) ∧
    (InputCallbackWrapper.VideoInputFormatChanged sdk respond ⟨some ⟨cb, c⟩, d, cs⟩
        events display_mode flags).map (fun p => (p.1.wrapper, p.1.dropped))
      = some (some ⟨cb, c⟩, d) ∧
    (InputCallbackWrapper.QueryInterface sdk ⟨some ⟨cb, c⟩, d, cs⟩ iid out).map
        (fun p => (p.1.wrapper, p.1.dropped))
      = some (some ⟨cb, c⟩, d) :=
  ⟨rfl, rfl, rfl⟩

/-! ## Identifier tables: from the device and back -/

/-- C33: for every row `m` of the table of `into_display_mode_type`,
`into_display_mode_type` succeeds on the vendor constant of `m` and
`from_display_mode_type` of its result is that vendor constant again; the two
display-mode tables list the same rows. The shared enumerators are the case
labels of one `switch`, so they are pairwise different. -/
theorem from_into_display_mode_type (t : EnumConstants DisplayModeName)
    (hshared : Function.Injective t.shared) (m : DisplayModeName) :
    (∃ e, into_display_mode_type t (t.bmd m) = Except.ok e ∧
      from_display_mode_type t e = Except.ok (t.bmd m)) ∧
    from_display_mode_type_rows = into_display_mode_type_rows := by
  refine ⟨?_, rfl⟩
  obtain ⟨m1, h1, hl⟩ :=
    switch_case_of_mem into_display_mode_type_rows t.bmd m
      (mem_into_display_mode_type_rows m)
  refine ⟨t.shared m1, by simp only [into_display_mode_type, h1], ?_⟩
  have h2 := switch_case_of_injective from_display_mode_type_rows t.shared hshared m1
    (mem_from_display_mode_type_rows m1)
  simp only [from_display_mode_type, h2, hl]

/-- The concrete display-mode shared enumerators are pairwise different. -/
theorem displayModes0_shared_injective : Function.Injective displayModes0.shared := by
  intro a b hab
  apply displayModeName_index_injective
  simp only [displayModes0] at hab
  omega

/-- Witness of C33 with the concrete constants at the row `Mode4K2160p60`. -/
theorem from_into_display_mode_type_witness :
    Function.Injective displayModes0.shared ∧
    ((∃ e, into_display_mode_type displayModes0
        (displayModes0.bmd DisplayModeName.Mode4K2160p60) = Except.ok e ∧
      from_display_mode_type displayModes0 e
        = Except.ok (displayModes0.bmd DisplayModeName.Mode4K2160p60)) ∧
    from_display_mode_type_rows = into_display_mode_type_rows) :=
  ⟨displayModes0_shared_injective,
    from_into_display_mode_type displayModes0 displayModes0_shared_injective
      DisplayModeName.Mode4K2160p60⟩

/-! ## The message of `flag_configuration_id` -/

/-- C34 (the code at the failing input): on a raw `FlagConfigurationId` value
with no case in its table, `flag_configuration_id` fails with a message that
names `FlagAttributeId`; with the concrete constants and the value `1000` the
message is `Unknown FlagAttributeId: 0x3e8`. -/
theorem flag_configuration_id_message (t : EnumConstants FlagConfigurationName) (x : Int) :
    ((∀ n ∈ flag_configuration_id_rows, t.shared n ≠ x) →
      flag_configuration_id t x = .error ("Unknown FlagAttributeId: " ++ format_hex x)) ∧
    flag_configuration_id flagConfigurations0 1000
      = .error ("Unknown FlagAttributeId: 0x3e8") := by
  refine ⟨fun hx => ?_, rfl⟩
  have h := (switch_case_eq_none_iff flag_configuration_id_rows t.shared x).mpr hx
  simp only [flag_configuration_id, h]

/-! ## Bitmask records: decode, then encode -/

theorem testBit_land_decide (x a j : Nat) :
    (x.testBit a && decide (a = j)) = (x.testBit j && decide (a = j)) := by
  by_cases h : a = j
  · subst h
    rfl
  · simp [h]

theorem from_into_video_input_format_changed_events_land (sdk : DeckLinkAPI)
    (hb : sdk.FormatChangedBits) (x : Nat) :
    from_video_input_format_changed_events sdk (into_video_input_format_changed_events sdk x)
      = x &&& sdk.formatChangedKnown := by
  obtain ⟨a, b, c, _, _, _, h1, h2, h3⟩ := hb
  apply Nat.eq_of_testBit_eq
  intro j
  simp only [from_video_input_format_changed_events, into_video_input_format_changed_events,
    DeckLinkAPI.formatChangedKnown, h1, h2, h3, decide_land_two_pow_ne_zero,
    testBit_ite_lor_two_pow, Nat.testBit_and, Nat.testBit_or, Nat.testBit_two_pow]
  rw [testBit_land_decide x (a) j, testBit_land_decide x (b) j, testBit_land_decide x (c) j]
  simp [Bool.and_or_distrib_left, Bool.or_assoc]

theorem from_into_detected_video_input_format_flags_land (sdk : DeckLinkAPI)
    (hb : sdk.DetectedFormatBits) (x : Nat) :
    from_detected_video_input_format_flags sdk (into_detected_video_input_format_flags sdk x)
      = x &&& sdk.detectedFormatKnown := by
  obtain ⟨idx, _, h1, h2, h3, h4, h5, h6⟩ := hb
  apply Nat.eq_of_testBit_eq
  intro j
  simp only [from_detected_video_input_format_flags, into_detected_video_input_format_flags,
    DeckLinkAPI.detectedFormatKnown, h1, h2, h3, h4, h5, h6, decide_land_two_pow_ne_zero,
    testBit_ite_lor_two_pow, Nat.testBit_and, Nat.testBit_or, Nat.testBit_two_pow]
  rw [testBit_land_decide x (idx 0) j, testBit_land_decide x (idx 1) j, testBit_land_decide x (idx 2) j, testBit_land_decide x (idx 3) j, testBit_land_decide x (idx 4) j, testBit_land_decide x (idx 5) j]
  simp [Bool.and_or_distrib_left, Bool.or_assoc]

theorem from_into_video_input_flags_land (k : DeckLinkFlagConstants)
    (hb : k.VideoInputFlagBits) (x : Nat) :
    from_video_input_flags k (into_video_input_flags k x)
      = k.bmdVideoInputFlagDefault ||| (x &&& k.videoInputKnown) := by
  obtain ⟨idx, _, _, h1, h2, h3⟩ := hb
  apply Nat.eq_of_testBit_eq
  intro j
  simp only [from_video_input_flags, into_video_input_flags,
    DeckLinkFlagConstants.videoInputKnown, h1, h2, h3, decide_land_two_pow_ne_zero,
    testBit_ite_lor_two_pow, Nat.testBit_and, Nat.testBit_or, Nat.testBit_two_pow]
  rw [testBit_land_decide x (idx 0) j, testBit_land_decide x (idx 1) j, testBit_land_decide x (idx 2) j]
  simp [Bool.and_or_distrib_left, Bool.or_assoc]

theorem from_into_supported_video_mode_flags_land (k : DeckLinkFlagConstants)
    (hb : k.SupportedVideoModeBits) (x : Nat) :
    from_supported_video_mode_flags k (into_supported_video_mode_flags k x)
      = k.bmdSupportedVideoModeDefault ||| (x &&& k.supportedVideoModeKnown) := by
  obtain ⟨idx, _, _, h1, h2, h3, h4, h5, h6, h7⟩ := hb
  apply Nat.eq_of_testBit_eq
  intro j
  simp only [from_supported_video_mode_flags, into_supported_video_mode_flags,
    DeckLinkFlagConstants.supportedVideoModeKnown, h1, h2, h3, h4, h5, h6, h7,
    decide_land_two_pow_ne_zero, testBit_ite_lor_two_pow, Nat.testBit_and, Nat.testBit_or,
    Nat.testBit_two_pow]
  rw [testBit_land_decide x (idx 0) j, testBit_land_decide x (idx 1) j, testBit_land_decide x (idx 2) j, testBit_land_decide x (idx 3) j, testBit_land_decide x (idx 4) j, testBit_land_decide x (idx 5) j, testBit_land_decide x (idx 6) j]
  simp [Bool.and_or_distrib_left, Bool.or_assoc]

/-- C32: when the bit constants of the four bitmask types are different single
bits and the two named default constants are `0`, then for every raw value `x`
encoding the decoded record returns exactly the known bits of `x`:
`from_T (into_T x) = x AND K_T`, with `K_T` the OR of the known bits of the
type. Hence `from_T (into_T x) = x` whenever `x` has only known bits set, and
decoding the re-encoded value gives the same record as decoding `x`. -/
theorem from_into_known_bits (sdk : DeckLinkAPI) (k : DeckLinkFlagConstants) (x : Nat)
    (hE : sdk.FormatChangedBits) (hD : sdk.DetectedFormatBits)
    (hV : k.VideoInputFlagBits) (hS : k.SupportedVideoModeBits)
    (hV0 : k.bmdVideoInputFlagDefault = 0) (hS0 : k.bmdSupportedVideoModeDefault = 0) :
    (from_video_input_format_changed_events sdk
        (into_video_input_format_changed_events sdk x) = x &&& sdk.formatChangedKnown ∧
      (x &&& sdk.formatChangedKnown = x →
        from_video_input_format_changed_events sdk
          (into_video_input_format_changed_events sdk x) = x) ∧
      into_video_input_format_changed_events sdk (from_video_input_format_changed_events sdk
          (into_video_input_format_changed_events sdk x))
        = into_video_input_format_changed_events sdk x) ∧
    (from_detected_video_input_format_flags sdk
        (into_detected_video_input_format_flags sdk x) = x &&& sdk.detectedFormatKnown ∧
      (x &&& sdk.detectedFormatKnown = x →
        from_detected_video_input_format_flags sdk
          (into_detected_video_input_format_flags sdk x) = x) ∧
      into_detected_video_input_format_flags sdk (from_detected_video_input_format_flags sdk
          (into_detected_video_input_format_flags sdk x))
        = into_detected_video_input_format_flags sdk x) ∧
    (from_video_input_flags k (into_video_input_flags k x) = x &&& k.videoInputKnown ∧
      (x &&& k.videoInputKnown = x →
        from_video_input_flags k (into_video_input_flags k x) = x) ∧
      into_video_input_flags k (from_video_input_flags k (into_video_input_flags k x))
        = into_video_input_flags k x) ∧
    (from_supported_video_mode_flags k (into_supported_video_mode_flags k x)
        = x &&& k.supportedVideoModeKnown ∧
      (x &&& k.supportedVideoModeKnown = x →
        from_supported_video_mode_flags k (into_supported_video_mode_flags k x) = x) ∧
      into_supported_video_mode_flags k (from_supported_video_mode_flags k
          (into_supported_video_mode_flags k x))
        = into_supported_video_mode_flags k x) := by
  have h1 := from_into_video_input_format_changed_events_land sdk hE x
  have h2 := from_into_detected_video_input_format_flags_land sdk hD x
  have h3 : from_video_input_flags k (into_video_input_flags k x)
      = x &&& k.videoInputKnown := by
    rw [from_into_video_input_flags_land k hV x, hV0, Nat.zero_or]
  have h4 : from_supported_video_mode_flags k (into_supported_video_mode_flags k x)
      = x &&& k.supportedVideoModeKnown := by
    rw [from_into_supported_video_mode_flags_land k hS x, hS0, Nat.zero_or]
  refine ⟨⟨h1, fun hx => by rw [h1, hx], ?_⟩, ⟨h2, fun hx => by rw [h2, hx], ?_⟩,
    ⟨h3, fun hx => by rw [h3, hx], ?_⟩, ⟨h4, fun hx => by rw [h4, hx], ?_⟩⟩
  · rw [h1, into_video_input_format_changed_events_known]
  · rw [h2, into_detected_video_input_format_flags_known]
  · rw [h3, into_video_input_flags_known]
  · rw [h4, into_supported_video_mode_flags_known]

/-- Witness of C32 with the concrete constants and the raw value `181`, which
has known and unknown bits set. -/
theorem from_into_known_bits_witness :
    (sdk0.FormatChangedBits ∧ sdk0.DetectedFormatBits ∧ flags0.VideoInputFlagBits ∧
      flags0.SupportedVideoModeBits ∧ flags0.bmdVideoInputFlagDefault = 0 ∧
      flags0.bmdSupportedVideoModeDefault = 0) ∧
    from_video_input_format_changed_events sdk0
        (into_video_input_format_changed_events sdk0 181) = 181 &&& sdk0.formatChangedKnown ∧
    from_supported_video_mode_flags flags0 (into_supported_video_mode_flags flags0 181)
      = 181 &&& flags0.supportedVideoModeKnown :=
  ⟨⟨sdk0_FormatChangedBits, sdk0_DetectedFormatBits, flags0_VideoInputFlagBits,
      flags0_SupportedVideoModeBits, rfl, rfl⟩,
    (from_into_known_bits sdk0 flags0 181 sdk0_FormatChangedBits sdk0_DetectedFormatBits
      flags0_VideoInputFlagBits flags0_SupportedVideoModeBits rfl rfl).1.1,
    (from_into_known_bits sdk0 flags0 181 sdk0_FormatChangedBits sdk0_DetectedFormatBits
      flags0_VideoInputFlagBits flags0_SupportedVideoModeBits rfl rfl).2.2.2.1⟩

end DeckLink
